import Mathlib

/-!
Verification of the MiniSudoku puzzle engine (`main.py`).

A shallow embedding of the 6×6 mini-Sudoku engine of `MiniSudoku` in
`main.py`.  Grids are Python-style lists of lists of natural numbers
(`0` = empty cell).  In-place mutation of a grid is modelled by explicit
state passing: every function that mutates the Python grid returns the
final state of that grid object alongside its result.  Randomness
(`random.shuffle`, `random.choice`) is modelled by passing the shuffled
lists as explicit parameters; a "random stream" of the program is a
choice of those parameters, subject to the constraint that a shuffle of a
list produces a permutation of it.

The recursive backtracking procedures (`solve` and the `backtrack`
closure of `count_solutions`) are embedded with an explicit fuel
argument; each recursive call of the Python code fills one empty cell, so
a fuel of `37` (> 36 cells) is always sufficient for a 6×6 grid, and the
fuel-exhaustion branch is proved unreachable where it matters.
-/

set_option autoImplicit false

namespace MiniSudoku

/-- A Python grid: a list of rows, each a list of cell values (0 = empty). -/
abbrev Grid := List (List Nat)

/-- Python `grid[i][j]` (out-of-range reads default to 0; all claims quantify over
in-range indices, where this agrees with Python). -/
def getCell (g : Grid) (i j : Nat) : Nat :=
  (g.getD i []).getD j 0

/-- Python `grid[i][j] = v` (out-of-range writes leave the grid unchanged). -/
def setCell (g : Grid) (i j v : Nat) : Grid :=
  g.set i ((g.getD i []).set j v)

/-- The field `self.size` set in `MiniSudoku.__init__`. -/
def size : Nat := 6

/-- Embedding of `is_valid_move(row, col, num, grid)` (`main.py` lines 261-285): `num`
must not already occur in row `row`, in column `col`, or in the 2×3 box
with origin `((row // 2) * 2, (col // 3) * 3)`. -/
def is_valid_move (row col num : Nat) (g : Grid) : Bool :=
  -- Check row
  ((List.range size).all fun j => getCell g row j ≠ num) &&
  -- Check column
  ((List.range size).all fun i => getCell g i col ≠ num) &&
  -- Check 2x3 box
  (let box_row := (row / 2) * 2
   let box_col := (col / 3) * 3
   (List.range 2).all fun di =>
     (List.range 3).all fun dj =>
       getCell g (box_row + di) (box_col + dj) ≠ num)

/-- The first empty cell in row-major order: the cell at which the
`for i / for j / if grid[i][j] == 0` scan of `solve` (and of `backtrack`
inside `count_solutions`) stops. -/
def firstEmpty (g : Grid) : Option (Nat × Nat) :=
  (List.range size).findSome? fun i =>
    (List.range size).findSome? fun j =>
      if getCell g i j = 0 then some (i, j) else none

/-- The `for num in range(1, self.size + 1)` loop body of `solve`
(`main.py` lines 292-297), parameterised by the recursive call `rec`.
Returns the Python return value together with the final state of the grid
object. -/
def solveNums (rec : Grid → Bool × Grid) (i j : Nat) :
    List Nat → Grid → Bool × Grid
  | [], g => (false, g)
  | num :: rest, g =>
    if is_valid_move i j num g then
      if (rec (setCell g i j num)).1 then (true, (rec (setCell g i j num)).2)
      else solveNums rec i j rest (setCell (rec (setCell g i j num)).2 i j 0)
    else solveNums rec i j rest g

/-- Embedding of `solve(grid)` (`main.py` lines 287-299), fuelled.  The nested
`for i / for j` loops act on the first empty cell only (the inner
`return False` aborts the scan), so the body reduces to: find the first
empty cell, try `num = 1..6` there, and succeed immediately when no empty
cell remains. -/
def solveS : Nat → Grid → Bool × Grid
  | 0, g => (false, g)
  | fuel + 1, g =>
    match firstEmpty g with
    | none => (true, g)
    | some (i, j) => solveNums (solveS fuel) i j [1, 2, 3, 4, 5, 6] g

/-- Runs `solve(grid)` with enough fuel for any 6×6 grid. -/
def solve (g : Grid) : Bool × Grid := solveS 37 g

/-- The `for num in range(1, self.size + 1)` loop body of the `backtrack`
closure of `count_solutions` (`main.py` lines 370-377), parameterised by
the recursive call `rec`; `sols` is the running `solutions` counter.
Returns the Python return value together with the final state of the grid
object. -/
def countNums (rec : Grid → Nat × Grid) (limit i j : Nat) :
    List Nat → Nat → Grid → Nat × Grid
  | [], sols, g => (sols, g)
  | num :: rest, sols, g =>
    if is_valid_move i j num g then
      if limit ≤ sols + (rec (setCell g i j num)).1 then
        (sols + (rec (setCell g i j num)).1, setCell (rec (setCell g i j num)).2 i j 0)
      else countNums rec limit i j rest (sols + (rec (setCell g i j num)).1)
        (setCell (rec (setCell g i j num)).2 i j 0)
    else countNums rec limit i j rest sols g

/-- The `backtrack` closure of `count_solutions` (`main.py` lines
365-378), fuelled. -/
def backtrackS (limit : Nat) : Nat → Grid → Nat × Grid
  | 0, g => (0, g)
  | fuel + 1, g =>
    match firstEmpty g with
    | none => (1, g)
    | some (i, j) => countNums (backtrackS limit fuel) limit i j [1, 2, 3, 4, 5, 6] 0 g

/-- Embedding of `count_solutions(grid, limit)` (`main.py` lines 363-380): run
`backtrack` on a deep copy of `grid` and return its count.  Since
`backtrack` receives a private copy, the caller's grid object is untouched
by construction; `count_solutions_grid_after` models the state of the
caller's grid object after the call. -/
def count_solutions (g : Grid) (limit : Nat) : Nat :=
  (backtrackS limit 37 g).1

/-- The state of the caller's grid object after `count_solutions`
returns: `backtrack` runs on `copy.deepcopy(grid)`, a distinct object, so
the caller's object still holds the value it held at the call. -/
def count_solutions_grid_after (g : Grid) (_limit : Nat) : Grid := g

/-- Embedding of `make_move(row, col, num)` (`main.py` lines 395-408), restricted to
the two grids it reads and writes; returns the Python return value and
the final working grid.  (The `moves_made` / `wrong_moves` counters the
method also updates never touch the grids and are irrelevant to the
claims about it.) -/
def make_move (grid initial_grid : Grid) (row col num : Nat) : Bool × Grid :=
  if getCell initial_grid row col ≠ 0 then
    (false, grid)  -- Can't change initial numbers
  else if num = 0 || is_valid_move row col num grid then
    (true, setCell grid row col num)
  else
    (false, grid)

/-- All 36 cells in the row-major order of the
`for i in range(self.size): for j in range(self.size)` loops. -/
def allCells : List (Nat × Nat) :=
  (List.range size).flatMap fun i => (List.range size).map fun j => (i, j)

/-- The loop body sequence of `check_conflicts` (`main.py` lines 433-440)
over a list of cells: for each non-empty cell, temporarily zero it, test
`is_valid_move`, and restore the value.  Returns the conflict list and
the final state of the grid object. -/
def checkConflictsAux : List (Nat × Nat) → Grid → List (Nat × Nat) × Grid
  | [], g => ([], g)
  | (i, j) :: rest, g =>
    if getCell g i j ≠ 0 then
      -- temporarily remove (set 0), check, then restore the value
      if ¬ is_valid_move i j (getCell g i j) (setCell g i j 0) then
        ((i, j) :: (checkConflictsAux rest (setCell (setCell g i j 0) i j (getCell g i j))).1,
         (checkConflictsAux rest (setCell (setCell g i j 0) i j (getCell g i j))).2)
      else checkConflictsAux rest (setCell (setCell g i j 0) i j (getCell g i j))
    else checkConflictsAux rest g

/-- Embedding of `check_conflicts()` (`main.py` lines 430-441): the conflict list and
the state of `self.grid` after the call. -/
def check_conflicts (g : Grid) : List (Nat × Nat) × Grid :=
  checkConflictsAux allCells g

/-- Embedding of `is_complete()` (`main.py` lines 410-416). -/
def is_complete (g : Grid) : Bool :=
  (List.range size).all fun i => (List.range size).all fun j =>
    getCell g i j ≠ 0

/-- The six cells of the 2×3 box with origin `(r, c)`, in the row-major
order of the `fill_box` loops. -/
def boxCells (r c : Nat) : List (Nat × Nat) :=
  [(r, c), (r, c + 1), (r, c + 2), (r + 1, c), (r + 1, c + 1), (r + 1, c + 2)]

/-- Embedding of `fill_box(start_row, start_col)` (`main.py` lines 320-329) with the
shuffled list `nums` passed explicitly. -/
def fill_box (g : Grid) (start_row start_col : Nat) (nums : List Nat) : Grid :=
  ((boxCells start_row start_col).zip nums).foldl
    (fun g' p => setCell g' p.1.1 p.1.2 p.2) g

/-- Embedding of `fill_diagonal_boxes()` (`main.py` lines 312-318) with the two
shuffles passed explicitly.  `range(0, 6, 3)` is `[0, 3]`; `box = 0 < 3`
gives `fill_box(0, 0)` and `box = 3` gives `fill_box(2, 3 - 3)`, i.e.
`fill_box(2, 0)`. -/
def fill_diagonal_boxes (g : Grid) (shuffle1 shuffle2 : List Nat) : Grid :=
  ([(0, shuffle1), (3, shuffle2)] : List (Nat × List Nat)).foldl
    (fun g' p => if p.1 < 3 then fill_box g' 0 p.1 p.2 else fill_box g' 2 (p.1 - 3) p.2) g

/-- The empty 6×6 working grid set up by `__init__` / `generate_puzzle`. -/
def emptyGrid : Grid :=
  List.replicate size (List.replicate size 0)

/-- Embedding of `generate_complete_grid()` (`main.py` lines 301-310) starting from
working grid `g`: fill the two "diagonal" boxes, then `solve`; returns
the final working grid, which is also deep-copied into `self.solution`. -/
def generate_complete_grid (g : Grid) (shuffle1 shuffle2 : List Nat) : Grid :=
  (solve (fill_diagonal_boxes g shuffle1 shuffle2)).2

/-- The `difficulty_settings.get(difficulty, 20)` lookup of
`remove_numbers` (`main.py` lines 333-339). -/
def difficultyTarget : String → Nat
  | "easy" => 15      -- Remove 15 numbers (leave 21)
  | "medium" => 20    -- Remove 20 numbers (leave 16)
  | "hard" => 25      -- Remove 25 numbers (leave 11)
  | _ => 20

/-- The `for row, col in cells` loop of `remove_numbers` (`main.py` lines
344-358): stop once `removed >= cells_to_remove`; otherwise tentatively
zero the cell and keep the removal exactly when
`count_solutions(test_grid) == 1` (default limit 2). -/
def removeLoop : List (Nat × Nat) → Nat → Nat → Grid → Grid
  | [], _, _, g => g
  | (row, col) :: rest, removed, target, g =>
    if target ≤ removed then g
    else
      -- backup, temporarily remove, test uniqueness, restore on failure
      if count_solutions (setCell g row col 0) 2 = 1 then
        removeLoop rest (removed + 1) target (setCell g row col 0)
      else
        removeLoop rest removed target
          (setCell (setCell g row col 0) row col (getCell g row col))

/-- Embedding of `remove_numbers(difficulty)` (`main.py` lines 331-361) with the
shuffled cell visiting order passed explicitly; returns the final working
grid, which is also deep-copied into `self.initial_grid`. -/
def remove_numbers (g : Grid) (difficulty : String) (cells : List (Nat × Nat)) : Grid :=
  removeLoop cells 0 (difficultyTarget difficulty) g

/-- Embedding of `generate_puzzle(difficulty)` (`main.py` lines 382-393) under the
random stream `(shuffle1, shuffle2, cells)`: the pair
`(solution, initial_grid)` it stores.  (After the call `self.grid` holds
the same value as `initial_grid`.) -/
def generate_puzzle (difficulty : String) (shuffle1 shuffle2 : List Nat)
    (cells : List (Nat × Nat)) : Grid × Grid :=
  let complete := generate_complete_grid emptyGrid shuffle1 shuffle2
  (complete, remove_numbers complete difficulty cells)

/-! ## Specification-side predicates

These are written from the spec's wording ("every row, column, and box
contains each value 1..6 exactly once", "valid completion"), to be
compared with the code-side functions above. -/

/-- The cells of row `i`. -/
def rowCells (i : Nat) : List (Nat × Nat) :=
  (List.range size).map fun j => (i, j)

/-- The cells of column `j`. -/
def colCells (j : Nat) : List (Nat × Nat) :=
  (List.range size).map fun i => (i, j)

/-- The 18 constraint units of the 6×6 board: 6 rows, 6 columns, and the
6 boxes with origins `(2a, 3b)` for `a < 3`, `b < 2`. -/
def unitsList : List (List (Nat × Nat)) :=
  ((List.range size).map rowCells) ++
  ((List.range size).map colCells) ++
  ((List.range 3).flatMap fun a => (List.range 2).map fun b => boxCells (2 * a) (3 * b))

/-- Spec §3: a complete valid grid — every row, column, and box contains
each value 1..6 exactly once. -/
def isValidComplete (g : Grid) : Bool :=
  unitsList.all fun u => (List.range size).all fun k =>
    u.countP (fun p => getCell g p.1 p.2 = k + 1) = 1

/-- A partial grid is consistent when no row, column, or box holds the
same nonzero value twice. -/
def consistentB (g : Grid) : Bool :=
  unitsList.all fun u => (List.range size).all fun k =>
    u.countP (fun p => getCell g p.1 p.2 = k + 1) ≤ 1

/-- The grid has 6 rows of 6 cells. -/
def shapeB (g : Grid) : Bool :=
  g.length = size && g.all fun r => r.length = size

/-- Every cell value is at most 6. -/
def boundedB (g : Grid) : Bool :=
  allCells.all fun p => getCell g p.1 p.2 ≤ 6

/-- The number of filled (nonzero) cells among the 36 board cells. -/
def filledCount (g : Grid) : Nat :=
  allCells.countP fun p => getCell g p.1 p.2 ≠ 0

/-- The number of empty cells among the 36 board cells. -/
def zerosCount (g : Grid) : Nat :=
  allCells.countP fun p => getCell g p.1 p.2 = 0

/-- Grid `g'` is a valid completion of `g`: a 6×6 grid of values 1..6 that
agrees with `g` on every filled cell of `g` and whose every row, column,
and box contains each value 1..6 exactly once. -/
def Completes (g g' : Grid) : Prop :=
  shapeB g' = true ∧
  (∀ i j, i < size → j < size → getCell g i j ≠ 0 → getCell g' i j = getCell g i j) ∧
  (∀ i j, i < size → j < size → 1 ≤ getCell g' i j ∧ getCell g' i j ≤ 6) ∧
  isValidComplete g' = true

/-! ### Concrete data used in counterexamples and witnesses -/

/-- The identity outcome of `random.shuffle([1..6])`. -/
def idPerm : List Nat := [1, 2, 3, 4, 5, 6]

/-- Another legitimate shuffle outcome of `[1..6]`. -/
def badPerm : List Nat := [2, 3, 4, 5, 1, 6]

/-- The seed `fill_diagonal_boxes` builds from the shuffles `idPerm`,
`badPerm`: the boxes at (0,0) and (2,0) share columns 0-2, and this seed
admits no completion. -/
def seedBad : Grid :=
  [[1, 2, 3, 0, 0, 0],
   [4, 5, 6, 0, 0, 0],
   [2, 3, 4, 0, 0, 0],
   [5, 1, 6, 0, 0, 0],
   [0, 0, 0, 0, 0, 0],
   [0, 0, 0, 0, 0, 0]]

/-- A complete grid violating every constraint: all cells hold 1. -/
def allOnesGrid : Grid := List.replicate 6 (List.replicate 6 1)

/-- A grid on which `solve` fails immediately: cell (0,5) admits no value
(1-5 sit in row 0 and 6 sits in column 5). -/
def stuckGrid : Grid :=
  [[1, 2, 3, 4, 5, 0],
   [0, 0, 0, 0, 0, 6],
   [0, 0, 0, 0, 0, 0],
   [0, 0, 0, 0, 0, 0],
   [0, 0, 0, 0, 0, 0],
   [0, 0, 0, 0, 0, 0]]

/-- A concrete valid complete grid (every row, column, and box a
permutation of 1..6), used as a witness input. -/
def fullGrid0 : Grid :=
  [[1, 2, 3, 4, 5, 6],
   [4, 5, 6, 1, 2, 3],
   [2, 3, 4, 5, 6, 1],
   [5, 6, 1, 2, 3, 4],
   [3, 1, 2, 6, 4, 5],
   [6, 4, 5, 3, 1, 2]]

/-- The reference enumeration of all completions reachable by the
backtracking order: used to relate `count_solutions` to the set of valid
completions. -/
def solsAux : Nat → Grid → List Grid
  | 0, _ => []
  | fuel + 1, g =>
    match firstEmpty g with
    | none => [g]
    | some (i, j) =>
      ([1, 2, 3, 4, 5, 6].filter fun v => is_valid_move i j v g).flatMap
        fun v => solsAux fuel (setCell g i j v)

/-! ## Basic lemmas about `getCell` / `setCell` -/

theorem set_getD_self {α : Type} : ∀ (l : List α) (n : Nat) (d : α),
    l.set n (l.getD n d) = l
  | [], _, _ => rfl
  | _ :: _, 0, _ => rfl
  | a :: l, n + 1, d => by
    simpa [List.set, List.getD] using set_getD_self l n d

theorem getD_set_self {α : Type} : ∀ (l : List α) (n : Nat) (a d : α),
    (l.set n a).getD n d = if n < l.length then a else d
  | [], _, _, _ => by simp [List.getD]
  | _ :: _, 0, _, _ => by simp [List.getD]
  | b :: l, n + 1, a, d => by
    simpa [List.set, List.getD, Nat.succ_lt_succ_iff] using getD_set_self l n a d

theorem getD_set_ne {α : Type} (l : List α) {n m : Nat} (h : n ≠ m) (a d : α) :
    (l.set n a).getD m d = l.getD m d := by
  rw [List.getD_eq_getElem?_getD, List.getElem?_set_ne h, ← List.getD_eq_getElem?_getD]

theorem getCell_setCell_ne {g : Grid} {i j a b : Nat} (v : Nat)
    (h : ¬(a = i ∧ b = j)) :
    getCell (setCell g i j v) a b = getCell g a b := by
  unfold getCell setCell
  rcases eq_or_ne a i with rfl | hne
  · have hb : b ≠ j := fun hb => h ⟨rfl, hb⟩
    rw [getD_set_self]
    split
    · exact getD_set_ne _ (Ne.symm hb) _ _
    · have hrow : g.getD a [] = [] := by
        rw [List.getD_eq_getElem?_getD, List.getElem?_eq_none (by omega), Option.getD_none]
      rw [hrow]
  · rw [getD_set_ne _ (Ne.symm hne)]

theorem getCell_setCell_eq {g : Grid} {i j : Nat} (v : Nat)
    (hi : i < g.length) (hj : j < (g.getD i []).length) :
    getCell (setCell g i j v) i j = v := by
  unfold getCell setCell
  rw [getD_set_self, if_pos hi, getD_set_self, if_pos hj]

theorem setCell_setCell {g : Grid} {i j : Nat} (a b : Nat) :
    setCell (setCell g i j a) i j b = setCell g i j b := by
  unfold setCell
  by_cases hi : i < g.length
  · rw [getD_set_self, if_pos hi, List.set_set, List.set_set]
  · have e : ∀ r : List Nat, g.set i r = g := fun r =>
      List.set_eq_of_length_le (Nat.le_of_not_lt hi)
    simp only [e]

theorem setCell_self (g : Grid) (i j : Nat) :
    setCell g i j (getCell g i j) = g := by
  unfold setCell getCell
  rw [set_getD_self, set_getD_self]

theorem length_setCell (g : Grid) (i j v : Nat) :
    (setCell g i j v).length = g.length :=
  List.length_set ..

theorem getD_eq_getElem {α : Type} (l : List α) {n : Nat} (d : α)
    (h : n < l.length) : l.getD n d = l[n] := by
  rw [List.getD_eq_getElem?_getD, List.getElem?_eq_getElem h, Option.getD_some]

/-- The predicate `shapeB` unpacked to indexwise row lengths. -/
theorem shapeB_iff {g : Grid} :
    shapeB g = true ↔ g.length = 6 ∧ ∀ i, i < 6 → (g.getD i []).length = 6 := by
  unfold shapeB size
  rw [Bool.and_eq_true, decide_eq_true_iff, List.all_eq_true]
  constructor
  · rintro ⟨hl, hr⟩
    refine ⟨hl, fun i hi => ?_⟩
    have hi' : i < g.length := by omega
    rw [getD_eq_getElem _ _ hi']
    exact decide_eq_true_iff.mp (hr _ (List.getElem_mem hi'))
  · rintro ⟨hl, hr⟩
    refine ⟨hl, fun r hrm => ?_⟩
    rcases List.mem_iff_getElem.mp hrm with ⟨i, hi, rfl⟩
    have hi6 : i < 6 := by omega
    have := hr i hi6
    rw [getD_eq_getElem _ _ hi] at this
    exact decide_eq_true_iff.mpr this

theorem shapeB_setCell {g : Grid} (i j v : Nat) (h : shapeB g = true) :
    shapeB (setCell g i j v) = true := by
  rw [shapeB_iff] at h ⊢
  obtain ⟨hl, hr⟩ := h
  refine ⟨by rw [length_setCell]; exact hl, fun a ha => ?_⟩
  unfold setCell
  rcases eq_or_ne a i with rfl | hne
  · have hil : a < g.length := by omega
    rw [getD_set_self, if_pos hil, List.length_set]
    exact hr _ ha
  · rw [getD_set_ne _ (Ne.symm hne)]; exact hr _ ha

theorem getCell_le_of_bounded {g : Grid} (h : boundedB g = true)
    {i j : Nat} (hi : i < 6) (hj : j < 6) : getCell g i j ≤ 6 := by
  unfold boundedB at h
  rw [List.all_eq_true] at h
  have := h (i, j) (by
    unfold allCells size
    simp only [List.mem_flatMap, List.mem_map, List.mem_range]
    exact ⟨i, hi, j, hj, rfl⟩)
  exact decide_eq_true_iff.mp this

/-! ## `allCells` and counting lemmas -/

theorem mem_allCells {a b : Nat} : (a, b) ∈ allCells ↔ a < 6 ∧ b < 6 := by
  unfold allCells size
  simp only [List.mem_flatMap, List.mem_map, List.mem_range]
  constructor
  · rintro ⟨i, hi, j, hj, h⟩
    obtain ⟨rfl, rfl⟩ : i = a ∧ j = b := by
      constructor <;> [exact congrArg Prod.fst h; exact congrArg Prod.snd h]
    exact ⟨hi, hj⟩
  · rintro ⟨ha, hb⟩
    exact ⟨a, ha, b, hb, rfl⟩

theorem nodup_allCells : allCells.Nodup := by decide

/-- Split `allCells` around a given board cell, with the cell absent from
both sides. -/
theorem allCells_split {p : Nat × Nat} (h : p ∈ allCells) :
    ∃ s t, allCells = s ++ p :: t ∧ p ∉ s ∧ p ∉ t := by
  rcases List.append_of_mem h with ⟨s, t, hst⟩
  have hnd : (s ++ p :: t).Nodup := hst ▸ nodup_allCells
  rw [List.nodup_append] at hnd
  refine ⟨s, t, hst, fun hp => ?_, fun hp => ?_⟩
  · exact hnd.2.2 hp (List.mem_cons_self _ _)
  · exact (List.nodup_cons.mp hnd.2.1).1 hp

/-! ## `firstEmpty` -/

theorem firstEmpty_eq_none_iff {g : Grid} :
    firstEmpty g = none ↔ ∀ i j, i < 6 → j < 6 → getCell g i j ≠ 0 := by
  unfold firstEmpty size
  rw [List.findSome?_eq_none_iff]
  constructor
  · intro h i j hi hj hz
    have := h i (List.mem_range.mpr hi)
    rw [List.findSome?_eq_none_iff] at this
    have := this j (List.mem_range.mpr hj)
    rw [if_pos hz] at this
    exact Option.some_ne_none _ this
  · intro h i hi
    rw [List.findSome?_eq_none_iff]
    intro j hj
    rw [if_neg (h i j (List.mem_range.mp hi) (List.mem_range.mp hj))]

theorem firstEmpty_some {g : Grid} {i j : Nat} (h : firstEmpty g = some (i, j)) :
    i < 6 ∧ j < 6 ∧ getCell g i j = 0 := by
  unfold firstEmpty size at h
  rcases List.exists_of_findSome?_eq_some h with ⟨a, ha, h2⟩
  rcases List.exists_of_findSome?_eq_some h2 with ⟨b, hb, h3⟩
  by_cases hz : getCell g a b = 0
  · rw [if_pos hz] at h3
    obtain ⟨rfl, rfl⟩ : a = i ∧ b = j := by
      have := Option.some.inj h3
      exact ⟨congrArg Prod.fst this, congrArg Prod.snd this⟩
    exact ⟨List.mem_range.mp ha, List.mem_range.mp hb, hz⟩
  · rw [if_neg hz] at h3
    exact absurd h3 (Option.noConfusion)

/-! ## Counting filled and empty cells -/

theorem filledCount_complete {g : Grid} (h : is_complete g = true) :
    filledCount g = 36 := by
  unfold is_complete size at h
  rw [List.all_eq_true] at h
  unfold filledCount
  have : ∀ p ∈ allCells, (decide (getCell g p.1 p.2 ≠ 0)) = true := by
    rintro ⟨a, b⟩ hp
    rcases mem_allCells.mp hp with ⟨ha, hb⟩
    have := h a (List.mem_range.mpr ha)
    rw [List.all_eq_true] at this
    exact this b (List.mem_range.mpr hb)
  calc allCells.countP _ = allCells.length := List.countP_eq_length.mpr this
    _ = 36 := by decide

theorem filledCount_setCell_zero_ge (g : Grid) (i j : Nat) :
    filledCount g ≤ filledCount (setCell g i j 0) + 1 := by
  unfold filledCount
  by_cases hmem : (i, j) ∈ allCells
  · rcases allCells_split hmem with ⟨s, t, hst, hs, ht⟩
    rw [hst, List.countP_append, List.countP_append, List.countP_cons, List.countP_cons]
    have hseq : List.countP (fun p => decide (getCell (setCell g i j 0) p.1 p.2 ≠ 0)) s =
        List.countP (fun p => decide (getCell g p.1 p.2 ≠ 0)) s := by
      apply List.countP_congr
      rintro ⟨a, b⟩ hq
      rw [getCell_setCell_ne]
      rintro ⟨rfl, rfl⟩; exact hs hq
    have hteq : List.countP (fun p => decide (getCell (setCell g i j 0) p.1 p.2 ≠ 0)) t =
        List.countP (fun p => decide (getCell g p.1 p.2 ≠ 0)) t := by
      apply List.countP_congr
      rintro ⟨a, b⟩ hq
      rw [getCell_setCell_ne]
      rintro ⟨rfl, rfl⟩; exact ht hq
    rw [hseq, hteq]
    have h1 : (if decide (getCell g (i, j).1 (i, j).2 ≠ 0) = true then 1 else 0) ≤ 1 := by
      split <;> omega
    omega
  · have heq : List.countP (fun p => decide (getCell (setCell g i j 0) p.1 p.2 ≠ 0)) allCells =
        List.countP (fun p => decide (getCell g p.1 p.2 ≠ 0)) allCells := by
      apply List.countP_congr
      rintro ⟨a, b⟩ hq
      rw [getCell_setCell_ne]
      rintro ⟨rfl, rfl⟩; exact hmem hq
    omega

theorem zerosCount_setCell {g : Grid} {i j v : Nat} (hs : shapeB g = true)
    (hi : i < 6) (hj : j < 6) (hz : getCell g i j = 0) (hv : v ≠ 0) :
    zerosCount (setCell g i j v) + 1 = zerosCount g := by
  obtain ⟨hl, hr⟩ := shapeB_iff.mp hs
  have hig : i < g.length := by omega
  have hjg : j < (g.getD i []).length := by rw [hr i hi]; omega
  have hmem : (i, j) ∈ allCells := mem_allCells.mpr ⟨hi, hj⟩
  rcases allCells_split hmem with ⟨s, t, hst, hs', ht⟩
  unfold zerosCount
  have hseq : List.countP (fun p => decide (getCell (setCell g i j v) p.1 p.2 = 0)) s =
      List.countP (fun p => decide (getCell g p.1 p.2 = 0)) s := by
    apply List.countP_congr
    rintro ⟨a, b⟩ hq
    rw [getCell_setCell_ne]
    rintro ⟨rfl, rfl⟩; exact hs' hq
  have hteq : List.countP (fun p => decide (getCell (setCell g i j v) p.1 p.2 = 0)) t =
      List.countP (fun p => decide (getCell g p.1 p.2 = 0)) t := by
    apply List.countP_congr
    rintro ⟨a, b⟩ hq
    rw [getCell_setCell_ne]
    rintro ⟨rfl, rfl⟩; exact ht hq
  have hcneg : List.countP (fun p => decide (getCell (setCell g i j v) p.1 p.2 = 0)) ((i, j) :: t)
      = List.countP (fun p => decide (getCell (setCell g i j v) p.1 p.2 = 0)) t := by
    apply List.countP_cons_of_neg
    simp [getCell_setCell_eq v hig hjg, hv]
  have hcpos : List.countP (fun p => decide (getCell g p.1 p.2 = 0)) ((i, j) :: t)
      = List.countP (fun p => decide (getCell g p.1 p.2 = 0)) t + 1 := by
    apply List.countP_cons_of_pos
    simp [hz]
  rw [hst, List.countP_append, List.countP_append, hcneg, hcpos, hseq, hteq]
  omega

/-! ## Restoration: the backtracking procedures put every cell back

The recursive searches of `solve` and `count_solutions` place a value in
an empty cell and always reset it to 0 before moving on, so the grid
object they mutate always ends a call holding the value it held at entry
— for `count_solutions` entirely, and for `solve` whenever it returns
`False`. -/

theorem countNums_grid_eq (rec : Grid → Nat × Grid) (limit i j : Nat)
    (hrec : ∀ g', (rec g').2 = g') :
    ∀ (nums : List Nat) (sols : Nat) (g : Grid), getCell g i j = 0 →
      (countNums rec limit i j nums sols g).2 = g
  | [], sols, g, _ => rfl
  | num :: rest, sols, g, hz => by
    unfold countNums
    have hrestore : setCell (rec (setCell g i j num)).2 i j 0 = g := by
      rw [hrec, setCell_setCell, ← hz, setCell_self]
    rw [hrestore]
    split
    · split
      · rfl
      · exact countNums_grid_eq rec limit i j hrec rest _ _ hz
    · exact countNums_grid_eq rec limit i j hrec rest _ _ hz

theorem backtrackS_grid_eq (limit : Nat) :
    ∀ (fuel : Nat) (g : Grid), (backtrackS limit fuel g).2 = g
  | 0, g => rfl
  | fuel + 1, g => by
    unfold backtrackS
    cases hfe : firstEmpty g with
    | none => rfl
    | some p =>
      obtain ⟨i, j⟩ := p
      exact countNums_grid_eq _ limit i j (backtrackS_grid_eq limit fuel) _ 0 g
        (firstEmpty_some hfe).2.2

theorem solveNums_grid_eq (rec : Grid → Bool × Grid) (i j : Nat)
    (hrec : ∀ g', (rec g').1 = false → (rec g').2 = g') :
    ∀ (nums : List Nat) (g : Grid), getCell g i j = 0 →
      (solveNums rec i j nums g).1 = false → (solveNums rec i j nums g).2 = g
  | [], g, _, _ => rfl
  | num :: rest, g, hz, hfal => by
    unfold solveNums at hfal ⊢
    by_cases hvm : is_valid_move i j num g = true
    · rw [if_pos hvm] at hfal ⊢
      by_cases hok : (rec (setCell g i j num)).1 = true
      · rw [if_pos hok] at hfal
        exact absurd hfal (by simp)
      · rw [if_neg hok] at hfal ⊢
        have h2 : (rec (setCell g i j num)).2 = setCell g i j num :=
          hrec _ (Bool.not_eq_true _ ▸ hok)
        have hrestore : setCell (rec (setCell g i j num)).2 i j 0 = g := by
          rw [h2, setCell_setCell, ← hz, setCell_self]
        rw [hrestore] at hfal ⊢
        exact solveNums_grid_eq rec i j hrec rest g hz hfal
    · rw [if_neg hvm] at hfal ⊢
      exact solveNums_grid_eq rec i j hrec rest g hz hfal

theorem solveS_grid_eq :
    ∀ (fuel : Nat) (g : Grid), (solveS fuel g).1 = false → (solveS fuel g).2 = g
  | 0, g, _ => rfl
  | fuel + 1, g, hfal => by
    unfold solveS at hfal ⊢
    cases hfe : firstEmpty g with
    | none => rw [hfe] at hfal
    | some p =>
      obtain ⟨i, j⟩ := p
      rw [hfe] at hfal
      exact solveNums_grid_eq _ i j (solveS_grid_eq fuel) _ g (firstEmpty_some hfe).2.2 hfal

/-! ## Restoration in `check_conflicts` -/

theorem checkConflictsAux_grid_eq :
    ∀ (cells : List (Nat × Nat)) (g : Grid), (checkConflictsAux cells g).2 = g
  | [], g => rfl
  | (i, j) :: rest, g => by
    unfold checkConflictsAux
    have hrestore : setCell (setCell g i j 0) i j (getCell g i j) = g := by
      rw [setCell_setCell, setCell_self]
    rw [hrestore]
    split
    · split
      · exact checkConflictsAux_grid_eq rest g
      · exact checkConflictsAux_grid_eq rest g
    · exact checkConflictsAux_grid_eq rest g

/-! ## Units: what `is_valid_move` scans versus rows/columns/boxes -/

/-- Cell `(a, b)` lies in the scan region of a move at `(i, j)`: same row,
same column, or same 2×3 box of the tiling. -/
def sameUnit (i j a b : Nat) : Prop :=
  a = i ∨ b = j ∨ (a / 2 = i / 2 ∧ b / 3 = j / 3)

/-- The three scans of `is_valid_move`, unpacked. -/
theorem is_valid_move_iff {row col num : Nat} {g : Grid} :
    is_valid_move row col num g = true ↔
      (∀ j, j < 6 → getCell g row j ≠ num) ∧
      (∀ i, i < 6 → getCell g i col ≠ num) ∧
      (∀ di dj, di < 2 → dj < 3 →
        getCell g ((row / 2) * 2 + di) ((col / 3) * 3 + dj) ≠ num) := by
  unfold is_valid_move size
  rw [Bool.and_eq_true, Bool.and_eq_true]
  simp only [List.all_eq_true, List.mem_range, decide_eq_true_eq]
  constructor
  · rintro ⟨⟨h1, h2⟩, h3⟩
    exact ⟨fun j hj => h1 j hj, fun i hi => h2 i hi,
      fun di dj hdi hdj => h3 di hdi dj hdj⟩
  · rintro ⟨h1, h2, h3⟩
    exact ⟨⟨fun j hj => h1 j hj, fun i hi => h2 i hi⟩,
      fun di hdi dj hdj => h3 di dj hdi hdj⟩

/-- A valid move at `(i, j)` conflicts with no cell sharing a unit with
`(i, j)`. -/
theorem is_valid_move_covers {row col num : Nat} {g : Grid}
    (h : is_valid_move row col num g = true) {a b : Nat}
    (ha : a < 6) (hb : b < 6) (hu : sameUnit row col a b) :
    getCell g a b ≠ num := by
  rcases is_valid_move_iff.mp h with ⟨hrow, hcol, hbox⟩
  rcases hu with rfl | rfl | ⟨h2, h3⟩
  · exact hrow b hb
  · exact hcol a ha
  · have hx := hbox (a - (row / 2) * 2) (b - (col / 3) * 3) (by omega) (by omega)
    have e1 : (row / 2) * 2 + (a - (row / 2) * 2) = a := by omega
    have e2 : (col / 3) * 3 + (b - (col / 3) * 3) = b := by omega
    rw [e1, e2] at hx
    exact hx

/-- Conversely, every scanned in-range cell shares a unit with `(i, j)`,
so a move conflicting with no unit partner is valid. -/
theorem is_valid_move_of_units {row col num : Nat} {g : Grid}
    (h : ∀ a b, a < 6 → b < 6 → sameUnit row col a b → getCell g a b ≠ num)
    (hrow : row < 6) (hcol : col < 6) :
    is_valid_move row col num g = true := by
  refine is_valid_move_iff.mpr ⟨fun j hj => ?_, fun i hi => ?_, fun di dj hdi hdj => ?_⟩
  · exact h row j hrow hj (Or.inl rfl)
  · exact h i col hi hcol (Or.inr (Or.inl rfl))
  · exact h _ _ (by omega) (by omega) (Or.inr (Or.inr ⟨by omega, by omega⟩))

theorem unitsList_cells_lt : ∀ u ∈ unitsList, ∀ p ∈ u, p.1 < 6 ∧ p.2 < 6 := by
  decide

theorem unitsList_length : ∀ u ∈ unitsList, u.length = 6 := by decide

theorem unitsList_nodup : ∀ u ∈ unitsList, u.Nodup := by decide

/-- Any two cells of one constraint unit share a unit in the `sameUnit`
sense. -/
theorem sameUnit_of_mem_unit {u : List (Nat × Nat)} (hu : u ∈ unitsList)
    {p q : Nat × Nat} (hp : p ∈ u) (hq : q ∈ u) :
    sameUnit p.1 p.2 q.1 q.2 := by
  unfold unitsList size at hu
  rw [List.mem_append, List.mem_append] at hu
  rcases hu with (hu | hu) | hu
  · rcases List.mem_map.mp hu with ⟨i, _, rfl⟩
    unfold rowCells size at hp hq
    rcases List.mem_map.mp hp with ⟨a, _, rfl⟩
    rcases List.mem_map.mp hq with ⟨b, _, rfl⟩
    exact Or.inl rfl
  · rcases List.mem_map.mp hu with ⟨j, _, rfl⟩
    unfold colCells size at hp hq
    rcases List.mem_map.mp hp with ⟨a, _, rfl⟩
    rcases List.mem_map.mp hq with ⟨b, _, rfl⟩
    exact Or.inr (Or.inl rfl)
  · rcases List.mem_flatMap.mp hu with ⟨a, _, hu2⟩
    rcases List.mem_map.mp hu2 with ⟨b, _, rfl⟩
    unfold boxCells at hp hq
    refine Or.inr (Or.inr ?_)
    simp only [List.mem_cons, List.not_mem_nil, or_false] at hp hq
    rcases hp with rfl | rfl | rfl | rfl | rfl | rfl <;>
      rcases hq with rfl | rfl | rfl | rfl | rfl | rfl <;>
      constructor <;> simp <;> omega

/-- Any two in-range cells sharing a unit lie together in some row,
column, or box of `unitsList`. -/
theorem mem_unit_of_sameUnit {i j a b : Nat} (hi : i < 6) (hj : j < 6)
    (ha : a < 6) (hb : b < 6) (hu : sameUnit i j a b) :
    ∃ u ∈ unitsList, (i, j) ∈ u ∧ (a, b) ∈ u := by
  rcases hu with rfl | rfl | ⟨h2, h3⟩
  · refine ⟨rowCells a, ?_, ?_, ?_⟩
    · unfold unitsList size
      rw [List.mem_append]
      exact Or.inl (List.mem_append.mpr (Or.inl
        (List.mem_map.mpr ⟨a, List.mem_range.mpr ha, rfl⟩)))
    · unfold rowCells size
      exact List.mem_map.mpr ⟨j, List.mem_range.mpr hj, rfl⟩
    · unfold rowCells size
      exact List.mem_map.mpr ⟨b, List.mem_range.mpr hb, rfl⟩
  · refine ⟨colCells b, ?_, ?_, ?_⟩
    · unfold unitsList size
      rw [List.mem_append]
      exact Or.inl (List.mem_append.mpr (Or.inr
        (List.mem_map.mpr ⟨b, List.mem_range.mpr hb, rfl⟩)))
    · unfold colCells size
      exact List.mem_map.mpr ⟨i, List.mem_range.mpr hi, rfl⟩
    · unfold colCells size
      exact List.mem_map.mpr ⟨a, List.mem_range.mpr ha, rfl⟩
  · refine ⟨boxCells (2 * (i / 2)) (3 * (j / 3)), ?_, ?_, ?_⟩
    · unfold unitsList size
      rw [List.mem_append]
      refine Or.inr (List.mem_flatMap.mpr ⟨i / 2, List.mem_range.mpr (by omega), ?_⟩)
      exact List.mem_map.mpr ⟨j / 3, List.mem_range.mpr (by omega), rfl⟩
    · unfold boxCells
      simp only [List.mem_cons, List.not_mem_nil, or_false, Prod.mk.injEq]
      omega
    · unfold boxCells
      simp only [List.mem_cons, List.not_mem_nil, or_false, Prod.mk.injEq]
      omega

/-- Two members of a list that differ and both satisfy a predicate push
`countP` to at least 2. -/
theorem two_le_countP {α : Type} {p : α → Bool} {x y : α} (hxy : x ≠ y) :
    ∀ {l : List α}, x ∈ l → y ∈ l → p x = true → p y = true → 2 ≤ l.countP p := by
  intro l
  induction l with
  | nil => intro hx; exact absurd hx (List.not_mem_nil x)
  | cons a l ih =>
    intro hx hy hpx hpy
    rcases List.mem_cons.mp hx with rfl | hx'
    · have hy' : y ∈ l := by
        rcases List.mem_cons.mp hy with rfl | hy'
        · exact absurd rfl hxy
        · exact hy'
      simp only [List.countP_cons_of_pos _ _ hpx]
      have h1 : 0 < l.countP p := List.countP_pos_iff.mpr ⟨y, hy', hpy⟩
      omega
    · rcases List.mem_cons.mp hy with rfl | hy'
      · simp only [List.countP_cons_of_pos _ _ hpy]
        have h1 : 0 < l.countP p := List.countP_pos_iff.mpr ⟨x, hx', hpx⟩
        omega
      · have := ih hx' hy' hpx hpy
        rw [List.countP_cons]
        omega

/-- In a consistent grid, two distinct cells of a common unit never hold
the same nonzero value ≤ 6. -/
theorem consistent_pairs {g : Grid} (hc : consistentB g = true)
    {i j a b : Nat} (hi : i < 6) (hj : j < 6) (ha : a < 6) (hb : b < 6)
    (hu : sameUnit i j a b) (hne : ¬(a = i ∧ b = j))
    (hnz : getCell g i j ≠ 0) (hle : getCell g i j ≤ 6) :
    getCell g a b ≠ getCell g i j := by
  intro heq
  rcases mem_unit_of_sameUnit hi hj ha hb hu with ⟨u, huu, hpu, hqu⟩
  unfold consistentB size at hc
  rw [List.all_eq_true] at hc
  have hcu := hc u huu
  rw [List.all_eq_true] at hcu
  have hk := hcu (getCell g i j - 1) (List.mem_range.mpr (by omega))
  rw [decide_eq_true_iff] at hk
  have hkv : getCell g i j - 1 + 1 = getCell g i j := by omega
  have h2 : 2 ≤ u.countP fun p => decide (getCell g p.1 p.2 = getCell g i j - 1 + 1) := by
    apply two_le_countP (x := (i, j)) (y := (a, b)) ?_ hpu hqu ?_ ?_
    · intro hpair
      apply hne
      have h1 := congrArg Prod.fst hpair
      have h2 := congrArg Prod.snd hpair
      exact ⟨h1.symm, h2.symm⟩
    · rw [decide_eq_true_iff, hkv]
    · rw [decide_eq_true_iff, hkv]
      exact heq
  omega

/-! ## Properties of the grids enumerated by `solsAux`

`solsAux` is the reference enumeration of the completions the
backtracking search can reach: at the chosen empty cell it branches over
every value passing `is_valid_move` and recurses.  Its members extend the
start grid, are complete, carry values 1..6 in the filled-in cells, and a
filled-in cell never clashes with any cell sharing a unit with it.  None
of this requires the start grid itself to be consistent. -/

theorem sameUnit_symm {i j a b : Nat} (h : sameUnit i j a b) : sameUnit a b i j := by
  rcases h with rfl | rfl | ⟨h2, h3⟩
  · exact Or.inl rfl
  · exact Or.inr (Or.inl rfl)
  · exact Or.inr (Or.inr ⟨h2.symm, h3.symm⟩)

theorem solsAux_mem_shape :
    ∀ (fuel : Nat) (g g' : Grid), g' ∈ solsAux fuel g → shapeB g = true →
      shapeB g' = true
  | 0, g, g', hmem, _ => absurd hmem (List.not_mem_nil g')
  | fuel + 1, g, g', hmem, hs => by
    rw [solsAux] at hmem
    cases hfe : firstEmpty g with
    | none =>
      rw [hfe] at hmem
      rcases List.mem_cons.mp hmem with rfl | h
      · exact hs
      · exact absurd h (List.not_mem_nil g')
    | some p =>
      obtain ⟨i0, j0⟩ := p
      rw [hfe] at hmem
      rcases List.mem_flatMap.mp hmem with ⟨v, _, hmem'⟩
      exact solsAux_mem_shape fuel _ g' hmem' (shapeB_setCell _ _ _ hs)

theorem solsAux_mem_props :
    ∀ (fuel : Nat) (g : Grid), shapeB g = true → ∀ g', g' ∈ solsAux fuel g →
      (∀ i j, i < 6 → j < 6 → getCell g i j ≠ 0 → getCell g' i j = getCell g i j) ∧
      (∀ i j, i < 6 → j < 6 → getCell g' i j ≠ 0) ∧
      (∀ i j, i < 6 → j < 6 → getCell g i j = 0 →
        1 ≤ getCell g' i j ∧ getCell g' i j ≤ 6) ∧
      (∀ i j, i < 6 → j < 6 → getCell g i j = 0 →
        ∀ a b, a < 6 → b < 6 → ¬(a = i ∧ b = j) → sameUnit i j a b →
          getCell g' a b ≠ getCell g' i j)
  | 0, g, _, g', hmem => absurd hmem (List.not_mem_nil g')
  | fuel + 1, g, hs, g', hmem => by
    rw [solsAux] at hmem
    cases hfe : firstEmpty g with
    | none =>
      rw [hfe] at hmem
      have hfull := firstEmpty_eq_none_iff.mp hfe
      rcases List.mem_cons.mp hmem with rfl | h
      · refine ⟨fun i j _ _ _ => rfl, hfull, ?_, ?_⟩
        · intro i j hi hj hz
          exact absurd hz (hfull i j hi hj)
        · intro i j hi hj hz
          exact absurd hz (hfull i j hi hj)
      · exact absurd h (List.not_mem_nil g')
    | some p =>
      obtain ⟨i0, j0⟩ := p
      rw [hfe] at hmem
      obtain ⟨hi0, hj0, hz0⟩ := firstEmpty_some hfe
      rcases List.mem_flatMap.mp hmem with ⟨v, hvmem, hmem'⟩
      rw [List.mem_filter] at hvmem
      obtain ⟨hvl, hvalid⟩ := hvmem
      have hv16 : 1 ≤ v ∧ v ≤ 6 := by
        simp only [List.mem_cons, List.not_mem_nil, or_false] at hvl
        omega
      obtain ⟨hl6, hr6⟩ := shapeB_iff.mp hs
      have hig : i0 < g.length := by omega
      have hjg : j0 < (g.getD i0 []).length := by rw [hr6 i0 hi0]; omega
      have hg1s : shapeB (setCell g i0 j0 v) = true := shapeB_setCell _ _ _ hs
      obtain ⟨Q1, Q2, Q3, Q4⟩ := solsAux_mem_props fuel _ hg1s g' hmem'
      have hg1ij : getCell (setCell g i0 j0 v) i0 j0 = v := getCell_setCell_eq v hig hjg
      have hg'ij : getCell g' i0 j0 = v := by
        rw [Q1 i0 j0 hi0 hj0 (by rw [hg1ij]; omega), hg1ij]
      refine ⟨?_, Q2, ?_, ?_⟩
      · -- cells filled in g are preserved
        intro i j hi hj hnz
        have hne : ¬(i = i0 ∧ j = j0) := by
          rintro ⟨rfl, rfl⟩; exact hnz hz0
        have he : getCell (setCell g i0 j0 v) i j = getCell g i j :=
          getCell_setCell_ne v hne
        rw [Q1 i j hi hj (by rw [he]; exact hnz), he]
      · -- cells empty in g end with a value 1..6
        intro i j hi hj hz
        by_cases hcell : i = i0 ∧ j = j0
        · obtain ⟨rfl, rfl⟩ := hcell
          rw [hg'ij]; exact hv16
        · have he : getCell (setCell g i0 j0 v) i j = getCell g i j :=
            getCell_setCell_ne v hcell
          exact Q3 i j hi hj (by rw [he]; exact hz)
      · -- cells empty in g never clash with a unit partner
        intro i j hi hj hz a b ha hb hne hu
        by_cases hcell : i = i0 ∧ j = j0
        · obtain ⟨rfl, rfl⟩ := hcell
          rw [hg'ij]
          by_cases hab : getCell (setCell g i j v) a b = 0
          · have hq := Q4 a b ha hb hab i j hi0 hj0
              (fun hpair => hne ⟨hpair.1.symm, hpair.2.symm⟩) (sameUnit_symm hu)
            rw [hg'ij] at hq
            exact fun hc => hq hc.symm
          · have hgab : getCell (setCell g i j v) a b = getCell g a b :=
              getCell_setCell_ne v hne
            rw [Q1 a b ha hb hab, hgab]
            rw [hgab] at hab
            exact is_valid_move_covers hvalid ha hb hu
        · have he : getCell (setCell g i0 j0 v) i j = getCell g i j :=
            getCell_setCell_ne v hcell
          exact Q4 i j hi hj (by rw [he]; exact hz) a b ha hb hne hu

/-! ## The counts returned by `backtrack` against the enumeration -/

theorem length_flatMap_eq {α β : Type} (f : α → List β) :
    ∀ l : List α, (l.flatMap f).length = (l.map fun a => (f a).length).sum
  | [] => rfl
  | a :: l => by
    simp [List.flatMap_cons, length_flatMap_eq f l]

/-- The `for num` loop of `backtrack` against the lengths of the
enumeration branches: entered with a running count `sols < limit`, it
returns the exact total when that total stays below `limit`, and hits
`limit` exactly when the total does. -/
theorem countNums_vs_sols (limit i j fuel : Nat)
    (IH : ∀ g', ((backtrackS limit fuel g').1 < limit →
        (backtrackS limit fuel g').1 = (solsAux fuel g').length) ∧
      (limit ≤ (backtrackS limit fuel g').1 ↔ limit ≤ (solsAux fuel g').length)) :
    ∀ (nums : List Nat) (sols : Nat) (g : Grid), getCell g i j = 0 → sols < limit →
      (((countNums (backtrackS limit fuel) limit i j nums sols g).1 < limit →
        (countNums (backtrackS limit fuel) limit i j nums sols g).1 =
          sols + ((nums.filter fun v => is_valid_move i j v g).map
            (fun v => (solsAux fuel (setCell g i j v)).length)).sum) ∧
      (limit ≤ (countNums (backtrackS limit fuel) limit i j nums sols g).1 ↔
        limit ≤ sols + ((nums.filter fun v => is_valid_move i j v g).map
          (fun v => (solsAux fuel (setCell g i j v)).length)).sum))
  | [], sols, g, _, _ => by
    exact ⟨fun _ => by simp [countNums], by simp [countNums]⟩
  | num :: rest, sols, g, hz, hsl => by
    unfold countNums
    by_cases hvm : is_valid_move i j num g = true
    · rw [if_pos hvm]
      have hrg : (backtrackS limit fuel (setCell g i j num)).2 = setCell g i j num :=
        backtrackS_grid_eq limit fuel _
      have hrestore : setCell (backtrackS limit fuel (setCell g i j num)).2 i j 0 = g := by
        rw [hrg, setCell_setCell, ← hz, setCell_self]
      rw [hrestore]
      have hf : (num :: rest).filter (fun v => is_valid_move i j v g)
          = num :: rest.filter (fun v => is_valid_move i j v g) :=
        List.filter_cons_of_pos (by simpa using hvm)
      rw [hf, List.map_cons, List.sum_cons]
      rcases IH (setCell g i j num) with ⟨IH1, IH2⟩
      by_cases hstop : limit ≤ sols + (backtrackS limit fuel (setCell g i j num)).1
      · rw [if_pos hstop]
        have hT : limit ≤ sols + ((solsAux fuel (setCell g i j num)).length +
            ((rest.filter fun v => is_valid_move i j v g).map
              (fun v => (solsAux fuel (setCell g i j v)).length)).sum) := by
          by_cases hc : (backtrackS limit fuel (setCell g i j num)).1 < limit
          · have := IH1 hc
            omega
          · have := IH2.mp (by omega)
            omega
        exact ⟨fun h => absurd h (by omega), by constructor <;> intro <;> omega⟩
      · rw [if_neg hstop]
        have hc : (backtrackS limit fuel (setCell g i j num)).1 < limit := by omega
        have hceq := IH1 hc
        have hrec := countNums_vs_sols limit i j fuel IH rest
          (sols + (backtrackS limit fuel (setCell g i j num)).1) g hz (by omega)
        rw [hceq] at hrec ⊢
        rcases hrec with ⟨hr1, hr2⟩
        constructor
        · intro hlt
          rw [hr1 hlt]
          omega
        · rw [hr2]
          constructor <;> intro <;> omega
    · have hf : (num :: rest).filter (fun v => is_valid_move i j v g)
          = rest.filter (fun v => is_valid_move i j v g) :=
        List.filter_cons_of_neg (by simpa using hvm)
      rw [if_neg hvm, hf]
      exact countNums_vs_sols limit i j fuel IH rest sols g hz hsl

/-- Procedure `backtrack` with cutoff `limit ≥ 1`: below the cutoff it returns the
exact number of enumerated completions, and it reaches the cutoff exactly
when that number does. -/
theorem backtrackS_vs_sols (limit : Nat) (hlim : 1 ≤ limit) :
    ∀ (fuel : Nat) (g : Grid),
      ((backtrackS limit fuel g).1 < limit →
        (backtrackS limit fuel g).1 = (solsAux fuel g).length) ∧
      (limit ≤ (backtrackS limit fuel g).1 ↔ limit ≤ (solsAux fuel g).length)
  | 0, g => by
    unfold backtrackS solsAux
    exact ⟨fun _ => rfl, by simp⟩
  | fuel + 1, g => by
    unfold backtrackS solsAux
    cases hfe : firstEmpty g with
    | none => exact ⟨fun _ => rfl, by simp⟩
    | some p =>
      obtain ⟨i, j⟩ := p
      obtain ⟨_, _, hz⟩ := firstEmpty_some hfe
      have h := countNums_vs_sols limit i j fuel
        (backtrackS_vs_sols limit hlim fuel) [1, 2, 3, 4, 5, 6] 0 g hz (by omega)
      rw [length_flatMap_eq]
      rcases h with ⟨h1, h2⟩
      exact ⟨fun hlt => by rw [h1 hlt]; omega, by rw [h2]; constructor <;> intro <;> omega⟩

/-- Procedure `solve` succeeds exactly when the enumeration is non-empty. -/
theorem solveNums_true_iff (i j fuel : Nat)
    (IH : ∀ g', (solveS fuel g').1 = true ↔ solsAux fuel g' ≠ []) :
    ∀ (nums : List Nat) (g : Grid), getCell g i j = 0 →
      ((solveNums (solveS fuel) i j nums g).1 = true ↔
        ∃ v ∈ nums, is_valid_move i j v g = true ∧ solsAux fuel (setCell g i j v) ≠ [])
  | [], g, _ => by simp [solveNums]
  | num :: rest, g, hz => by
    unfold solveNums
    by_cases hvm : is_valid_move i j num g = true
    · rw [if_pos hvm]
      by_cases hok : (solveS fuel (setCell g i j num)).1 = true
      · rw [if_pos hok]
        simp only [true_iff]
        exact ⟨num, List.mem_cons_self _ _, hvm, (IH _).mp hok⟩
      · rw [if_neg hok]
        have hrg : (solveS fuel (setCell g i j num)).2 = setCell g i j num :=
          solveS_grid_eq fuel _ (Bool.not_eq_true _ ▸ hok)
        have hrestore : setCell (solveS fuel (setCell g i j num)).2 i j 0 = g := by
          rw [hrg, setCell_setCell, ← hz, setCell_self]
        rw [hrestore]
        rw [solveNums_true_iff i j fuel IH rest g hz]
        have hnum : solsAux fuel (setCell g i j num) = [] := by
          by_contra hne
          exact hok ((IH _).mpr hne)
        constructor
        · rintro ⟨v, hv, hval, hsne⟩
          exact ⟨v, List.mem_cons_of_mem _ hv, hval, hsne⟩
        · rintro ⟨v, hv, hval, hsne⟩
          rcases List.mem_cons.mp hv with rfl | hv'
          · exact absurd hnum hsne
          · exact ⟨v, hv', hval, hsne⟩
    · rw [if_neg hvm]
      rw [solveNums_true_iff i j fuel IH rest g hz]
      constructor
      · rintro ⟨v, hv, hval, hsne⟩
        exact ⟨v, List.mem_cons_of_mem _ hv, hval, hsne⟩
      · rintro ⟨v, hv, hval, hsne⟩
        rcases List.mem_cons.mp hv with rfl | hv'
        · exact absurd hval (by simp [hvm])
        · exact ⟨v, hv', hval, hsne⟩

theorem solveS_true_iff :
    ∀ (fuel : Nat) (g : Grid), (solveS fuel g).1 = true ↔ solsAux fuel g ≠ []
  | 0, g => by
    unfold solveS solsAux
    simp
  | fuel + 1, g => by
    unfold solveS solsAux
    cases hfe : firstEmpty g with
    | none => simp
    | some p =>
      obtain ⟨i, j⟩ := p
      obtain ⟨_, _, hz⟩ := firstEmpty_some hfe
      rw [solveNums_true_iff i j fuel (solveS_true_iff fuel) [1, 2, 3, 4, 5, 6] g hz]
      rw [Ne, List.flatMap_eq_nil_iff]
      constructor
      · rintro ⟨v, hv, hval, hsne⟩ hall
        exact hsne (hall v (List.mem_filter.mpr ⟨hv, hval⟩))
      · intro h
        by_contra hnone
        push_neg at hnone
        apply h
        intro v hv
        rcases List.mem_filter.mp hv with ⟨hvl, hval⟩
        exact hnone v hvl hval

/-! ## From pairwise-distinct unit values to "each value exactly once" -/

theorem countP_vals_sum {g' : Grid} : ∀ (u : List (Nat × Nat)),
    (∀ p ∈ u, 1 ≤ getCell g' p.1 p.2 ∧ getCell g' p.1 p.2 ≤ 6) →
    (u.countP fun p => decide (getCell g' p.1 p.2 = 1)) +
    (u.countP fun p => decide (getCell g' p.1 p.2 = 2)) +
    (u.countP fun p => decide (getCell g' p.1 p.2 = 3)) +
    (u.countP fun p => decide (getCell g' p.1 p.2 = 4)) +
    (u.countP fun p => decide (getCell g' p.1 p.2 = 5)) +
    (u.countP fun p => decide (getCell g' p.1 p.2 = 6)) = u.length
  | [], _ => rfl
  | a :: u, hv => by
    have hva := hv a (List.mem_cons_self _ _)
    have IH := countP_vals_sum u fun p hp => hv p (List.mem_cons_of_mem _ hp)
    simp only [List.countP_cons, List.length_cons]
    have h6 : getCell g' a.1 a.2 = 1 ∨ getCell g' a.1 a.2 = 2 ∨ getCell g' a.1 a.2 = 3 ∨
        getCell g' a.1 a.2 = 4 ∨ getCell g' a.1 a.2 = 5 ∨ getCell g' a.1 a.2 = 6 := by
      omega
    rcases h6 with h | h | h | h | h | h <;> rw [h] <;> simp <;> omega

theorem countP_le_one_of_distinct {g' : Grid} {u : List (Nat × Nat)} (hnd : u.Nodup)
    (hdist : ∀ p ∈ u, ∀ q ∈ u, p ≠ q → getCell g' p.1 p.2 ≠ getCell g' q.1 q.2)
    (w : Nat) : u.countP (fun p => decide (getCell g' p.1 p.2 = w)) ≤ 1 := by
  by_contra hcon
  push_neg at hcon
  rw [List.countP_eq_length_filter] at hcon
  cases hf : u.filter (fun p => decide (getCell g' p.1 p.2 = w)) with
  | nil => rw [hf] at hcon; simp at hcon
  | cons p l =>
    cases l with
    | nil => rw [hf] at hcon; simp at hcon
    | cons q l2 =>
      have hnf : (u.filter (fun p => decide (getCell g' p.1 p.2 = w))).Nodup :=
        hnd.filter _
      rw [hf] at hnf
      have hpq : p ≠ q := by
        rcases List.nodup_cons.mp hnf with ⟨hnp, _⟩
        intro he
        exact hnp (he ▸ List.mem_cons_self _ _)
      have hpm := List.mem_filter.mp (hf ▸ List.mem_cons_self p (q :: l2))
      have hqm := List.mem_filter.mp
        (hf ▸ List.mem_cons_of_mem p (List.mem_cons_self q l2))
      rw [decide_eq_true_iff] at hpm hqm
      exact hdist p hpm.1 q hqm.1 hpq (by rw [hpm.2, hqm.2])

theorem unit_counts {g' : Grid} {u : List (Nat × Nat)} (hnd : u.Nodup)
    (hlen : u.length = 6)
    (hvals : ∀ p ∈ u, 1 ≤ getCell g' p.1 p.2 ∧ getCell g' p.1 p.2 ≤ 6)
    (hdist : ∀ p ∈ u, ∀ q ∈ u, p ≠ q → getCell g' p.1 p.2 ≠ getCell g' q.1 q.2) :
    ∀ k, k < 6 → u.countP (fun p => decide (getCell g' p.1 p.2 = k + 1)) = 1 := by
  have hsum := countP_vals_sum u hvals
  have h1 := countP_le_one_of_distinct hnd hdist 1
  have h2 := countP_le_one_of_distinct hnd hdist 2
  have h3 := countP_le_one_of_distinct hnd hdist 3
  have h4 := countP_le_one_of_distinct hnd hdist 4
  have h5 := countP_le_one_of_distinct hnd hdist 5
  have h6 := countP_le_one_of_distinct hnd hdist 6
  intro k hk
  have hke : k = 0 ∨ k = 1 ∨ k = 2 ∨ k = 3 ∨ k = 4 ∨ k = 5 := by omega
  rcases hke with rfl | rfl | rfl | rfl | rfl | rfl <;> norm_num <;> omega

/-- A complete grid of values 1..6 whose unit partners never clash is a
valid complete grid in the spec's sense. -/
theorem isValidComplete_of_props {g' : Grid}
    (hvals : ∀ i j, i < 6 → j < 6 → 1 ≤ getCell g' i j ∧ getCell g' i j ≤ 6)
    (hdist : ∀ i j a b, i < 6 → j < 6 → a < 6 → b < 6 → ¬(a = i ∧ b = j) →
      sameUnit i j a b → getCell g' a b ≠ getCell g' i j) :
    isValidComplete g' = true := by
  unfold isValidComplete size
  rw [List.all_eq_true]
  intro u hu
  rw [List.all_eq_true]
  intro k hk
  rw [decide_eq_true_iff]
  apply unit_counts (unitsList_nodup u hu) (unitsList_length u hu)
  · intro p hp
    rcases unitsList_cells_lt u hu p hp with ⟨hp1, hp2⟩
    exact hvals p.1 p.2 hp1 hp2
  · intro p hp q hq hpq
    rcases unitsList_cells_lt u hu p hp with ⟨hp1, hp2⟩
    rcases unitsList_cells_lt u hu q hq with ⟨hq1, hq2⟩
    have hu' := sameUnit_of_mem_unit hu hp hq
    refine hdist q.1 q.2 p.1 p.2 hq1 hq2 hp1 hp2 ?_ (sameUnit_symm hu')
    rintro ⟨he1, he2⟩
    exact hpq (Prod.ext he1 he2)
  · exact List.mem_range.mp hk

/-- Conversely, in a valid complete grid two distinct cells of a common
unit hold different values. -/
theorem validComplete_distinct {g' : Grid} (hvc : isValidComplete g' = true)
    {i j a b : Nat} (hi : i < 6) (hj : j < 6) (ha : a < 6) (hb : b < 6)
    (hne : ¬(a = i ∧ b = j)) (hu : sameUnit i j a b)
    (hw1 : 1 ≤ getCell g' i j) (hw6 : getCell g' i j ≤ 6) :
    getCell g' a b ≠ getCell g' i j := by
  intro heq
  rcases mem_unit_of_sameUnit hi hj ha hb hu with ⟨u, huu, hpu, hqu⟩
  unfold isValidComplete size at hvc
  rw [List.all_eq_true] at hvc
  have hcu := hvc u huu
  rw [List.all_eq_true] at hcu
  have hk := hcu (getCell g' i j - 1) (List.mem_range.mpr (by omega))
  rw [decide_eq_true_iff] at hk
  have hkv : getCell g' i j - 1 + 1 = getCell g' i j := by omega
  have h2 : 2 ≤ u.countP fun p => decide (getCell g' p.1 p.2 = getCell g' i j - 1 + 1) := by
    apply two_le_countP (x := (i, j)) (y := (a, b)) ?_ hpu hqu ?_ ?_
    · intro hpair
      apply hne
      exact ⟨(congrArg Prod.fst hpair).symm, (congrArg Prod.snd hpair).symm⟩
    · rw [decide_eq_true_iff, hkv]
    · rw [decide_eq_true_iff, hkv]
      exact heq
  omega

/-! ## Members of the enumeration are exactly the valid completions -/

theorem grid_ext {g1 g2 : Grid} (h1 : shapeB g1 = true) (h2 : shapeB g2 = true)
    (h : ∀ i j, i < 6 → j < 6 → getCell g1 i j = getCell g2 i j) : g1 = g2 := by
  obtain ⟨hl1, hr1⟩ := shapeB_iff.mp h1
  obtain ⟨hl2, hr2⟩ := shapeB_iff.mp h2
  apply List.ext_getElem (by omega)
  intro i hi1 hi2
  have hi6 : i < 6 := by omega
  apply List.ext_getElem
  · rw [← getD_eq_getElem g1 [] hi1, ← getD_eq_getElem g2 [] hi2, hr1 i hi6, hr2 i hi6]
  · intro j hj1 hj2
    have hj6 : j < 6 := by
      rw [← getD_eq_getElem g1 [] hi1, hr1 i hi6] at hj1
      omega
    have := h i j hi6 hj6
    unfold getCell at this
    rw [getD_eq_getElem g1 [] hi1, getD_eq_getElem g2 [] hi2] at this
    rw [getD_eq_getElem _ 0 hj1, getD_eq_getElem _ 0 hj2] at this
    exact this

/-- Soundness: over a consistent, bounded, well-shaped grid, everything
the search enumerates is a valid completion. -/
theorem solsAux_mem_completes (fuel : Nat) (g : Grid) (hs : shapeB g = true)
    (hb : boundedB g = true) (hc : consistentB g = true) (g' : Grid)
    (hmem : g' ∈ solsAux fuel g) : Completes g g' := by
  obtain ⟨P1, P2, P3, P4⟩ := solsAux_mem_props fuel g hs g' hmem
  have hbounds : ∀ i j, i < 6 → j < 6 → 1 ≤ getCell g' i j ∧ getCell g' i j ≤ 6 := by
    intro i j hi hj
    by_cases hz : getCell g i j = 0
    · exact P3 i j hi hj hz
    · rw [P1 i j hi hj hz]
      exact ⟨by omega, getCell_le_of_bounded hb hi hj⟩
  refine ⟨solsAux_mem_shape fuel g g' hmem hs, P1, hbounds, ?_⟩
  apply isValidComplete_of_props hbounds
  intro i j a b hi hj ha hb' hne hu
  by_cases hz : getCell g i j = 0
  · exact P4 i j hi hj hz a b ha hb' hne hu
  · by_cases hza : getCell g a b = 0
    · have hq := P4 a b ha hb' hza i j hi hj
        (fun hpair => hne ⟨hpair.1.symm, hpair.2.symm⟩) (sameUnit_symm hu)
      exact fun he => hq he.symm
    · have hgne : getCell g a b ≠ getCell g i j :=
        consistent_pairs hc hi hj ha hb' hu hne hz (getCell_le_of_bounded hb hi hj)
      rw [P1 i j hi hj hz, P1 a b ha hb' hza]
      exact hgne

/-- Completeness: with enough fuel, the search enumerates every valid
completion. -/
theorem completes_mem_solsAux :
    ∀ (fuel : Nat) (g : Grid), shapeB g = true → zerosCount g < fuel →
      ∀ g', Completes g g' → g' ∈ solsAux fuel g
  | 0, g, _, hfuel, _, _ => absurd hfuel (by omega)
  | fuel + 1, g, hs, hfuel, g', hcomp => by
    obtain ⟨hs', hagree, hbounds, hvc⟩ := hcomp
    rw [solsAux]
    cases hfe : firstEmpty g with
    | none =>
      have hfull := firstEmpty_eq_none_iff.mp hfe
      have : g' = g := by
        apply grid_ext hs' hs
        intro i j hi hj
        exact hagree i j hi hj (hfull i j hi hj)
      rw [this]
      exact List.mem_cons_self _ _
    | some p =>
      obtain ⟨i, j⟩ := p
      obtain ⟨hi, hj, hz⟩ := firstEmpty_some hfe
      obtain ⟨hl6, hr6⟩ := shapeB_iff.mp hs
      have hig : i < g.length := by omega
      have hjg : j < (g.getD i []).length := by rw [hr6 i hi]; omega
      obtain ⟨hv1, hv6⟩ := hbounds i j hi hj
      -- the value the completion places at the chosen cell
      have hvalid : is_valid_move i j (getCell g' i j) g = true := by
        apply is_valid_move_of_units ?_ hi hj
        intro a b ha hb hu
        by_cases hcell : a = i ∧ b = j
        · obtain ⟨rfl, rfl⟩ := hcell
          rw [hz]
          omega
        · by_cases hza : getCell g a b = 0
          · rw [hza]
            omega
          · rw [← hagree a b ha hb hza]
            exact validComplete_distinct hvc hi hj ha hb hcell hu hv1 hv6
      apply List.mem_flatMap.mpr
      refine ⟨getCell g' i j, ?_, ?_⟩
      · rw [List.mem_filter]
        constructor
        · have : getCell g' i j = 1 ∨ getCell g' i j = 2 ∨ getCell g' i j = 3 ∨
              getCell g' i j = 4 ∨ getCell g' i j = 5 ∨ getCell g' i j = 6 := by omega
          rcases this with h | h | h | h | h | h <;> rw [h] <;> decide
        · exact hvalid
      · have hsset : shapeB (setCell g i j (getCell g' i j)) = true := shapeB_setCell _ _ _ hs
        have hzset : zerosCount (setCell g i j (getCell g' i j)) < fuel := by
          have hdec : zerosCount (setCell g i j (getCell g' i j)) + 1 = zerosCount g :=
            zerosCount_setCell hs hi hj hz (by omega)
          omega
        apply completes_mem_solsAux fuel _ hsset hzset
        refine ⟨hs', ?_, hbounds, hvc⟩
        intro a b ha hb hnz
        by_cases hcell : a = i ∧ b = j
        · obtain ⟨rfl, rfl⟩ := hcell
          rw [getCell_setCell_eq _ hig hjg]
        · rw [getCell_setCell_ne _ hcell]
          apply hagree a b ha hb
          rw [getCell_setCell_ne _ hcell] at hnz
          exact hnz

/-! ## The enumeration repeats no grid -/

theorem nodup_append_flatMap {α β : Type} (f : α → List β) (P : α → β → Prop)
    (hinj : ∀ a1 a2 b', P a1 b' → P a2 b' → a1 = a2) :
    ∀ (l : List α), l.Nodup → (∀ a ∈ l, ∀ b' ∈ f a, P a b') →
      (∀ a ∈ l, (f a).Nodup) → (l.flatMap f).Nodup
  | [], _, _, _ => List.nodup_nil
  | a :: l, hnd, hP, hf => by
    rw [List.flatMap_cons]
    rcases List.nodup_cons.mp hnd with ⟨hna, hndl⟩
    apply List.Nodup.append (hf a (List.mem_cons_self _ _))
      (nodup_append_flatMap f P hinj l hndl
        (fun a' ha' => hP a' (List.mem_cons_of_mem _ ha'))
        fun a' ha' => hf a' (List.mem_cons_of_mem _ ha'))
    intro x hx1 hx2
    rcases List.mem_flatMap.mp hx2 with ⟨a', ha', hx2'⟩
    have := hinj a a' x (hP a (List.mem_cons_self _ _) x hx1)
      (hP a' (List.mem_cons_of_mem _ ha') x hx2')
    exact hna (this ▸ ha')

theorem solsAux_nodup :
    ∀ (fuel : Nat) (g : Grid), shapeB g = true → (solsAux fuel g).Nodup
  | 0, _, _ => List.nodup_nil
  | fuel + 1, g, hs => by
    rw [solsAux]
    cases hfe : firstEmpty g with
    | none => exact List.nodup_cons.mpr ⟨List.not_mem_nil g, List.nodup_nil⟩
    | some p =>
      obtain ⟨i, j⟩ := p
      obtain ⟨hi, hj, hz⟩ := firstEmpty_some hfe
      obtain ⟨hl6, hr6⟩ := shapeB_iff.mp hs
      have hig : i < g.length := by omega
      have hjg : j < (g.getD i []).length := by rw [hr6 i hi]; omega
      apply nodup_append_flatMap _ (fun v g' => getCell g' i j = v)
      · intro v1 v2 g' h1 h2
        rw [← h1, ← h2]
      · exact List.Nodup.filter _ (by decide)
      · intro v hvf g' hmem
        rcases List.mem_filter.mp hvf with ⟨hvl, _⟩
        have hvne : v ≠ 0 := by
          simp only [List.mem_cons, List.not_mem_nil, or_false] at hvl
          omega
        have hsset : shapeB (setCell g i j v) = true := shapeB_setCell _ _ _ hs
        obtain ⟨Q1, _, _, _⟩ := solsAux_mem_props fuel _ hsset g' hmem
        have hcell : getCell (setCell g i j v) i j = v := getCell_setCell_eq v hig hjg
        rw [Q1 i j hi hj (by rw [hcell]; exact hvne), hcell]
      · intro v hv
        exact solsAux_nodup fuel _ (shapeB_setCell _ _ _ hs)

/-! ## Assembling the `count_solutions` characterization -/

theorem zerosCount_le (g : Grid) : zerosCount g ≤ 36 := by
  unfold zerosCount
  calc allCells.countP _ ≤ allCells.length := List.countP_le_length _
    _ = 36 := by decide

theorem two_le_length_of_mem_ne {α : Type} {l : List α} {x y : α}
    (hx : x ∈ l) (hy : y ∈ l) (hxy : x ≠ y) : 2 ≤ l.length := by
  cases l with
  | nil => exact absurd hx (List.not_mem_nil x)
  | cons a t =>
    cases t with
    | nil =>
      rw [List.mem_singleton] at hx hy
      exact absurd (hx.trans hy.symm) hxy
    | cons b t2 => simp only [List.length_cons]; omega

theorem exists_two_of_le_length {α : Type} {l : List α} (hnd : l.Nodup)
    (h2 : 2 ≤ l.length) : ∃ x y, x ∈ l ∧ y ∈ l ∧ x ≠ y := by
  cases l with
  | nil => simp at h2
  | cons a t =>
    cases t with
    | nil => simp at h2
    | cons b t2 =>
      refine ⟨a, b, List.mem_cons_self _ _,
        List.mem_cons_of_mem _ (List.mem_cons_self _ _), ?_⟩
      rcases List.nodup_cons.mp hnd with ⟨hna, _⟩
      intro he
      exact hna (he ▸ List.mem_cons_self _ _)

/-- For a well-shaped, bounded, consistent grid, `count_solutions` with
the uniqueness limit 2 classifies the set of valid completions: 0 ⇔
unsolvable, 1 ⇔ unique, ≥ 2 ⇔ at least two completions. -/
theorem count_solutions_characterizes (g : Grid)
    (hs : shapeB g = true) (hb : boundedB g = true) (hc : consistentB g = true) :
    (count_solutions g 2 = 0 ↔ ¬ ∃ g', Completes g g') ∧
    (count_solutions g 2 = 1 ↔ ∃! g', Completes g g') ∧
    (2 ≤ count_solutions g 2 ↔ ∃ g1 g2, Completes g g1 ∧ Completes g g2 ∧ g1 ≠ g2) := by
  have hz37 : zerosCount g < 37 := by
    have := zerosCount_le g
    omega
  have hmem_iff : ∀ g', g' ∈ solsAux 37 g ↔ Completes g g' := fun g' =>
    ⟨solsAux_mem_completes 37 g hs hb hc g', completes_mem_solsAux 37 g hs hz37 g'⟩
  have hnd := solsAux_nodup 37 g hs
  obtain ⟨hv1, hv2⟩ := backtrackS_vs_sols 2 (by omega) 37 g
  have hcdef : count_solutions g 2 = (backtrackS 2 37 g).1 := rfl
  refine ⟨⟨?_, ?_⟩, ⟨?_, ?_⟩, ⟨?_, ?_⟩⟩
  · -- count 0 → unsolvable
    intro h0
    have hL : (solsAux 37 g).length = 0 := by
      rw [← hv1 (by omega), hcdef.symm.trans h0]
    rintro ⟨g', hg'⟩
    have := (hmem_iff g').mpr hg'
    rw [List.length_eq_zero.mp hL] at this
    exact List.not_mem_nil g' this
  · -- unsolvable → count 0
    intro hno
    have hL : (solsAux 37 g).length = 0 := by
      by_contra hne
      have h1 : 1 ≤ (solsAux 37 g).length := by omega
      rcases List.exists_mem_of_ne_nil (solsAux 37 g)
        (List.length_pos.mp (by omega)) with ⟨x, hx⟩
      exact hno ⟨x, (hmem_iff x).mp hx⟩
    have hlt : (backtrackS 2 37 g).1 < 2 := by
      by_contra hge
      have := hv2.mp (by omega)
      omega
    rw [hcdef, hv1 hlt, hL]
  · -- count 1 → unique completion
    intro h1
    have hL : (solsAux 37 g).length = 1 := by
      rw [← hv1 (by omega), hcdef.symm.trans h1]
    rcases List.length_eq_one.mp hL with ⟨x, hx⟩
    refine ⟨x, (hmem_iff x).mp (hx ▸ List.mem_cons_self _ _), ?_⟩
    intro y hy
    have := (hmem_iff y).mpr hy
    rw [hx] at this
    exact List.mem_singleton.mp this
  · -- unique completion → count 1
    rintro ⟨x, hxc, huniq⟩
    have hxm : x ∈ solsAux 37 g := (hmem_iff x).mpr hxc
    have hge1 : 1 ≤ (solsAux 37 g).length := by
      cases hsl : solsAux 37 g with
      | nil => rw [hsl] at hxm; exact absurd hxm (List.not_mem_nil x)
      | cons a t => simp
    have hle1 : (solsAux 37 g).length ≤ 1 := by
      by_contra hgt
      rcases exists_two_of_le_length hnd (by omega) with ⟨p, q, hp, hq, hpq⟩
      have hpe := huniq p ((hmem_iff p).mp hp)
      have hqe := huniq q ((hmem_iff q).mp hq)
      exact hpq (hpe.trans hqe.symm)
    have hlt : (backtrackS 2 37 g).1 < 2 := by
      by_contra hge
      have := hv2.mp (by omega)
      omega
    rw [hcdef, hv1 hlt]
    omega
  · -- count ≥ 2 → two completions
    intro h2
    have hL : 2 ≤ (solsAux 37 g).length := hv2.mp (hcdef ▸ h2)
    rcases exists_two_of_le_length hnd hL with ⟨p, q, hp, hq, hpq⟩
    exact ⟨p, q, (hmem_iff p).mp hp, (hmem_iff q).mp hq, hpq⟩
  · -- two completions → count ≥ 2
    rintro ⟨g1, g2, h1, h2, hne⟩
    have hL : 2 ≤ (solsAux 37 g).length :=
      two_le_length_of_mem_ne ((hmem_iff g1).mpr h1) ((hmem_iff g2).mpr h2) hne
    rw [hcdef]
    exact hv2.mpr hL

/-! ## The removal loop of `remove_numbers` -/

/-- If no tentative removal ever tests as uniquely solvable, the loop
restores every cell and returns the grid unchanged. -/
theorem removeLoop_no_removal :
    ∀ (cells : List (Nat × Nat)) (removed target : Nat) (g : Grid),
      (∀ p ∈ cells, count_solutions (setCell g p.1 p.2 0) 2 ≠ 1) →
      removeLoop cells removed target g = g
  | [], _, _, _, _ => rfl
  | (r, c) :: rest, removed, target, g, h => by
    unfold removeLoop
    split
    · rfl
    · rw [if_neg (h (r, c) (List.mem_cons_self _ _))]
      have hrestore : setCell (setCell g r c 0) r c (getCell g r c) = g := by
        rw [setCell_setCell, setCell_self]
      rw [hrestore]
      exact removeLoop_no_removal rest removed target g
        fun p hp => h p (List.mem_cons_of_mem _ hp)

/-- Each kept removal clears one cell and the loop stops at its target,
so at most `target - removed` filled cells are lost. -/
theorem removeLoop_filled_bound :
    ∀ (cells : List (Nat × Nat)) (removed target : Nat) (g : Grid),
      filledCount g ≤ filledCount (removeLoop cells removed target g) + (target - removed)
  | [], _, _, g => by
    unfold removeLoop
    omega
  | (r, c) :: rest, removed, target, g => by
    unfold removeLoop
    split
    · omega
    · split
      · have h1 := filledCount_setCell_zero_ge g r c
        have h2 := removeLoop_filled_bound rest (removed + 1) target (setCell g r c 0)
        omega
      · have hrestore : setCell (setCell g r c 0) r c (getCell g r c) = g := by
          rw [setCell_setCell, setCell_self]
        rw [hrestore]
        have h2 := removeLoop_filled_bound rest removed target g
        omega

/-! ## Unsolvable grids through the enumeration -/

theorem count_solutions_eq_zero_of_no_mem {g : Grid}
    (h : ∀ g', g' ∉ solsAux 37 g) : count_solutions g 2 = 0 := by
  have hnil : solsAux 37 g = [] := List.eq_nil_iff_forall_not_mem.mpr h
  obtain ⟨hv1, hv2⟩ := backtrackS_vs_sols 2 (by omega) 37 g
  have hlt : (backtrackS 2 37 g).1 < 2 := by
    by_contra hge
    have h2 := hv2.mp (by omega)
    rw [hnil] at h2
    simp at h2
  have he := hv1 hlt
  rw [hnil] at he
  simpa [count_solutions] using he

theorem solve_false_of_nil_sols {g : Grid} (h : solsAux 37 g = []) :
    (solve g).1 = false ∧ (solve g).2 = g := by
  have hne : ¬ (solveS 37 g).1 = true := by
    rw [solveS_true_iff]
    simp [h]
  have hf : (solveS 37 g).1 = false := by simpa using hne
  exact ⟨hf, solveS_grid_eq 37 g hf⟩

/-! ## The bad random stream: concrete unsolvability facts -/

/-- The seed grid built from the shuffles `idPerm`, `badPerm` admits no
completion: columns 0 and 1 force the value 6 into two distinct cells of
the box with origin (4,0). -/
theorem seedBad_noSol_seed (g' : Grid)
    (hmem : g' ∈ solsAux 37 (seedBad)) : False := by
  obtain ⟨P1, P2, P3, P4⟩ := solsAux_mem_props 37 _ (by decide) g' hmem
  have e_0_0 : getCell g' 0 0 = 1 := by
    rw [P1 0 0 (by omega) (by omega) (by decide)]
    decide
  have e_0_1 : getCell g' 0 1 = 2 := by
    rw [P1 0 1 (by omega) (by omega) (by decide)]
    decide
  have e_0_2 : getCell g' 0 2 = 3 := by
    rw [P1 0 2 (by omega) (by omega) (by decide)]
    decide
  have e_1_0 : getCell g' 1 0 = 4 := by
    rw [P1 1 0 (by omega) (by omega) (by decide)]
    decide
  have e_1_1 : getCell g' 1 1 = 5 := by
    rw [P1 1 1 (by omega) (by omega) (by decide)]
    decide
  have e_1_2 : getCell g' 1 2 = 6 := by
    rw [P1 1 2 (by omega) (by omega) (by decide)]
    decide
  have e_2_0 : getCell g' 2 0 = 2 := by
    rw [P1 2 0 (by omega) (by omega) (by decide)]
    decide
  have e_2_1 : getCell g' 2 1 = 3 := by
    rw [P1 2 1 (by omega) (by omega) (by decide)]
    decide
  have e_2_2 : getCell g' 2 2 = 4 := by
    rw [P1 2 2 (by omega) (by omega) (by decide)]
    decide
  have e_3_0 : getCell g' 3 0 = 5 := by
    rw [P1 3 0 (by omega) (by omega) (by decide)]
    decide
  have e_3_1 : getCell g' 3 1 = 1 := by
    rw [P1 3 1 (by omega) (by omega) (by decide)]
    decide
  have e_3_2 : getCell g' 3 2 = 6 := by
    rw [P1 3 2 (by omega) (by omega) (by decide)]
    decide
  have b_4_0 : 1 ≤ getCell g' 4 0 ∧ getCell g' 4 0 ≤ 6 :=
    P3 4 0 (by omega) (by omega) (by decide)
  have b_5_0 : 1 ≤ getCell g' 5 0 ∧ getCell g' 5 0 ≤ 6 :=
    P3 5 0 (by omega) (by omega) (by decide)
  have b_4_1 : 1 ≤ getCell g' 4 1 ∧ getCell g' 4 1 ≤ 6 :=
    P3 4 1 (by omega) (by omega) (by decide)
  have b_5_1 : 1 ≤ getCell g' 5 1 ∧ getCell g' 5 1 ≤ 6 :=
    P3 5 1 (by omega) (by omega) (by decide)
  have d0 : getCell g' 5 0 ≠ getCell g' 4 0 :=
    P4 4 0 (by omega) (by omega) (by decide) 5 0 (by omega) (by omega) (by decide) (by unfold sameUnit; decide)
  have d1 : getCell g' 4 1 ≠ getCell g' 4 0 :=
    P4 4 0 (by omega) (by omega) (by decide) 4 1 (by omega) (by omega) (by decide) (by unfold sameUnit; decide)
  have d2 : getCell g' 5 1 ≠ getCell g' 4 0 :=
    P4 4 0 (by omega) (by omega) (by decide) 5 1 (by omega) (by omega) (by decide) (by unfold sameUnit; decide)
  have d3 : getCell g' 0 0 ≠ getCell g' 4 0 :=
    P4 4 0 (by omega) (by omega) (by decide) 0 0 (by omega) (by omega) (by decide) (by unfold sameUnit; decide)
  have d4 : getCell g' 1 0 ≠ getCell g' 4 0 :=
    P4 4 0 (by omega) (by omega) (by decide) 1 0 (by omega) (by omega) (by decide) (by unfold sameUnit; decide)
  have d5 : getCell g' 2 0 ≠ getCell g' 4 0 :=
    P4 4 0 (by omega) (by omega) (by decide) 2 0 (by omega) (by omega) (by decide) (by unfold sameUnit; decide)
  have d6 : getCell g' 3 0 ≠ getCell g' 4 0 :=
    P4 4 0 (by omega) (by omega) (by decide) 3 0 (by omega) (by omega) (by decide) (by unfold sameUnit; decide)
  have d7 : getCell g' 4 1 ≠ getCell g' 5 0 :=
    P4 5 0 (by omega) (by omega) (by decide) 4 1 (by omega) (by omega) (by decide) (by unfold sameUnit; decide)
  have d8 : getCell g' 5 1 ≠ getCell g' 5 0 :=
    P4 5 0 (by omega) (by omega) (by decide) 5 1 (by omega) (by omega) (by decide) (by unfold sameUnit; decide)
  have d9 : getCell g' 0 0 ≠ getCell g' 5 0 :=
    P4 5 0 (by omega) (by omega) (by decide) 0 0 (by omega) (by omega) (by decide) (by unfold sameUnit; decide)
  have d10 : getCell g' 1 0 ≠ getCell g' 5 0 :=
    P4 5 0 (by omega) (by omega) (by decide) 1 0 (by omega) (by omega) (by decide) (by unfold sameUnit; decide)
  have d11 : getCell g' 2 0 ≠ getCell g' 5 0 :=
    P4 5 0 (by omega) (by omega) (by decide) 2 0 (by omega) (by omega) (by decide) (by unfold sameUnit; decide)
  have d12 : getCell g' 3 0 ≠ getCell g' 5 0 :=
    P4 5 0 (by omega) (by omega) (by decide) 3 0 (by omega) (by omega) (by decide) (by unfold sameUnit; decide)
  have d13 : getCell g' 5 1 ≠ getCell g' 4 1 :=
    P4 4 1 (by omega) (by omega) (by decide) 5 1 (by omega) (by omega) (by decide) (by unfold sameUnit; decide)
  have d14 : getCell g' 0 1 ≠ getCell g' 4 1 :=
    P4 4 1 (by omega) (by omega) (by decide) 0 1 (by omega) (by omega) (by decide) (by unfold sameUnit; decide)
  have d15 : getCell g' 1 1 ≠ getCell g' 4 1 :=
    P4 4 1 (by omega) (by omega) (by decide) 1 1 (by omega) (by omega) (by decide) (by unfold sameUnit; decide)
  have d16 : getCell g' 2 1 ≠ getCell g' 4 1 :=
    P4 4 1 (by omega) (by omega) (by decide) 2 1 (by omega) (by omega) (by decide) (by unfold sameUnit; decide)
  have d17 : getCell g' 3 1 ≠ getCell g' 4 1 :=
    P4 4 1 (by omega) (by omega) (by decide) 3 1 (by omega) (by omega) (by decide) (by unfold sameUnit; decide)
  have d18 : getCell g' 0 1 ≠ getCell g' 5 1 :=
    P4 5 1 (by omega) (by omega) (by decide) 0 1 (by omega) (by omega) (by decide) (by unfold sameUnit; decide)
  have d19 : getCell g' 1 1 ≠ getCell g' 5 1 :=
    P4 5 1 (by omega) (by omega) (by decide) 1 1 (by omega) (by omega) (by decide) (by unfold sameUnit; decide)
  have d20 : getCell g' 2 1 ≠ getCell g' 5 1 :=
    P4 5 1 (by omega) (by omega) (by decide) 2 1 (by omega) (by omega) (by decide) (by unfold sameUnit; decide)
  have d21 : getCell g' 3 1 ≠ getCell g' 5 1 :=
    P4 5 1 (by omega) (by omega) (by decide) 3 1 (by omega) (by omega) (by decide) (by unfold sameUnit; decide)
  omega

/-- Clearing the clue at (0,0) of `seedBad` does not make it
solvable: the cleared cell is forced back to its old value by its box. -/
theorem seedBad_noSol_h00 (g' : Grid)
    (hmem : g' ∈ solsAux 37 (setCell seedBad 0 0 0)) : False := by
  obtain ⟨P1, P2, P3, P4⟩ := solsAux_mem_props 37 _ (by decide) g' hmem
  have e_0_1 : getCell g' 0 1 = 2 := by
    rw [P1 0 1 (by omega) (by omega) (by decide)]
    decide
  have e_0_2 : getCell g' 0 2 = 3 := by
    rw [P1 0 2 (by omega) (by omega) (by decide)]
    decide
  have e_1_0 : getCell g' 1 0 = 4 := by
    rw [P1 1 0 (by omega) (by omega) (by decide)]
    decide
  have e_1_1 : getCell g' 1 1 = 5 := by
    rw [P1 1 1 (by omega) (by omega) (by decide)]
    decide
  have e_1_2 : getCell g' 1 2 = 6 := by
    rw [P1 1 2 (by omega) (by omega) (by decide)]
    decide
  have e_2_0 : getCell g' 2 0 = 2 := by
    rw [P1 2 0 (by omega) (by omega) (by decide)]
    decide
  have e_2_1 : getCell g' 2 1 = 3 := by
    rw [P1 2 1 (by omega) (by omega) (by decide)]
    decide
  have e_2_2 : getCell g' 2 2 = 4 := by
    rw [P1 2 2 (by omega) (by omega) (by decide)]
    decide
  have e_3_0 : getCell g' 3 0 = 5 := by
    rw [P1 3 0 (by omega) (by omega) (by decide)]
    decide
  have e_3_1 : getCell g' 3 1 = 1 := by
    rw [P1 3 1 (by omega) (by omega) (by decide)]
    decide
  have e_3_2 : getCell g' 3 2 = 6 := by
    rw [P1 3 2 (by omega) (by omega) (by decide)]
    decide
  have hbH : 1 ≤ getCell g' 0 0 ∧ getCell g' 0 0 ≤ 6 :=
    P3 0 0 (by omega) (by omega) (by decide)
  have hH0 : getCell g' 0 1 ≠ getCell g' 0 0 :=
    P4 0 0 (by omega) (by omega) (by decide) 0 1 (by omega) (by omega) (by decide) (by unfold sameUnit; decide)
  have hH1 : getCell g' 0 2 ≠ getCell g' 0 0 :=
    P4 0 0 (by omega) (by omega) (by decide) 0 2 (by omega) (by omega) (by decide) (by unfold sameUnit; decide)
  have hH2 : getCell g' 1 0 ≠ getCell g' 0 0 :=
    P4 0 0 (by omega) (by omega) (by decide) 1 0 (by omega) (by omega) (by decide) (by unfold sameUnit; decide)
  have hH3 : getCell g' 1 1 ≠ getCell g' 0 0 :=
    P4 0 0 (by omega) (by omega) (by decide) 1 1 (by omega) (by omega) (by decide) (by unfold sameUnit; decide)
  have hH4 : getCell g' 1 2 ≠ getCell g' 0 0 :=
    P4 0 0 (by omega) (by omega) (by decide) 1 2 (by omega) (by omega) (by decide) (by unfold sameUnit; decide)
  have e_0_0 : getCell g' 0 0 = 1 := by omega
  have b_4_0 : 1 ≤ getCell g' 4 0 ∧ getCell g' 4 0 ≤ 6 :=
    P3 4 0 (by omega) (by omega) (by decide)
  have b_5_0 : 1 ≤ getCell g' 5 0 ∧ getCell g' 5 0 ≤ 6 :=
    P3 5 0 (by omega) (by omega) (by decide)
  have b_4_1 : 1 ≤ getCell g' 4 1 ∧ getCell g' 4 1 ≤ 6 :=
    P3 4 1 (by omega) (by omega) (by decide)
  have b_5_1 : 1 ≤ getCell g' 5 1 ∧ getCell g' 5 1 ≤ 6 :=
    P3 5 1 (by omega) (by omega) (by decide)
  have d0 : getCell g' 5 0 ≠ getCell g' 4 0 :=
    P4 4 0 (by omega) (by omega) (by decide) 5 0 (by omega) (by omega) (by decide) (by unfold sameUnit; decide)
  have d1 : getCell g' 4 1 ≠ getCell g' 4 0 :=
    P4 4 0 (by omega) (by omega) (by decide) 4 1 (by omega) (by omega) (by decide) (by unfold sameUnit; decide)
  have d2 : getCell g' 5 1 ≠ getCell g' 4 0 :=
    P4 4 0 (by omega) (by omega) (by decide) 5 1 (by omega) (by omega) (by decide) (by unfold sameUnit; decide)
  have d3 : getCell g' 0 0 ≠ getCell g' 4 0 :=
    P4 4 0 (by omega) (by omega) (by decide) 0 0 (by omega) (by omega) (by decide) (by unfold sameUnit; decide)
  have d4 : getCell g' 1 0 ≠ getCell g' 4 0 :=
    P4 4 0 (by omega) (by omega) (by decide) 1 0 (by omega) (by omega) (by decide) (by unfold sameUnit; decide)
  have d5 : getCell g' 2 0 ≠ getCell g' 4 0 :=
    P4 4 0 (by omega) (by omega) (by decide) 2 0 (by omega) (by omega) (by decide) (by unfold sameUnit; decide)
  have d6 : getCell g' 3 0 ≠ getCell g' 4 0 :=
    P4 4 0 (by omega) (by omega) (by decide) 3 0 (by omega) (by omega) (by decide) (by unfold sameUnit; decide)
  have d7 : getCell g' 4 1 ≠ getCell g' 5 0 :=
    P4 5 0 (by omega) (by omega) (by decide) 4 1 (by omega) (by omega) (by decide) (by unfold sameUnit; decide)
  have d8 : getCell g' 5 1 ≠ getCell g' 5 0 :=
    P4 5 0 (by omega) (by omega) (by decide) 5 1 (by omega) (by omega) (by decide) (by unfold sameUnit; decide)
  have d9 : getCell g' 0 0 ≠ getCell g' 5 0 :=
    P4 5 0 (by omega) (by omega) (by decide) 0 0 (by omega) (by omega) (by decide) (by unfold sameUnit; decide)
  have d10 : getCell g' 1 0 ≠ getCell g' 5 0 :=
    P4 5 0 (by omega) (by omega) (by decide) 1 0 (by omega) (by omega) (by decide) (by unfold sameUnit; decide)
  have d11 : getCell g' 2 0 ≠ getCell g' 5 0 :=
    P4 5 0 (by omega) (by omega) (by decide) 2 0 (by omega) (by omega) (by decide) (by unfold sameUnit; decide)
  have d12 : getCell g' 3 0 ≠ getCell g' 5 0 :=
    P4 5 0 (by omega) (by omega) (by decide) 3 0 (by omega) (by omega) (by decide) (by unfold sameUnit; decide)
  have d13 : getCell g' 5 1 ≠ getCell g' 4 1 :=
    P4 4 1 (by omega) (by omega) (by decide) 5 1 (by omega) (by omega) (by decide) (by unfold sameUnit; decide)
  have d14 : getCell g' 0 1 ≠ getCell g' 4 1 :=
    P4 4 1 (by omega) (by omega) (by decide) 0 1 (by omega) (by omega) (by decide) (by unfold sameUnit; decide)
  have d15 : getCell g' 1 1 ≠ getCell g' 4 1 :=
    P4 4 1 (by omega) (by omega) (by decide) 1 1 (by omega) (by omega) (by decide) (by unfold sameUnit; decide)
  have d16 : getCell g' 2 1 ≠ getCell g' 4 1 :=
    P4 4 1 (by omega) (by omega) (by decide) 2 1 (by omega) (by omega) (by decide) (by unfold sameUnit; decide)
  have d17 : getCell g' 3 1 ≠ getCell g' 4 1 :=
    P4 4 1 (by omega) (by omega) (by decide) 3 1 (by omega) (by omega) (by decide) (by unfold sameUnit; decide)
  have d18 : getCell g' 0 1 ≠ getCell g' 5 1 :=
    P4 5 1 (by omega) (by omega) (by decide) 0 1 (by omega) (by omega) (by decide) (by unfold sameUnit; decide)
  have d19 : getCell g' 1 1 ≠ getCell g' 5 1 :=
    P4 5 1 (by omega) (by omega) (by decide) 1 1 (by omega) (by omega) (by decide) (by unfold sameUnit; decide)
  have d20 : getCell g' 2 1 ≠ getCell g' 5 1 :=
    P4 5 1 (by omega) (by omega) (by decide) 2 1 (by omega) (by omega) (by decide) (by unfold sameUnit; decide)
  have d21 : getCell g' 3 1 ≠ getCell g' 5 1 :=
    P4 5 1 (by omega) (by omega) (by decide) 3 1 (by omega) (by omega) (by decide) (by unfold sameUnit; decide)
  omega

/-- Clearing the clue at (0,1) of `seedBad` does not make it
solvable: the cleared cell is forced back to its old value by its box. -/
theorem seedBad_noSol_h01 (g' : Grid)
    (hmem : g' ∈ solsAux 37 (setCell seedBad 0 1 0)) : False := by
  obtain ⟨P1, P2, P3, P4⟩ := solsAux_mem_props 37 _ (by decide) g' hmem
  have e_0_0 : getCell g' 0 0 = 1 := by
    rw [P1 0 0 (by omega) (by omega) (by decide)]
    decide
  have e_0_2 : getCell g' 0 2 = 3 := by
    rw [P1 0 2 (by omega) (by omega) (by decide)]
    decide
  have e_1_0 : getCell g' 1 0 = 4 := by
    rw [P1 1 0 (by omega) (by omega) (by decide)]
    decide
  have e_1_1 : getCell g' 1 1 = 5 := by
    rw [P1 1 1 (by omega) (by omega) (by decide)]
    decide
  have e_1_2 : getCell g' 1 2 = 6 := by
    rw [P1 1 2 (by omega) (by omega) (by decide)]
    decide
  have e_2_0 : getCell g' 2 0 = 2 := by
    rw [P1 2 0 (by omega) (by omega) (by decide)]
    decide
  have e_2_1 : getCell g' 2 1 = 3 := by
    rw [P1 2 1 (by omega) (by omega) (by decide)]
    decide
  have e_2_2 : getCell g' 2 2 = 4 := by
    rw [P1 2 2 (by omega) (by omega) (by decide)]
    decide
  have e_3_0 : getCell g' 3 0 = 5 := by
    rw [P1 3 0 (by omega) (by omega) (by decide)]
    decide
  have e_3_1 : getCell g' 3 1 = 1 := by
    rw [P1 3 1 (by omega) (by omega) (by decide)]
    decide
  have e_3_2 : getCell g' 3 2 = 6 := by
    rw [P1 3 2 (by omega) (by omega) (by decide)]
    decide
  have hbH : 1 ≤ getCell g' 0 1 ∧ getCell g' 0 1 ≤ 6 :=
    P3 0 1 (by omega) (by omega) (by decide)
  have hH0 : getCell g' 0 0 ≠ getCell g' 0 1 :=
    P4 0 1 (by omega) (by omega) (by decide) 0 0 (by omega) (by omega) (by decide) (by unfold sameUnit; decide)
  have hH1 : getCell g' 0 2 ≠ getCell g' 0 1 :=
    P4 0 1 (by omega) (by omega) (by decide) 0 2 (by omega) (by omega) (by decide) (by unfold sameUnit; decide)
  have hH2 : getCell g' 1 0 ≠ getCell g' 0 1 :=
    P4 0 1 (by omega) (by omega) (by decide) 1 0 (by omega) (by omega) (by decide) (by unfold sameUnit; decide)
  have hH3 : getCell g' 1 1 ≠ getCell g' 0 1 :=
    P4 0 1 (by omega) (by omega) (by decide) 1 1 (by omega) (by omega) (by decide) (by unfold sameUnit; decide)
  have hH4 : getCell g' 1 2 ≠ getCell g' 0 1 :=
    P4 0 1 (by omega) (by omega) (by decide) 1 2 (by omega) (by omega) (by decide) (by unfold sameUnit; decide)
  have e_0_1 : getCell g' 0 1 = 2 := by omega
  have b_4_0 : 1 ≤ getCell g' 4 0 ∧ getCell g' 4 0 ≤ 6 :=
    P3 4 0 (by omega) (by omega) (by decide)
  have b_5_0 : 1 ≤ getCell g' 5 0 ∧ getCell g' 5 0 ≤ 6 :=
    P3 5 0 (by omega) (by omega) (by decide)
  have b_4_1 : 1 ≤ getCell g' 4 1 ∧ getCell g' 4 1 ≤ 6 :=
    P3 4 1 (by omega) (by omega) (by decide)
  have b_5_1 : 1 ≤ getCell g' 5 1 ∧ getCell g' 5 1 ≤ 6 :=
    P3 5 1 (by omega) (by omega) (by decide)
  have d0 : getCell g' 5 0 ≠ getCell g' 4 0 :=
    P4 4 0 (by omega) (by omega) (by decide) 5 0 (by omega) (by omega) (by decide) (by unfold sameUnit; decide)
  have d1 : getCell g' 4 1 ≠ getCell g' 4 0 :=
    P4 4 0 (by omega) (by omega) (by decide) 4 1 (by omega) (by omega) (by decide) (by unfold sameUnit; decide)
  have d2 : getCell g' 5 1 ≠ getCell g' 4 0 :=
    P4 4 0 (by omega) (by omega) (by decide) 5 1 (by omega) (by omega) (by decide) (by unfold sameUnit; decide)
  have d3 : getCell g' 0 0 ≠ getCell g' 4 0 :=
    P4 4 0 (by omega) (by omega) (by decide) 0 0 (by omega) (by omega) (by decide) (by unfold sameUnit; decide)
  have d4 : getCell g' 1 0 ≠ getCell g' 4 0 :=
    P4 4 0 (by omega) (by omega) (by decide) 1 0 (by omega) (by omega) (by decide) (by unfold sameUnit; decide)
  have d5 : getCell g' 2 0 ≠ getCell g' 4 0 :=
    P4 4 0 (by omega) (by omega) (by decide) 2 0 (by omega) (by omega) (by decide) (by unfold sameUnit; decide)
  have d6 : getCell g' 3 0 ≠ getCell g' 4 0 :=
    P4 4 0 (by omega) (by omega) (by decide) 3 0 (by omega) (by omega) (by decide) (by unfold sameUnit; decide)
  have d7 : getCell g' 4 1 ≠ getCell g' 5 0 :=
    P4 5 0 (by omega) (by omega) (by decide) 4 1 (by omega) (by omega) (by decide) (by unfold sameUnit; decide)
  have d8 : getCell g' 5 1 ≠ getCell g' 5 0 :=
    P4 5 0 (by omega) (by omega) (by decide) 5 1 (by omega) (by omega) (by decide) (by unfold sameUnit; decide)
  have d9 : getCell g' 0 0 ≠ getCell g' 5 0 :=
    P4 5 0 (by omega) (by omega) (by decide) 0 0 (by omega) (by omega) (by decide) (by unfold sameUnit; decide)
  have d10 : getCell g' 1 0 ≠ getCell g' 5 0 :=
    P4 5 0 (by omega) (by omega) (by decide) 1 0 (by omega) (by omega) (by decide) (by unfold sameUnit; decide)
  have d11 : getCell g' 2 0 ≠ getCell g' 5 0 :=
    P4 5 0 (by omega) (by omega) (by decide) 2 0 (by omega) (by omega) (by decide) (by unfold sameUnit; decide)
  have d12 : getCell g' 3 0 ≠ getCell g' 5 0 :=
    P4 5 0 (by omega) (by omega) (by decide) 3 0 (by omega) (by omega) (by decide) (by unfold sameUnit; decide)
  have d13 : getCell g' 5 1 ≠ getCell g' 4 1 :=
    P4 4 1 (by omega) (by omega) (by decide) 5 1 (by omega) (by omega) (by decide) (by unfold sameUnit; decide)
  have d14 : getCell g' 0 1 ≠ getCell g' 4 1 :=
    P4 4 1 (by omega) (by omega) (by decide) 0 1 (by omega) (by omega) (by decide) (by unfold sameUnit; decide)
  have d15 : getCell g' 1 1 ≠ getCell g' 4 1 :=
    P4 4 1 (by omega) (by omega) (by decide) 1 1 (by omega) (by omega) (by decide) (by unfold sameUnit; decide)
  have d16 : getCell g' 2 1 ≠ getCell g' 4 1 :=
    P4 4 1 (by omega) (by omega) (by decide) 2 1 (by omega) (by omega) (by decide) (by unfold sameUnit; decide)
  have d17 : getCell g' 3 1 ≠ getCell g' 4 1 :=
    P4 4 1 (by omega) (by omega) (by decide) 3 1 (by omega) (by omega) (by decide) (by unfold sameUnit; decide)
  have d18 : getCell g' 0 1 ≠ getCell g' 5 1 :=
    P4 5 1 (by omega) (by omega) (by decide) 0 1 (by omega) (by omega) (by decide) (by unfold sameUnit; decide)
  have d19 : getCell g' 1 1 ≠ getCell g' 5 1 :=
    P4 5 1 (by omega) (by omega) (by decide) 1 1 (by omega) (by omega) (by decide) (by unfold sameUnit; decide)
  have d20 : getCell g' 2 1 ≠ getCell g' 5 1 :=
    P4 5 1 (by omega) (by omega) (by decide) 2 1 (by omega) (by omega) (by decide) (by unfold sameUnit; decide)
  have d21 : getCell g' 3 1 ≠ getCell g' 5 1 :=
    P4 5 1 (by omega) (by omega) (by decide) 3 1 (by omega) (by omega) (by decide) (by unfold sameUnit; decide)
  omega

/-- Clearing the clue at (0,2) of `seedBad` does not make it
solvable: the cleared cell is forced back to its old value by its box. -/
theorem seedBad_noSol_h02 (g' : Grid)
    (hmem : g' ∈ solsAux 37 (setCell seedBad 0 2 0)) : False := by
  obtain ⟨P1, P2, P3, P4⟩ := solsAux_mem_props 37 _ (by decide) g' hmem
  have e_0_0 : getCell g' 0 0 = 1 := by
    rw [P1 0 0 (by omega) (by omega) (by decide)]
    decide
  have e_0_1 : getCell g' 0 1 = 2 := by
    rw [P1 0 1 (by omega) (by omega) (by decide)]
    decide
  have e_1_0 : getCell g' 1 0 = 4 := by
    rw [P1 1 0 (by omega) (by omega) (by decide)]
    decide
  have e_1_1 : getCell g' 1 1 = 5 := by
    rw [P1 1 1 (by omega) (by omega) (by decide)]
    decide
  have e_1_2 : getCell g' 1 2 = 6 := by
    rw [P1 1 2 (by omega) (by omega) (by decide)]
    decide
  have e_2_0 : getCell g' 2 0 = 2 := by
    rw [P1 2 0 (by omega) (by omega) (by decide)]
    decide
  have e_2_1 : getCell g' 2 1 = 3 := by
    rw [P1 2 1 (by omega) (by omega) (by decide)]
    decide
  have e_2_2 : getCell g' 2 2 = 4 := by
    rw [P1 2 2 (by omega) (by omega) (by decide)]
    decide
  have e_3_0 : getCell g' 3 0 = 5 := by
    rw [P1 3 0 (by omega) (by omega) (by decide)]
    decide
  have e_3_1 : getCell g' 3 1 = 1 := by
    rw [P1 3 1 (by omega) (by omega) (by decide)]
    decide
  have e_3_2 : getCell g' 3 2 = 6 := by
    rw [P1 3 2 (by omega) (by omega) (by decide)]
    decide
  have hbH : 1 ≤ getCell g' 0 2 ∧ getCell g' 0 2 ≤ 6 :=
    P3 0 2 (by omega) (by omega) (by decide)
  have hH0 : getCell g' 0 0 ≠ getCell g' 0 2 :=
    P4 0 2 (by omega) (by omega) (by decide) 0 0 (by omega) (by omega) (by decide) (by unfold sameUnit; decide)
  have hH1 : getCell g' 0 1 ≠ getCell g' 0 2 :=
    P4 0 2 (by omega) (by omega) (by decide) 0 1 (by omega) (by omega) (by decide) (by unfold sameUnit; decide)
  have hH2 : getCell g' 1 0 ≠ getCell g' 0 2 :=
    P4 0 2 (by omega) (by omega) (by decide) 1 0 (by omega) (by omega) (by decide) (by unfold sameUnit; decide)
  have hH3 : getCell g' 1 1 ≠ getCell g' 0 2 :=
    P4 0 2 (by omega) (by omega) (by decide) 1 1 (by omega) (by omega) (by decide) (by unfold sameUnit; decide)
  have hH4 : getCell g' 1 2 ≠ getCell g' 0 2 :=
    P4 0 2 (by omega) (by omega) (by decide) 1 2 (by omega) (by omega) (by decide) (by unfold sameUnit; decide)
  have e_0_2 : getCell g' 0 2 = 3 := by omega
  have b_4_0 : 1 ≤ getCell g' 4 0 ∧ getCell g' 4 0 ≤ 6 :=
    P3 4 0 (by omega) (by omega) (by decide)
  have b_5_0 : 1 ≤ getCell g' 5 0 ∧ getCell g' 5 0 ≤ 6 :=
    P3 5 0 (by omega) (by omega) (by decide)
  have b_4_1 : 1 ≤ getCell g' 4 1 ∧ getCell g' 4 1 ≤ 6 :=
    P3 4 1 (by omega) (by omega) (by decide)
  have b_5_1 : 1 ≤ getCell g' 5 1 ∧ getCell g' 5 1 ≤ 6 :=
    P3 5 1 (by omega) (by omega) (by decide)
  have d0 : getCell g' 5 0 ≠ getCell g' 4 0 :=
    P4 4 0 (by omega) (by omega) (by decide) 5 0 (by omega) (by omega) (by decide) (by unfold sameUnit; decide)
  have d1 : getCell g' 4 1 ≠ getCell g' 4 0 :=
    P4 4 0 (by omega) (by omega) (by decide) 4 1 (by omega) (by omega) (by decide) (by unfold sameUnit; decide)
  have d2 : getCell g' 5 1 ≠ getCell g' 4 0 :=
    P4 4 0 (by omega) (by omega) (by decide) 5 1 (by omega) (by omega) (by decide) (by unfold sameUnit; decide)
  have d3 : getCell g' 0 0 ≠ getCell g' 4 0 :=
    P4 4 0 (by omega) (by omega) (by decide) 0 0 (by omega) (by omega) (by decide) (by unfold sameUnit; decide)
  have d4 : getCell g' 1 0 ≠ getCell g' 4 0 :=
    P4 4 0 (by omega) (by omega) (by decide) 1 0 (by omega) (by omega) (by decide) (by unfold sameUnit; decide)
  have d5 : getCell g' 2 0 ≠ getCell g' 4 0 :=
    P4 4 0 (by omega) (by omega) (by decide) 2 0 (by omega) (by omega) (by decide) (by unfold sameUnit; decide)
  have d6 : getCell g' 3 0 ≠ getCell g' 4 0 :=
    P4 4 0 (by omega) (by omega) (by decide) 3 0 (by omega) (by omega) (by decide) (by unfold sameUnit; decide)
  have d7 : getCell g' 4 1 ≠ getCell g' 5 0 :=
    P4 5 0 (by omega) (by omega) (by decide) 4 1 (by omega) (by omega) (by decide) (by unfold sameUnit; decide)
  have d8 : getCell g' 5 1 ≠ getCell g' 5 0 :=
    P4 5 0 (by omega) (by omega) (by decide) 5 1 (by omega) (by omega) (by decide) (by unfold sameUnit; decide)
  have d9 : getCell g' 0 0 ≠ getCell g' 5 0 :=
    P4 5 0 (by omega) (by omega) (by decide) 0 0 (by omega) (by omega) (by decide) (by unfold sameUnit; decide)
  have d10 : getCell g' 1 0 ≠ getCell g' 5 0 :=
    P4 5 0 (by omega) (by omega) (by decide) 1 0 (by omega) (by omega) (by decide) (by unfold sameUnit; decide)
  have d11 : getCell g' 2 0 ≠ getCell g' 5 0 :=
    P4 5 0 (by omega) (by omega) (by decide) 2 0 (by omega) (by omega) (by decide) (by unfold sameUnit; decide)
  have d12 : getCell g' 3 0 ≠ getCell g' 5 0 :=
    P4 5 0 (by omega) (by omega) (by decide) 3 0 (by omega) (by omega) (by decide) (by unfold sameUnit; decide)
  have d13 : getCell g' 5 1 ≠ getCell g' 4 1 :=
    P4 4 1 (by omega) (by omega) (by decide) 5 1 (by omega) (by omega) (by decide) (by unfold sameUnit; decide)
  have d14 : getCell g' 0 1 ≠ getCell g' 4 1 :=
    P4 4 1 (by omega) (by omega) (by decide) 0 1 (by omega) (by omega) (by decide) (by unfold sameUnit; decide)
  have d15 : getCell g' 1 1 ≠ getCell g' 4 1 :=
    P4 4 1 (by omega) (by omega) (by decide) 1 1 (by omega) (by omega) (by decide) (by unfold sameUnit; decide)
  have d16 : getCell g' 2 1 ≠ getCell g' 4 1 :=
    P4 4 1 (by omega) (by omega) (by decide) 2 1 (by omega) (by omega) (by decide) (by unfold sameUnit; decide)
  have d17 : getCell g' 3 1 ≠ getCell g' 4 1 :=
    P4 4 1 (by omega) (by omega) (by decide) 3 1 (by omega) (by omega) (by decide) (by unfold sameUnit; decide)
  have d18 : getCell g' 0 1 ≠ getCell g' 5 1 :=
    P4 5 1 (by omega) (by omega) (by decide) 0 1 (by omega) (by omega) (by decide) (by unfold sameUnit; decide)
  have d19 : getCell g' 1 1 ≠ getCell g' 5 1 :=
    P4 5 1 (by omega) (by omega) (by decide) 1 1 (by omega) (by omega) (by decide) (by unfold sameUnit; decide)
  have d20 : getCell g' 2 1 ≠ getCell g' 5 1 :=
    P4 5 1 (by omega) (by omega) (by decide) 2 1 (by omega) (by omega) (by decide) (by unfold sameUnit; decide)
  have d21 : getCell g' 3 1 ≠ getCell g' 5 1 :=
    P4 5 1 (by omega) (by omega) (by decide) 3 1 (by omega) (by omega) (by decide) (by unfold sameUnit; decide)
  omega

/-- Clearing the clue at (1,0) of `seedBad` does not make it
solvable: the cleared cell is forced back to its old value by its box. -/
theorem seedBad_noSol_h10 (g' : Grid)
    (hmem : g' ∈ solsAux 37 (setCell seedBad 1 0 0)) : False := by
  obtain ⟨P1, P2, P3, P4⟩ := solsAux_mem_props 37 _ (by decide) g' hmem
  have e_0_0 : getCell g' 0 0 = 1 := by
    rw [P1 0 0 (by omega) (by omega) (by decide)]
    decide
  have e_0_1 : getCell g' 0 1 = 2 := by
    rw [P1 0 1 (by omega) (by omega) (by decide)]
    decide
  have e_0_2 : getCell g' 0 2 = 3 := by
    rw [P1 0 2 (by omega) (by omega) (by decide)]
    decide
  have e_1_1 : getCell g' 1 1 = 5 := by
    rw [P1 1 1 (by omega) (by omega) (by decide)]
    decide
  have e_1_2 : getCell g' 1 2 = 6 := by
    rw [P1 1 2 (by omega) (by omega) (by decide)]
    decide
  have e_2_0 : getCell g' 2 0 = 2 := by
    rw [P1 2 0 (by omega) (by omega) (by decide)]
    decide
  have e_2_1 : getCell g' 2 1 = 3 := by
    rw [P1 2 1 (by omega) (by omega) (by decide)]
    decide
  have e_2_2 : getCell g' 2 2 = 4 := by
    rw [P1 2 2 (by omega) (by omega) (by decide)]
    decide
  have e_3_0 : getCell g' 3 0 = 5 := by
    rw [P1 3 0 (by omega) (by omega) (by decide)]
    decide
  have e_3_1 : getCell g' 3 1 = 1 := by
    rw [P1 3 1 (by omega) (by omega) (by decide)]
    decide
  have e_3_2 : getCell g' 3 2 = 6 := by
    rw [P1 3 2 (by omega) (by omega) (by decide)]
    decide
  have hbH : 1 ≤ getCell g' 1 0 ∧ getCell g' 1 0 ≤ 6 :=
    P3 1 0 (by omega) (by omega) (by decide)
  have hH0 : getCell g' 0 0 ≠ getCell g' 1 0 :=
    P4 1 0 (by omega) (by omega) (by decide) 0 0 (by omega) (by omega) (by decide) (by unfold sameUnit; decide)
  have hH1 : getCell g' 0 1 ≠ getCell g' 1 0 :=
    P4 1 0 (by omega) (by omega) (by decide) 0 1 (by omega) (by omega) (by decide) (by unfold sameUnit; decide)
  have hH2 : getCell g' 0 2 ≠ getCell g' 1 0 :=
    P4 1 0 (by omega) (by omega) (by decide) 0 2 (by omega) (by omega) (by decide) (by unfold sameUnit; decide)
  have hH3 : getCell g' 1 1 ≠ getCell g' 1 0 :=
    P4 1 0 (by omega) (by omega) (by decide) 1 1 (by omega) (by omega) (by decide) (by unfold sameUnit; decide)
  have hH4 : getCell g' 1 2 ≠ getCell g' 1 0 :=
    P4 1 0 (by omega) (by omega) (by decide) 1 2 (by omega) (by omega) (by decide) (by unfold sameUnit; decide)
  have e_1_0 : getCell g' 1 0 = 4 := by omega
  have b_4_0 : 1 ≤ getCell g' 4 0 ∧ getCell g' 4 0 ≤ 6 :=
    P3 4 0 (by omega) (by omega) (by decide)
  have b_5_0 : 1 ≤ getCell g' 5 0 ∧ getCell g' 5 0 ≤ 6 :=
    P3 5 0 (by omega) (by omega) (by decide)
  have b_4_1 : 1 ≤ getCell g' 4 1 ∧ getCell g' 4 1 ≤ 6 :=
    P3 4 1 (by omega) (by omega) (by decide)
  have b_5_1 : 1 ≤ getCell g' 5 1 ∧ getCell g' 5 1 ≤ 6 :=
    P3 5 1 (by omega) (by omega) (by decide)
  have d0 : getCell g' 5 0 ≠ getCell g' 4 0 :=
    P4 4 0 (by omega) (by omega) (by decide) 5 0 (by omega) (by omega) (by decide) (by unfold sameUnit; decide)
  have d1 : getCell g' 4 1 ≠ getCell g' 4 0 :=
    P4 4 0 (by omega) (by omega) (by decide) 4 1 (by omega) (by omega) (by decide) (by unfold sameUnit; decide)
  have d2 : getCell g' 5 1 ≠ getCell g' 4 0 :=
    P4 4 0 (by omega) (by omega) (by decide) 5 1 (by omega) (by omega) (by decide) (by unfold sameUnit; decide)
  have d3 : getCell g' 0 0 ≠ getCell g' 4 0 :=
    P4 4 0 (by omega) (by omega) (by decide) 0 0 (by omega) (by omega) (by decide) (by unfold sameUnit; decide)
  have d4 : getCell g' 1 0 ≠ getCell g' 4 0 :=
    P4 4 0 (by omega) (by omega) (by decide) 1 0 (by omega) (by omega) (by decide) (by unfold sameUnit; decide)
  have d5 : getCell g' 2 0 ≠ getCell g' 4 0 :=
    P4 4 0 (by omega) (by omega) (by decide) 2 0 (by omega) (by omega) (by decide) (by unfold sameUnit; decide)
  have d6 : getCell g' 3 0 ≠ getCell g' 4 0 :=
    P4 4 0 (by omega) (by omega) (by decide) 3 0 (by omega) (by omega) (by decide) (by unfold sameUnit; decide)
  have d7 : getCell g' 4 1 ≠ getCell g' 5 0 :=
    P4 5 0 (by omega) (by omega) (by decide) 4 1 (by omega) (by omega) (by decide) (by unfold sameUnit; decide)
  have d8 : getCell g' 5 1 ≠ getCell g' 5 0 :=
    P4 5 0 (by omega) (by omega) (by decide) 5 1 (by omega) (by omega) (by decide) (by unfold sameUnit; decide)
  have d9 : getCell g' 0 0 ≠ getCell g' 5 0 :=
    P4 5 0 (by omega) (by omega) (by decide) 0 0 (by omega) (by omega) (by decide) (by unfold sameUnit; decide)
  have d10 : getCell g' 1 0 ≠ getCell g' 5 0 :=
    P4 5 0 (by omega) (by omega) (by decide) 1 0 (by omega) (by omega) (by decide) (by unfold sameUnit; decide)
  have d11 : getCell g' 2 0 ≠ getCell g' 5 0 :=
    P4 5 0 (by omega) (by omega) (by decide) 2 0 (by omega) (by omega) (by decide) (by unfold sameUnit; decide)
  have d12 : getCell g' 3 0 ≠ getCell g' 5 0 :=
    P4 5 0 (by omega) (by omega) (by decide) 3 0 (by omega) (by omega) (by decide) (by unfold sameUnit; decide)
  have d13 : getCell g' 5 1 ≠ getCell g' 4 1 :=
    P4 4 1 (by omega) (by omega) (by decide) 5 1 (by omega) (by omega) (by decide) (by unfold sameUnit; decide)
  have d14 : getCell g' 0 1 ≠ getCell g' 4 1 :=
    P4 4 1 (by omega) (by omega) (by decide) 0 1 (by omega) (by omega) (by decide) (by unfold sameUnit; decide)
  have d15 : getCell g' 1 1 ≠ getCell g' 4 1 :=
    P4 4 1 (by omega) (by omega) (by decide) 1 1 (by omega) (by omega) (by decide) (by unfold sameUnit; decide)
  have d16 : getCell g' 2 1 ≠ getCell g' 4 1 :=
    P4 4 1 (by omega) (by omega) (by decide) 2 1 (by omega) (by omega) (by decide) (by unfold sameUnit; decide)
  have d17 : getCell g' 3 1 ≠ getCell g' 4 1 :=
    P4 4 1 (by omega) (by omega) (by decide) 3 1 (by omega) (by omega) (by decide) (by unfold sameUnit; decide)
  have d18 : getCell g' 0 1 ≠ getCell g' 5 1 :=
    P4 5 1 (by omega) (by omega) (by decide) 0 1 (by omega) (by omega) (by decide) (by unfold sameUnit; decide)
  have d19 : getCell g' 1 1 ≠ getCell g' 5 1 :=
    P4 5 1 (by omega) (by omega) (by decide) 1 1 (by omega) (by omega) (by decide) (by unfold sameUnit; decide)
  have d20 : getCell g' 2 1 ≠ getCell g' 5 1 :=
    P4 5 1 (by omega) (by omega) (by decide) 2 1 (by omega) (by omega) (by decide) (by unfold sameUnit; decide)
  have d21 : getCell g' 3 1 ≠ getCell g' 5 1 :=
    P4 5 1 (by omega) (by omega) (by decide) 3 1 (by omega) (by omega) (by decide) (by unfold sameUnit; decide)
  omega

/-- Clearing the clue at (1,1) of `seedBad` does not make it
solvable: the cleared cell is forced back to its old value by its box. -/
theorem seedBad_noSol_h11 (g' : Grid)
    (hmem : g' ∈ solsAux 37 (setCell seedBad 1 1 0)) : False := by
  obtain ⟨P1, P2, P3, P4⟩ := solsAux_mem_props 37 _ (by decide) g' hmem
  have e_0_0 : getCell g' 0 0 = 1 := by
    rw [P1 0 0 (by omega) (by omega) (by decide)]
    decide
  have e_0_1 : getCell g' 0 1 = 2 := by
    rw [P1 0 1 (by omega) (by omega) (by decide)]
    decide
  have e_0_2 : getCell g' 0 2 = 3 := by
    rw [P1 0 2 (by omega) (by omega) (by decide)]
    decide
  have e_1_0 : getCell g' 1 0 = 4 := by
    rw [P1 1 0 (by omega) (by omega) (by decide)]
    decide
  have e_1_2 : getCell g' 1 2 = 6 := by
    rw [P1 1 2 (by omega) (by omega) (by decide)]
    decide
  have e_2_0 : getCell g' 2 0 = 2 := by
    rw [P1 2 0 (by omega) (by omega) (by decide)]
    decide
  have e_2_1 : getCell g' 2 1 = 3 := by
    rw [P1 2 1 (by omega) (by omega) (by decide)]
    decide
  have e_2_2 : getCell g' 2 2 = 4 := by
    rw [P1 2 2 (by omega) (by omega) (by decide)]
    decide
  have e_3_0 : getCell g' 3 0 = 5 := by
    rw [P1 3 0 (by omega) (by omega) (by decide)]
    decide
  have e_3_1 : getCell g' 3 1 = 1 := by
    rw [P1 3 1 (by omega) (by omega) (by decide)]
    decide
  have e_3_2 : getCell g' 3 2 = 6 := by
    rw [P1 3 2 (by omega) (by omega) (by decide)]
    decide
  have hbH : 1 ≤ getCell g' 1 1 ∧ getCell g' 1 1 ≤ 6 :=
    P3 1 1 (by omega) (by omega) (by decide)
  have hH0 : getCell g' 0 0 ≠ getCell g' 1 1 :=
    P4 1 1 (by omega) (by omega) (by decide) 0 0 (by omega) (by omega) (by decide) (by unfold sameUnit; decide)
  have hH1 : getCell g' 0 1 ≠ getCell g' 1 1 :=
    P4 1 1 (by omega) (by omega) (by decide) 0 1 (by omega) (by omega) (by decide) (by unfold sameUnit; decide)
  have hH2 : getCell g' 0 2 ≠ getCell g' 1 1 :=
    P4 1 1 (by omega) (by omega) (by decide) 0 2 (by omega) (by omega) (by decide) (by unfold sameUnit; decide)
  have hH3 : getCell g' 1 0 ≠ getCell g' 1 1 :=
    P4 1 1 (by omega) (by omega) (by decide) 1 0 (by omega) (by omega) (by decide) (by unfold sameUnit; decide)
  have hH4 : getCell g' 1 2 ≠ getCell g' 1 1 :=
    P4 1 1 (by omega) (by omega) (by decide) 1 2 (by omega) (by omega) (by decide) (by unfold sameUnit; decide)
  have e_1_1 : getCell g' 1 1 = 5 := by omega
  have b_4_0 : 1 ≤ getCell g' 4 0 ∧ getCell g' 4 0 ≤ 6 :=
    P3 4 0 (by omega) (by omega) (by decide)
  have b_5_0 : 1 ≤ getCell g' 5 0 ∧ getCell g' 5 0 ≤ 6 :=
    P3 5 0 (by omega) (by omega) (by decide)
  have b_4_1 : 1 ≤ getCell g' 4 1 ∧ getCell g' 4 1 ≤ 6 :=
    P3 4 1 (by omega) (by omega) (by decide)
  have b_5_1 : 1 ≤ getCell g' 5 1 ∧ getCell g' 5 1 ≤ 6 :=
    P3 5 1 (by omega) (by omega) (by decide)
  have d0 : getCell g' 5 0 ≠ getCell g' 4 0 :=
    P4 4 0 (by omega) (by omega) (by decide) 5 0 (by omega) (by omega) (by decide) (by unfold sameUnit; decide)
  have d1 : getCell g' 4 1 ≠ getCell g' 4 0 :=
    P4 4 0 (by omega) (by omega) (by decide) 4 1 (by omega) (by omega) (by decide) (by unfold sameUnit; decide)
  have d2 : getCell g' 5 1 ≠ getCell g' 4 0 :=
    P4 4 0 (by omega) (by omega) (by decide) 5 1 (by omega) (by omega) (by decide) (by unfold sameUnit; decide)
  have d3 : getCell g' 0 0 ≠ getCell g' 4 0 :=
    P4 4 0 (by omega) (by omega) (by decide) 0 0 (by omega) (by omega) (by decide) (by unfold sameUnit; decide)
  have d4 : getCell g' 1 0 ≠ getCell g' 4 0 :=
    P4 4 0 (by omega) (by omega) (by decide) 1 0 (by omega) (by omega) (by decide) (by unfold sameUnit; decide)
  have d5 : getCell g' 2 0 ≠ getCell g' 4 0 :=
    P4 4 0 (by omega) (by omega) (by decide) 2 0 (by omega) (by omega) (by decide) (by unfold sameUnit; decide)
  have d6 : getCell g' 3 0 ≠ getCell g' 4 0 :=
    P4 4 0 (by omega) (by omega) (by decide) 3 0 (by omega) (by omega) (by decide) (by unfold sameUnit; decide)
  have d7 : getCell g' 4 1 ≠ getCell g' 5 0 :=
    P4 5 0 (by omega) (by omega) (by decide) 4 1 (by omega) (by omega) (by decide) (by unfold sameUnit; decide)
  have d8 : getCell g' 5 1 ≠ getCell g' 5 0 :=
    P4 5 0 (by omega) (by omega) (by decide) 5 1 (by omega) (by omega) (by decide) (by unfold sameUnit; decide)
  have d9 : getCell g' 0 0 ≠ getCell g' 5 0 :=
    P4 5 0 (by omega) (by omega) (by decide) 0 0 (by omega) (by omega) (by decide) (by unfold sameUnit; decide)
  have d10 : getCell g' 1 0 ≠ getCell g' 5 0 :=
    P4 5 0 (by omega) (by omega) (by decide) 1 0 (by omega) (by omega) (by decide) (by unfold sameUnit; decide)
  have d11 : getCell g' 2 0 ≠ getCell g' 5 0 :=
    P4 5 0 (by omega) (by omega) (by decide) 2 0 (by omega) (by omega) (by decide) (by unfold sameUnit; decide)
  have d12 : getCell g' 3 0 ≠ getCell g' 5 0 :=
    P4 5 0 (by omega) (by omega) (by decide) 3 0 (by omega) (by omega) (by decide) (by unfold sameUnit; decide)
  have d13 : getCell g' 5 1 ≠ getCell g' 4 1 :=
    P4 4 1 (by omega) (by omega) (by decide) 5 1 (by omega) (by omega) (by decide) (by unfold sameUnit; decide)
  have d14 : getCell g' 0 1 ≠ getCell g' 4 1 :=
    P4 4 1 (by omega) (by omega) (by decide) 0 1 (by omega) (by omega) (by decide) (by unfold sameUnit; decide)
  have d15 : getCell g' 1 1 ≠ getCell g' 4 1 :=
    P4 4 1 (by omega) (by omega) (by decide) 1 1 (by omega) (by omega) (by decide) (by unfold sameUnit; decide)
  have d16 : getCell g' 2 1 ≠ getCell g' 4 1 :=
    P4 4 1 (by omega) (by omega) (by decide) 2 1 (by omega) (by omega) (by decide) (by unfold sameUnit; decide)
  have d17 : getCell g' 3 1 ≠ getCell g' 4 1 :=
    P4 4 1 (by omega) (by omega) (by decide) 3 1 (by omega) (by omega) (by decide) (by unfold sameUnit; decide)
  have d18 : getCell g' 0 1 ≠ getCell g' 5 1 :=
    P4 5 1 (by omega) (by omega) (by decide) 0 1 (by omega) (by omega) (by decide) (by unfold sameUnit; decide)
  have d19 : getCell g' 1 1 ≠ getCell g' 5 1 :=
    P4 5 1 (by omega) (by omega) (by decide) 1 1 (by omega) (by omega) (by decide) (by unfold sameUnit; decide)
  have d20 : getCell g' 2 1 ≠ getCell g' 5 1 :=
    P4 5 1 (by omega) (by omega) (by decide) 2 1 (by omega) (by omega) (by decide) (by unfold sameUnit; decide)
  have d21 : getCell g' 3 1 ≠ getCell g' 5 1 :=
    P4 5 1 (by omega) (by omega) (by decide) 3 1 (by omega) (by omega) (by decide) (by unfold sameUnit; decide)
  omega

/-- Clearing the clue at (1,2) of `seedBad` does not make it
solvable: the cleared cell is forced back to its old value by its box. -/
theorem seedBad_noSol_h12 (g' : Grid)
    (hmem : g' ∈ solsAux 37 (setCell seedBad 1 2 0)) : False := by
  obtain ⟨P1, P2, P3, P4⟩ := solsAux_mem_props 37 _ (by decide) g' hmem
  have e_0_0 : getCell g' 0 0 = 1 := by
    rw [P1 0 0 (by omega) (by omega) (by decide)]
    decide
  have e_0_1 : getCell g' 0 1 = 2 := by
    rw [P1 0 1 (by omega) (by omega) (by decide)]
    decide
  have e_0_2 : getCell g' 0 2 = 3 := by
    rw [P1 0 2 (by omega) (by omega) (by decide)]
    decide
  have e_1_0 : getCell g' 1 0 = 4 := by
    rw [P1 1 0 (by omega) (by omega) (by decide)]
    decide
  have e_1_1 : getCell g' 1 1 = 5 := by
    rw [P1 1 1 (by omega) (by omega) (by decide)]
    decide
  have e_2_0 : getCell g' 2 0 = 2 := by
    rw [P1 2 0 (by omega) (by omega) (by decide)]
    decide
  have e_2_1 : getCell g' 2 1 = 3 := by
    rw [P1 2 1 (by omega) (by omega) (by decide)]
    decide
  have e_2_2 : getCell g' 2 2 = 4 := by
    rw [P1 2 2 (by omega) (by omega) (by decide)]
    decide
  have e_3_0 : getCell g' 3 0 = 5 := by
    rw [P1 3 0 (by omega) (by omega) (by decide)]
    decide
  have e_3_1 : getCell g' 3 1 = 1 := by
    rw [P1 3 1 (by omega) (by omega) (by decide)]
    decide
  have e_3_2 : getCell g' 3 2 = 6 := by
    rw [P1 3 2 (by omega) (by omega) (by decide)]
    decide
  have hbH : 1 ≤ getCell g' 1 2 ∧ getCell g' 1 2 ≤ 6 :=
    P3 1 2 (by omega) (by omega) (by decide)
  have hH0 : getCell g' 0 0 ≠ getCell g' 1 2 :=
    P4 1 2 (by omega) (by omega) (by decide) 0 0 (by omega) (by omega) (by decide) (by unfold sameUnit; decide)
  have hH1 : getCell g' 0 1 ≠ getCell g' 1 2 :=
    P4 1 2 (by omega) (by omega) (by decide) 0 1 (by omega) (by omega) (by decide) (by unfold sameUnit; decide)
  have hH2 : getCell g' 0 2 ≠ getCell g' 1 2 :=
    P4 1 2 (by omega) (by omega) (by decide) 0 2 (by omega) (by omega) (by decide) (by unfold sameUnit; decide)
  have hH3 : getCell g' 1 0 ≠ getCell g' 1 2 :=
    P4 1 2 (by omega) (by omega) (by decide) 1 0 (by omega) (by omega) (by decide) (by unfold sameUnit; decide)
  have hH4 : getCell g' 1 1 ≠ getCell g' 1 2 :=
    P4 1 2 (by omega) (by omega) (by decide) 1 1 (by omega) (by omega) (by decide) (by unfold sameUnit; decide)
  have e_1_2 : getCell g' 1 2 = 6 := by omega
  have b_4_0 : 1 ≤ getCell g' 4 0 ∧ getCell g' 4 0 ≤ 6 :=
    P3 4 0 (by omega) (by omega) (by decide)
  have b_5_0 : 1 ≤ getCell g' 5 0 ∧ getCell g' 5 0 ≤ 6 :=
    P3 5 0 (by omega) (by omega) (by decide)
  have b_4_1 : 1 ≤ getCell g' 4 1 ∧ getCell g' 4 1 ≤ 6 :=
    P3 4 1 (by omega) (by omega) (by decide)
  have b_5_1 : 1 ≤ getCell g' 5 1 ∧ getCell g' 5 1 ≤ 6 :=
    P3 5 1 (by omega) (by omega) (by decide)
  have d0 : getCell g' 5 0 ≠ getCell g' 4 0 :=
    P4 4 0 (by omega) (by omega) (by decide) 5 0 (by omega) (by omega) (by decide) (by unfold sameUnit; decide)
  have d1 : getCell g' 4 1 ≠ getCell g' 4 0 :=
    P4 4 0 (by omega) (by omega) (by decide) 4 1 (by omega) (by omega) (by decide) (by unfold sameUnit; decide)
  have d2 : getCell g' 5 1 ≠ getCell g' 4 0 :=
    P4 4 0 (by omega) (by omega) (by decide) 5 1 (by omega) (by omega) (by decide) (by unfold sameUnit; decide)
  have d3 : getCell g' 0 0 ≠ getCell g' 4 0 :=
    P4 4 0 (by omega) (by omega) (by decide) 0 0 (by omega) (by omega) (by decide) (by unfold sameUnit; decide)
  have d4 : getCell g' 1 0 ≠ getCell g' 4 0 :=
    P4 4 0 (by omega) (by omega) (by decide) 1 0 (by omega) (by omega) (by decide) (by unfold sameUnit; decide)
  have d5 : getCell g' 2 0 ≠ getCell g' 4 0 :=
    P4 4 0 (by omega) (by omega) (by decide) 2 0 (by omega) (by omega) (by decide) (by unfold sameUnit; decide)
  have d6 : getCell g' 3 0 ≠ getCell g' 4 0 :=
    P4 4 0 (by omega) (by omega) (by decide) 3 0 (by omega) (by omega) (by decide) (by unfold sameUnit; decide)
  have d7 : getCell g' 4 1 ≠ getCell g' 5 0 :=
    P4 5 0 (by omega) (by omega) (by decide) 4 1 (by omega) (by omega) (by decide) (by unfold sameUnit; decide)
  have d8 : getCell g' 5 1 ≠ getCell g' 5 0 :=
    P4 5 0 (by omega) (by omega) (by decide) 5 1 (by omega) (by omega) (by decide) (by unfold sameUnit; decide)
  have d9 : getCell g' 0 0 ≠ getCell g' 5 0 :=
    P4 5 0 (by omega) (by omega) (by decide) 0 0 (by omega) (by omega) (by decide) (by unfold sameUnit; decide)
  have d10 : getCell g' 1 0 ≠ getCell g' 5 0 :=
    P4 5 0 (by omega) (by omega) (by decide) 1 0 (by omega) (by omega) (by decide) (by unfold sameUnit; decide)
  have d11 : getCell g' 2 0 ≠ getCell g' 5 0 :=
    P4 5 0 (by omega) (by omega) (by decide) 2 0 (by omega) (by omega) (by decide) (by unfold sameUnit; decide)
  have d12 : getCell g' 3 0 ≠ getCell g' 5 0 :=
    P4 5 0 (by omega) (by omega) (by decide) 3 0 (by omega) (by omega) (by decide) (by unfold sameUnit; decide)
  have d13 : getCell g' 5 1 ≠ getCell g' 4 1 :=
    P4 4 1 (by omega) (by omega) (by decide) 5 1 (by omega) (by omega) (by decide) (by unfold sameUnit; decide)
  have d14 : getCell g' 0 1 ≠ getCell g' 4 1 :=
    P4 4 1 (by omega) (by omega) (by decide) 0 1 (by omega) (by omega) (by decide) (by unfold sameUnit; decide)
  have d15 : getCell g' 1 1 ≠ getCell g' 4 1 :=
    P4 4 1 (by omega) (by omega) (by decide) 1 1 (by omega) (by omega) (by decide) (by unfold sameUnit; decide)
  have d16 : getCell g' 2 1 ≠ getCell g' 4 1 :=
    P4 4 1 (by omega) (by omega) (by decide) 2 1 (by omega) (by omega) (by decide) (by unfold sameUnit; decide)
  have d17 : getCell g' 3 1 ≠ getCell g' 4 1 :=
    P4 4 1 (by omega) (by omega) (by decide) 3 1 (by omega) (by omega) (by decide) (by unfold sameUnit; decide)
  have d18 : getCell g' 0 1 ≠ getCell g' 5 1 :=
    P4 5 1 (by omega) (by omega) (by decide) 0 1 (by omega) (by omega) (by decide) (by unfold sameUnit; decide)
  have d19 : getCell g' 1 1 ≠ getCell g' 5 1 :=
    P4 5 1 (by omega) (by omega) (by decide) 1 1 (by omega) (by omega) (by decide) (by unfold sameUnit; decide)
  have d20 : getCell g' 2 1 ≠ getCell g' 5 1 :=
    P4 5 1 (by omega) (by omega) (by decide) 2 1 (by omega) (by omega) (by decide) (by unfold sameUnit; decide)
  have d21 : getCell g' 3 1 ≠ getCell g' 5 1 :=
    P4 5 1 (by omega) (by omega) (by decide) 3 1 (by omega) (by omega) (by decide) (by unfold sameUnit; decide)
  omega

/-- Clearing the clue at (2,0) of `seedBad` does not make it
solvable: the cleared cell is forced back to its old value by its box. -/
theorem seedBad_noSol_h20 (g' : Grid)
    (hmem : g' ∈ solsAux 37 (setCell seedBad 2 0 0)) : False := by
  obtain ⟨P1, P2, P3, P4⟩ := solsAux_mem_props 37 _ (by decide) g' hmem
  have e_0_0 : getCell g' 0 0 = 1 := by
    rw [P1 0 0 (by omega) (by omega) (by decide)]
    decide
  have e_0_1 : getCell g' 0 1 = 2 := by
    rw [P1 0 1 (by omega) (by omega) (by decide)]
    decide
  have e_0_2 : getCell g' 0 2 = 3 := by
    rw [P1 0 2 (by omega) (by omega) (by decide)]
    decide
  have e_1_0 : getCell g' 1 0 = 4 := by
    rw [P1 1 0 (by omega) (by omega) (by decide)]
    decide
  have e_1_1 : getCell g' 1 1 = 5 := by
    rw [P1 1 1 (by omega) (by omega) (by decide)]
    decide
  have e_1_2 : getCell g' 1 2 = 6 := by
    rw [P1 1 2 (by omega) (by omega) (by decide)]
    decide
  have e_2_1 : getCell g' 2 1 = 3 := by
    rw [P1 2 1 (by omega) (by omega) (by decide)]
    decide
  have e_2_2 : getCell g' 2 2 = 4 := by
    rw [P1 2 2 (by omega) (by omega) (by decide)]
    decide
  have e_3_0 : getCell g' 3 0 = 5 := by
    rw [P1 3 0 (by omega) (by omega) (by decide)]
    decide
  have e_3_1 : getCell g' 3 1 = 1 := by
    rw [P1 3 1 (by omega) (by omega) (by decide)]
    decide
  have e_3_2 : getCell g' 3 2 = 6 := by
    rw [P1 3 2 (by omega) (by omega) (by decide)]
    decide
  have hbH : 1 ≤ getCell g' 2 0 ∧ getCell g' 2 0 ≤ 6 :=
    P3 2 0 (by omega) (by omega) (by decide)
  have hH0 : getCell g' 2 1 ≠ getCell g' 2 0 :=
    P4 2 0 (by omega) (by omega) (by decide) 2 1 (by omega) (by omega) (by decide) (by unfold sameUnit; decide)
  have hH1 : getCell g' 2 2 ≠ getCell g' 2 0 :=
    P4 2 0 (by omega) (by omega) (by decide) 2 2 (by omega) (by omega) (by decide) (by unfold sameUnit; decide)
  have hH2 : getCell g' 3 0 ≠ getCell g' 2 0 :=
    P4 2 0 (by omega) (by omega) (by decide) 3 0 (by omega) (by omega) (by decide) (by unfold sameUnit; decide)
  have hH3 : getCell g' 3 1 ≠ getCell g' 2 0 :=
    P4 2 0 (by omega) (by omega) (by decide) 3 1 (by omega) (by omega) (by decide) (by unfold sameUnit; decide)
  have hH4 : getCell g' 3 2 ≠ getCell g' 2 0 :=
    P4 2 0 (by omega) (by omega) (by decide) 3 2 (by omega) (by omega) (by decide) (by unfold sameUnit; decide)
  have e_2_0 : getCell g' 2 0 = 2 := by omega
  have b_4_0 : 1 ≤ getCell g' 4 0 ∧ getCell g' 4 0 ≤ 6 :=
    P3 4 0 (by omega) (by omega) (by decide)
  have b_5_0 : 1 ≤ getCell g' 5 0 ∧ getCell g' 5 0 ≤ 6 :=
    P3 5 0 (by omega) (by omega) (by decide)
  have b_4_1 : 1 ≤ getCell g' 4 1 ∧ getCell g' 4 1 ≤ 6 :=
    P3 4 1 (by omega) (by omega) (by decide)
  have b_5_1 : 1 ≤ getCell g' 5 1 ∧ getCell g' 5 1 ≤ 6 :=
    P3 5 1 (by omega) (by omega) (by decide)
  have d0 : getCell g' 5 0 ≠ getCell g' 4 0 :=
    P4 4 0 (by omega) (by omega) (by decide) 5 0 (by omega) (by omega) (by decide) (by unfold sameUnit; decide)
  have d1 : getCell g' 4 1 ≠ getCell g' 4 0 :=
    P4 4 0 (by omega) (by omega) (by decide) 4 1 (by omega) (by omega) (by decide) (by unfold sameUnit; decide)
  have d2 : getCell g' 5 1 ≠ getCell g' 4 0 :=
    P4 4 0 (by omega) (by omega) (by decide) 5 1 (by omega) (by omega) (by decide) (by unfold sameUnit; decide)
  have d3 : getCell g' 0 0 ≠ getCell g' 4 0 :=
    P4 4 0 (by omega) (by omega) (by decide) 0 0 (by omega) (by omega) (by decide) (by unfold sameUnit; decide)
  have d4 : getCell g' 1 0 ≠ getCell g' 4 0 :=
    P4 4 0 (by omega) (by omega) (by decide) 1 0 (by omega) (by omega) (by decide) (by unfold sameUnit; decide)
  have d5 : getCell g' 2 0 ≠ getCell g' 4 0 :=
    P4 4 0 (by omega) (by omega) (by decide) 2 0 (by omega) (by omega) (by decide) (by unfold sameUnit; decide)
  have d6 : getCell g' 3 0 ≠ getCell g' 4 0 :=
    P4 4 0 (by omega) (by omega) (by decide) 3 0 (by omega) (by omega) (by decide) (by unfold sameUnit; decide)
  have d7 : getCell g' 4 1 ≠ getCell g' 5 0 :=
    P4 5 0 (by omega) (by omega) (by decide) 4 1 (by omega) (by omega) (by decide) (by unfold sameUnit; decide)
  have d8 : getCell g' 5 1 ≠ getCell g' 5 0 :=
    P4 5 0 (by omega) (by omega) (by decide) 5 1 (by omega) (by omega) (by decide) (by unfold sameUnit; decide)
  have d9 : getCell g' 0 0 ≠ getCell g' 5 0 :=
    P4 5 0 (by omega) (by omega) (by decide) 0 0 (by omega) (by omega) (by decide) (by unfold sameUnit; decide)
  have d10 : getCell g' 1 0 ≠ getCell g' 5 0 :=
    P4 5 0 (by omega) (by omega) (by decide) 1 0 (by omega) (by omega) (by decide) (by unfold sameUnit; decide)
  have d11 : getCell g' 2 0 ≠ getCell g' 5 0 :=
    P4 5 0 (by omega) (by omega) (by decide) 2 0 (by omega) (by omega) (by decide) (by unfold sameUnit; decide)
  have d12 : getCell g' 3 0 ≠ getCell g' 5 0 :=
    P4 5 0 (by omega) (by omega) (by decide) 3 0 (by omega) (by omega) (by decide) (by unfold sameUnit; decide)
  have d13 : getCell g' 5 1 ≠ getCell g' 4 1 :=
    P4 4 1 (by omega) (by omega) (by decide) 5 1 (by omega) (by omega) (by decide) (by unfold sameUnit; decide)
  have d14 : getCell g' 0 1 ≠ getCell g' 4 1 :=
    P4 4 1 (by omega) (by omega) (by decide) 0 1 (by omega) (by omega) (by decide) (by unfold sameUnit; decide)
  have d15 : getCell g' 1 1 ≠ getCell g' 4 1 :=
    P4 4 1 (by omega) (by omega) (by decide) 1 1 (by omega) (by omega) (by decide) (by unfold sameUnit; decide)
  have d16 : getCell g' 2 1 ≠ getCell g' 4 1 :=
    P4 4 1 (by omega) (by omega) (by decide) 2 1 (by omega) (by omega) (by decide) (by unfold sameUnit; decide)
  have d17 : getCell g' 3 1 ≠ getCell g' 4 1 :=
    P4 4 1 (by omega) (by omega) (by decide) 3 1 (by omega) (by omega) (by decide) (by unfold sameUnit; decide)
  have d18 : getCell g' 0 1 ≠ getCell g' 5 1 :=
    P4 5 1 (by omega) (by omega) (by decide) 0 1 (by omega) (by omega) (by decide) (by unfold sameUnit; decide)
  have d19 : getCell g' 1 1 ≠ getCell g' 5 1 :=
    P4 5 1 (by omega) (by omega) (by decide) 1 1 (by omega) (by omega) (by decide) (by unfold sameUnit; decide)
  have d20 : getCell g' 2 1 ≠ getCell g' 5 1 :=
    P4 5 1 (by omega) (by omega) (by decide) 2 1 (by omega) (by omega) (by decide) (by unfold sameUnit; decide)
  have d21 : getCell g' 3 1 ≠ getCell g' 5 1 :=
    P4 5 1 (by omega) (by omega) (by decide) 3 1 (by omega) (by omega) (by decide) (by unfold sameUnit; decide)
  omega

/-- Clearing the clue at (2,1) of `seedBad` does not make it
solvable: the cleared cell is forced back to its old value by its box. -/
theorem seedBad_noSol_h21 (g' : Grid)
    (hmem : g' ∈ solsAux 37 (setCell seedBad 2 1 0)) : False := by
  obtain ⟨P1, P2, P3, P4⟩ := solsAux_mem_props 37 _ (by decide) g' hmem
  have e_0_0 : getCell g' 0 0 = 1 := by
    rw [P1 0 0 (by omega) (by omega) (by decide)]
    decide
  have e_0_1 : getCell g' 0 1 = 2 := by
    rw [P1 0 1 (by omega) (by omega) (by decide)]
    decide
  have e_0_2 : getCell g' 0 2 = 3 := by
    rw [P1 0 2 (by omega) (by omega) (by decide)]
    decide
  have e_1_0 : getCell g' 1 0 = 4 := by
    rw [P1 1 0 (by omega) (by omega) (by decide)]
    decide
  have e_1_1 : getCell g' 1 1 = 5 := by
    rw [P1 1 1 (by omega) (by omega) (by decide)]
    decide
  have e_1_2 : getCell g' 1 2 = 6 := by
    rw [P1 1 2 (by omega) (by omega) (by decide)]
    decide
  have e_2_0 : getCell g' 2 0 = 2 := by
    rw [P1 2 0 (by omega) (by omega) (by decide)]
    decide
  have e_2_2 : getCell g' 2 2 = 4 := by
    rw [P1 2 2 (by omega) (by omega) (by decide)]
    decide
  have e_3_0 : getCell g' 3 0 = 5 := by
    rw [P1 3 0 (by omega) (by omega) (by decide)]
    decide
  have e_3_1 : getCell g' 3 1 = 1 := by
    rw [P1 3 1 (by omega) (by omega) (by decide)]
    decide
  have e_3_2 : getCell g' 3 2 = 6 := by
    rw [P1 3 2 (by omega) (by omega) (by decide)]
    decide
  have hbH : 1 ≤ getCell g' 2 1 ∧ getCell g' 2 1 ≤ 6 :=
    P3 2 1 (by omega) (by omega) (by decide)
  have hH0 : getCell g' 2 0 ≠ getCell g' 2 1 :=
    P4 2 1 (by omega) (by omega) (by decide) 2 0 (by omega) (by omega) (by decide) (by unfold sameUnit; decide)
  have hH1 : getCell g' 2 2 ≠ getCell g' 2 1 :=
    P4 2 1 (by omega) (by omega) (by decide) 2 2 (by omega) (by omega) (by decide) (by unfold sameUnit; decide)
  have hH2 : getCell g' 3 0 ≠ getCell g' 2 1 :=
    P4 2 1 (by omega) (by omega) (by decide) 3 0 (by omega) (by omega) (by decide) (by unfold sameUnit; decide)
  have hH3 : getCell g' 3 1 ≠ getCell g' 2 1 :=
    P4 2 1 (by omega) (by omega) (by decide) 3 1 (by omega) (by omega) (by decide) (by unfold sameUnit; decide)
  have hH4 : getCell g' 3 2 ≠ getCell g' 2 1 :=
    P4 2 1 (by omega) (by omega) (by decide) 3 2 (by omega) (by omega) (by decide) (by unfold sameUnit; decide)
  have e_2_1 : getCell g' 2 1 = 3 := by omega
  have b_4_0 : 1 ≤ getCell g' 4 0 ∧ getCell g' 4 0 ≤ 6 :=
    P3 4 0 (by omega) (by omega) (by decide)
  have b_5_0 : 1 ≤ getCell g' 5 0 ∧ getCell g' 5 0 ≤ 6 :=
    P3 5 0 (by omega) (by omega) (by decide)
  have b_4_1 : 1 ≤ getCell g' 4 1 ∧ getCell g' 4 1 ≤ 6 :=
    P3 4 1 (by omega) (by omega) (by decide)
  have b_5_1 : 1 ≤ getCell g' 5 1 ∧ getCell g' 5 1 ≤ 6 :=
    P3 5 1 (by omega) (by omega) (by decide)
  have d0 : getCell g' 5 0 ≠ getCell g' 4 0 :=
    P4 4 0 (by omega) (by omega) (by decide) 5 0 (by omega) (by omega) (by decide) (by unfold sameUnit; decide)
  have d1 : getCell g' 4 1 ≠ getCell g' 4 0 :=
    P4 4 0 (by omega) (by omega) (by decide) 4 1 (by omega) (by omega) (by decide) (by unfold sameUnit; decide)
  have d2 : getCell g' 5 1 ≠ getCell g' 4 0 :=
    P4 4 0 (by omega) (by omega) (by decide) 5 1 (by omega) (by omega) (by decide) (by unfold sameUnit; decide)
  have d3 : getCell g' 0 0 ≠ getCell g' 4 0 :=
    P4 4 0 (by omega) (by omega) (by decide) 0 0 (by omega) (by omega) (by decide) (by unfold sameUnit; decide)
  have d4 : getCell g' 1 0 ≠ getCell g' 4 0 :=
    P4 4 0 (by omega) (by omega) (by decide) 1 0 (by omega) (by omega) (by decide) (by unfold sameUnit; decide)
  have d5 : getCell g' 2 0 ≠ getCell g' 4 0 :=
    P4 4 0 (by omega) (by omega) (by decide) 2 0 (by omega) (by omega) (by decide) (by unfold sameUnit; decide)
  have d6 : getCell g' 3 0 ≠ getCell g' 4 0 :=
    P4 4 0 (by omega) (by omega) (by decide) 3 0 (by omega) (by omega) (by decide) (by unfold sameUnit; decide)
  have d7 : getCell g' 4 1 ≠ getCell g' 5 0 :=
    P4 5 0 (by omega) (by omega) (by decide) 4 1 (by omega) (by omega) (by decide) (by unfold sameUnit; decide)
  have d8 : getCell g' 5 1 ≠ getCell g' 5 0 :=
    P4 5 0 (by omega) (by omega) (by decide) 5 1 (by omega) (by omega) (by decide) (by unfold sameUnit; decide)
  have d9 : getCell g' 0 0 ≠ getCell g' 5 0 :=
    P4 5 0 (by omega) (by omega) (by decide) 0 0 (by omega) (by omega) (by decide) (by unfold sameUnit; decide)
  have d10 : getCell g' 1 0 ≠ getCell g' 5 0 :=
    P4 5 0 (by omega) (by omega) (by decide) 1 0 (by omega) (by omega) (by decide) (by unfold sameUnit; decide)
  have d11 : getCell g' 2 0 ≠ getCell g' 5 0 :=
    P4 5 0 (by omega) (by omega) (by decide) 2 0 (by omega) (by omega) (by decide) (by unfold sameUnit; decide)
  have d12 : getCell g' 3 0 ≠ getCell g' 5 0 :=
    P4 5 0 (by omega) (by omega) (by decide) 3 0 (by omega) (by omega) (by decide) (by unfold sameUnit; decide)
  have d13 : getCell g' 5 1 ≠ getCell g' 4 1 :=
    P4 4 1 (by omega) (by omega) (by decide) 5 1 (by omega) (by omega) (by decide) (by unfold sameUnit; decide)
  have d14 : getCell g' 0 1 ≠ getCell g' 4 1 :=
    P4 4 1 (by omega) (by omega) (by decide) 0 1 (by omega) (by omega) (by decide) (by unfold sameUnit; decide)
  have d15 : getCell g' 1 1 ≠ getCell g' 4 1 :=
    P4 4 1 (by omega) (by omega) (by decide) 1 1 (by omega) (by omega) (by decide) (by unfold sameUnit; decide)
  have d16 : getCell g' 2 1 ≠ getCell g' 4 1 :=
    P4 4 1 (by omega) (by omega) (by decide) 2 1 (by omega) (by omega) (by decide) (by unfold sameUnit; decide)
  have d17 : getCell g' 3 1 ≠ getCell g' 4 1 :=
    P4 4 1 (by omega) (by omega) (by decide) 3 1 (by omega) (by omega) (by decide) (by unfold sameUnit; decide)
  have d18 : getCell g' 0 1 ≠ getCell g' 5 1 :=
    P4 5 1 (by omega) (by omega) (by decide) 0 1 (by omega) (by omega) (by decide) (by unfold sameUnit; decide)
  have d19 : getCell g' 1 1 ≠ getCell g' 5 1 :=
    P4 5 1 (by omega) (by omega) (by decide) 1 1 (by omega) (by omega) (by decide) (by unfold sameUnit; decide)
  have d20 : getCell g' 2 1 ≠ getCell g' 5 1 :=
    P4 5 1 (by omega) (by omega) (by decide) 2 1 (by omega) (by omega) (by decide) (by unfold sameUnit; decide)
  have d21 : getCell g' 3 1 ≠ getCell g' 5 1 :=
    P4 5 1 (by omega) (by omega) (by decide) 3 1 (by omega) (by omega) (by decide) (by unfold sameUnit; decide)
  omega

/-- Clearing the clue at (2,2) of `seedBad` does not make it
solvable: the cleared cell is forced back to its old value by its box. -/
theorem seedBad_noSol_h22 (g' : Grid)
    (hmem : g' ∈ solsAux 37 (setCell seedBad 2 2 0)) : False := by
  obtain ⟨P1, P2, P3, P4⟩ := solsAux_mem_props 37 _ (by decide) g' hmem
  have e_0_0 : getCell g' 0 0 = 1 := by
    rw [P1 0 0 (by omega) (by omega) (by decide)]
    decide
  have e_0_1 : getCell g' 0 1 = 2 := by
    rw [P1 0 1 (by omega) (by omega) (by decide)]
    decide
  have e_0_2 : getCell g' 0 2 = 3 := by
    rw [P1 0 2 (by omega) (by omega) (by decide)]
    decide
  have e_1_0 : getCell g' 1 0 = 4 := by
    rw [P1 1 0 (by omega) (by omega) (by decide)]
    decide
  have e_1_1 : getCell g' 1 1 = 5 := by
    rw [P1 1 1 (by omega) (by omega) (by decide)]
    decide
  have e_1_2 : getCell g' 1 2 = 6 := by
    rw [P1 1 2 (by omega) (by omega) (by decide)]
    decide
  have e_2_0 : getCell g' 2 0 = 2 := by
    rw [P1 2 0 (by omega) (by omega) (by decide)]
    decide
  have e_2_1 : getCell g' 2 1 = 3 := by
    rw [P1 2 1 (by omega) (by omega) (by decide)]
    decide
  have e_3_0 : getCell g' 3 0 = 5 := by
    rw [P1 3 0 (by omega) (by omega) (by decide)]
    decide
  have e_3_1 : getCell g' 3 1 = 1 := by
    rw [P1 3 1 (by omega) (by omega) (by decide)]
    decide
  have e_3_2 : getCell g' 3 2 = 6 := by
    rw [P1 3 2 (by omega) (by omega) (by decide)]
    decide
  have hbH : 1 ≤ getCell g' 2 2 ∧ getCell g' 2 2 ≤ 6 :=
    P3 2 2 (by omega) (by omega) (by decide)
  have hH0 : getCell g' 2 0 ≠ getCell g' 2 2 :=
    P4 2 2 (by omega) (by omega) (by decide) 2 0 (by omega) (by omega) (by decide) (by unfold sameUnit; decide)
  have hH1 : getCell g' 2 1 ≠ getCell g' 2 2 :=
    P4 2 2 (by omega) (by omega) (by decide) 2 1 (by omega) (by omega) (by decide) (by unfold sameUnit; decide)
  have hH2 : getCell g' 3 0 ≠ getCell g' 2 2 :=
    P4 2 2 (by omega) (by omega) (by decide) 3 0 (by omega) (by omega) (by decide) (by unfold sameUnit; decide)
  have hH3 : getCell g' 3 1 ≠ getCell g' 2 2 :=
    P4 2 2 (by omega) (by omega) (by decide) 3 1 (by omega) (by omega) (by decide) (by unfold sameUnit; decide)
  have hH4 : getCell g' 3 2 ≠ getCell g' 2 2 :=
    P4 2 2 (by omega) (by omega) (by decide) 3 2 (by omega) (by omega) (by decide) (by unfold sameUnit; decide)
  have e_2_2 : getCell g' 2 2 = 4 := by omega
  have b_4_0 : 1 ≤ getCell g' 4 0 ∧ getCell g' 4 0 ≤ 6 :=
    P3 4 0 (by omega) (by omega) (by decide)
  have b_5_0 : 1 ≤ getCell g' 5 0 ∧ getCell g' 5 0 ≤ 6 :=
    P3 5 0 (by omega) (by omega) (by decide)
  have b_4_1 : 1 ≤ getCell g' 4 1 ∧ getCell g' 4 1 ≤ 6 :=
    P3 4 1 (by omega) (by omega) (by decide)
  have b_5_1 : 1 ≤ getCell g' 5 1 ∧ getCell g' 5 1 ≤ 6 :=
    P3 5 1 (by omega) (by omega) (by decide)
  have d0 : getCell g' 5 0 ≠ getCell g' 4 0 :=
    P4 4 0 (by omega) (by omega) (by decide) 5 0 (by omega) (by omega) (by decide) (by unfold sameUnit; decide)
  have d1 : getCell g' 4 1 ≠ getCell g' 4 0 :=
    P4 4 0 (by omega) (by omega) (by decide) 4 1 (by omega) (by omega) (by decide) (by unfold sameUnit; decide)
  have d2 : getCell g' 5 1 ≠ getCell g' 4 0 :=
    P4 4 0 (by omega) (by omega) (by decide) 5 1 (by omega) (by omega) (by decide) (by unfold sameUnit; decide)
  have d3 : getCell g' 0 0 ≠ getCell g' 4 0 :=
    P4 4 0 (by omega) (by omega) (by decide) 0 0 (by omega) (by omega) (by decide) (by unfold sameUnit; decide)
  have d4 : getCell g' 1 0 ≠ getCell g' 4 0 :=
    P4 4 0 (by omega) (by omega) (by decide) 1 0 (by omega) (by omega) (by decide) (by unfold sameUnit; decide)
  have d5 : getCell g' 2 0 ≠ getCell g' 4 0 :=
    P4 4 0 (by omega) (by omega) (by decide) 2 0 (by omega) (by omega) (by decide) (by unfold sameUnit; decide)
  have d6 : getCell g' 3 0 ≠ getCell g' 4 0 :=
    P4 4 0 (by omega) (by omega) (by decide) 3 0 (by omega) (by omega) (by decide) (by unfold sameUnit; decide)
  have d7 : getCell g' 4 1 ≠ getCell g' 5 0 :=
    P4 5 0 (by omega) (by omega) (by decide) 4 1 (by omega) (by omega) (by decide) (by unfold sameUnit; decide)
  have d8 : getCell g' 5 1 ≠ getCell g' 5 0 :=
    P4 5 0 (by omega) (by omega) (by decide) 5 1 (by omega) (by omega) (by decide) (by unfold sameUnit; decide)
  have d9 : getCell g' 0 0 ≠ getCell g' 5 0 :=
    P4 5 0 (by omega) (by omega) (by decide) 0 0 (by omega) (by omega) (by decide) (by unfold sameUnit; decide)
  have d10 : getCell g' 1 0 ≠ getCell g' 5 0 :=
    P4 5 0 (by omega) (by omega) (by decide) 1 0 (by omega) (by omega) (by decide) (by unfold sameUnit; decide)
  have d11 : getCell g' 2 0 ≠ getCell g' 5 0 :=
    P4 5 0 (by omega) (by omega) (by decide) 2 0 (by omega) (by omega) (by decide) (by unfold sameUnit; decide)
  have d12 : getCell g' 3 0 ≠ getCell g' 5 0 :=
    P4 5 0 (by omega) (by omega) (by decide) 3 0 (by omega) (by omega) (by decide) (by unfold sameUnit; decide)
  have d13 : getCell g' 5 1 ≠ getCell g' 4 1 :=
    P4 4 1 (by omega) (by omega) (by decide) 5 1 (by omega) (by omega) (by decide) (by unfold sameUnit; decide)
  have d14 : getCell g' 0 1 ≠ getCell g' 4 1 :=
    P4 4 1 (by omega) (by omega) (by decide) 0 1 (by omega) (by omega) (by decide) (by unfold sameUnit; decide)
  have d15 : getCell g' 1 1 ≠ getCell g' 4 1 :=
    P4 4 1 (by omega) (by omega) (by decide) 1 1 (by omega) (by omega) (by decide) (by unfold sameUnit; decide)
  have d16 : getCell g' 2 1 ≠ getCell g' 4 1 :=
    P4 4 1 (by omega) (by omega) (by decide) 2 1 (by omega) (by omega) (by decide) (by unfold sameUnit; decide)
  have d17 : getCell g' 3 1 ≠ getCell g' 4 1 :=
    P4 4 1 (by omega) (by omega) (by decide) 3 1 (by omega) (by omega) (by decide) (by unfold sameUnit; decide)
  have d18 : getCell g' 0 1 ≠ getCell g' 5 1 :=
    P4 5 1 (by omega) (by omega) (by decide) 0 1 (by omega) (by omega) (by decide) (by unfold sameUnit; decide)
  have d19 : getCell g' 1 1 ≠ getCell g' 5 1 :=
    P4 5 1 (by omega) (by omega) (by decide) 1 1 (by omega) (by omega) (by decide) (by unfold sameUnit; decide)
  have d20 : getCell g' 2 1 ≠ getCell g' 5 1 :=
    P4 5 1 (by omega) (by omega) (by decide) 2 1 (by omega) (by omega) (by decide) (by unfold sameUnit; decide)
  have d21 : getCell g' 3 1 ≠ getCell g' 5 1 :=
    P4 5 1 (by omega) (by omega) (by decide) 3 1 (by omega) (by omega) (by decide) (by unfold sameUnit; decide)
  omega

/-- Clearing the clue at (3,0) of `seedBad` does not make it
solvable: the cleared cell is forced back to its old value by its box. -/
theorem seedBad_noSol_h30 (g' : Grid)
    (hmem : g' ∈ solsAux 37 (setCell seedBad 3 0 0)) : False := by
  obtain ⟨P1, P2, P3, P4⟩ := solsAux_mem_props 37 _ (by decide) g' hmem
  have e_0_0 : getCell g' 0 0 = 1 := by
    rw [P1 0 0 (by omega) (by omega) (by decide)]
    decide
  have e_0_1 : getCell g' 0 1 = 2 := by
    rw [P1 0 1 (by omega) (by omega) (by decide)]
    decide
  have e_0_2 : getCell g' 0 2 = 3 := by
    rw [P1 0 2 (by omega) (by omega) (by decide)]
    decide
  have e_1_0 : getCell g' 1 0 = 4 := by
    rw [P1 1 0 (by omega) (by omega) (by decide)]
    decide
  have e_1_1 : getCell g' 1 1 = 5 := by
    rw [P1 1 1 (by omega) (by omega) (by decide)]
    decide
  have e_1_2 : getCell g' 1 2 = 6 := by
    rw [P1 1 2 (by omega) (by omega) (by decide)]
    decide
  have e_2_0 : getCell g' 2 0 = 2 := by
    rw [P1 2 0 (by omega) (by omega) (by decide)]
    decide
  have e_2_1 : getCell g' 2 1 = 3 := by
    rw [P1 2 1 (by omega) (by omega) (by decide)]
    decide
  have e_2_2 : getCell g' 2 2 = 4 := by
    rw [P1 2 2 (by omega) (by omega) (by decide)]
    decide
  have e_3_1 : getCell g' 3 1 = 1 := by
    rw [P1 3 1 (by omega) (by omega) (by decide)]
    decide
  have e_3_2 : getCell g' 3 2 = 6 := by
    rw [P1 3 2 (by omega) (by omega) (by decide)]
    decide
  have hbH : 1 ≤ getCell g' 3 0 ∧ getCell g' 3 0 ≤ 6 :=
    P3 3 0 (by omega) (by omega) (by decide)
  have hH0 : getCell g' 2 0 ≠ getCell g' 3 0 :=
    P4 3 0 (by omega) (by omega) (by decide) 2 0 (by omega) (by omega) (by decide) (by unfold sameUnit; decide)
  have hH1 : getCell g' 2 1 ≠ getCell g' 3 0 :=
    P4 3 0 (by omega) (by omega) (by decide) 2 1 (by omega) (by omega) (by decide) (by unfold sameUnit; decide)
  have hH2 : getCell g' 2 2 ≠ getCell g' 3 0 :=
    P4 3 0 (by omega) (by omega) (by decide) 2 2 (by omega) (by omega) (by decide) (by unfold sameUnit; decide)
  have hH3 : getCell g' 3 1 ≠ getCell g' 3 0 :=
    P4 3 0 (by omega) (by omega) (by decide) 3 1 (by omega) (by omega) (by decide) (by unfold sameUnit; decide)
  have hH4 : getCell g' 3 2 ≠ getCell g' 3 0 :=
    P4 3 0 (by omega) (by omega) (by decide) 3 2 (by omega) (by omega) (by decide) (by unfold sameUnit; decide)
  have e_3_0 : getCell g' 3 0 = 5 := by omega
  have b_4_0 : 1 ≤ getCell g' 4 0 ∧ getCell g' 4 0 ≤ 6 :=
    P3 4 0 (by omega) (by omega) (by decide)
  have b_5_0 : 1 ≤ getCell g' 5 0 ∧ getCell g' 5 0 ≤ 6 :=
    P3 5 0 (by omega) (by omega) (by decide)
  have b_4_1 : 1 ≤ getCell g' 4 1 ∧ getCell g' 4 1 ≤ 6 :=
    P3 4 1 (by omega) (by omega) (by decide)
  have b_5_1 : 1 ≤ getCell g' 5 1 ∧ getCell g' 5 1 ≤ 6 :=
    P3 5 1 (by omega) (by omega) (by decide)
  have d0 : getCell g' 5 0 ≠ getCell g' 4 0 :=
    P4 4 0 (by omega) (by omega) (by decide) 5 0 (by omega) (by omega) (by decide) (by unfold sameUnit; decide)
  have d1 : getCell g' 4 1 ≠ getCell g' 4 0 :=
    P4 4 0 (by omega) (by omega) (by decide) 4 1 (by omega) (by omega) (by decide) (by unfold sameUnit; decide)
  have d2 : getCell g' 5 1 ≠ getCell g' 4 0 :=
    P4 4 0 (by omega) (by omega) (by decide) 5 1 (by omega) (by omega) (by decide) (by unfold sameUnit; decide)
  have d3 : getCell g' 0 0 ≠ getCell g' 4 0 :=
    P4 4 0 (by omega) (by omega) (by decide) 0 0 (by omega) (by omega) (by decide) (by unfold sameUnit; decide)
  have d4 : getCell g' 1 0 ≠ getCell g' 4 0 :=
    P4 4 0 (by omega) (by omega) (by decide) 1 0 (by omega) (by omega) (by decide) (by unfold sameUnit; decide)
  have d5 : getCell g' 2 0 ≠ getCell g' 4 0 :=
    P4 4 0 (by omega) (by omega) (by decide) 2 0 (by omega) (by omega) (by decide) (by unfold sameUnit; decide)
  have d6 : getCell g' 3 0 ≠ getCell g' 4 0 :=
    P4 4 0 (by omega) (by omega) (by decide) 3 0 (by omega) (by omega) (by decide) (by unfold sameUnit; decide)
  have d7 : getCell g' 4 1 ≠ getCell g' 5 0 :=
    P4 5 0 (by omega) (by omega) (by decide) 4 1 (by omega) (by omega) (by decide) (by unfold sameUnit; decide)
  have d8 : getCell g' 5 1 ≠ getCell g' 5 0 :=
    P4 5 0 (by omega) (by omega) (by decide) 5 1 (by omega) (by omega) (by decide) (by unfold sameUnit; decide)
  have d9 : getCell g' 0 0 ≠ getCell g' 5 0 :=
    P4 5 0 (by omega) (by omega) (by decide) 0 0 (by omega) (by omega) (by decide) (by unfold sameUnit; decide)
  have d10 : getCell g' 1 0 ≠ getCell g' 5 0 :=
    P4 5 0 (by omega) (by omega) (by decide) 1 0 (by omega) (by omega) (by decide) (by unfold sameUnit; decide)
  have d11 : getCell g' 2 0 ≠ getCell g' 5 0 :=
    P4 5 0 (by omega) (by omega) (by decide) 2 0 (by omega) (by omega) (by decide) (by unfold sameUnit; decide)
  have d12 : getCell g' 3 0 ≠ getCell g' 5 0 :=
    P4 5 0 (by omega) (by omega) (by decide) 3 0 (by omega) (by omega) (by decide) (by unfold sameUnit; decide)
  have d13 : getCell g' 5 1 ≠ getCell g' 4 1 :=
    P4 4 1 (by omega) (by omega) (by decide) 5 1 (by omega) (by omega) (by decide) (by unfold sameUnit; decide)
  have d14 : getCell g' 0 1 ≠ getCell g' 4 1 :=
    P4 4 1 (by omega) (by omega) (by decide) 0 1 (by omega) (by omega) (by decide) (by unfold sameUnit; decide)
  have d15 : getCell g' 1 1 ≠ getCell g' 4 1 :=
    P4 4 1 (by omega) (by omega) (by decide) 1 1 (by omega) (by omega) (by decide) (by unfold sameUnit; decide)
  have d16 : getCell g' 2 1 ≠ getCell g' 4 1 :=
    P4 4 1 (by omega) (by omega) (by decide) 2 1 (by omega) (by omega) (by decide) (by unfold sameUnit; decide)
  have d17 : getCell g' 3 1 ≠ getCell g' 4 1 :=
    P4 4 1 (by omega) (by omega) (by decide) 3 1 (by omega) (by omega) (by decide) (by unfold sameUnit; decide)
  have d18 : getCell g' 0 1 ≠ getCell g' 5 1 :=
    P4 5 1 (by omega) (by omega) (by decide) 0 1 (by omega) (by omega) (by decide) (by unfold sameUnit; decide)
  have d19 : getCell g' 1 1 ≠ getCell g' 5 1 :=
    P4 5 1 (by omega) (by omega) (by decide) 1 1 (by omega) (by omega) (by decide) (by unfold sameUnit; decide)
  have d20 : getCell g' 2 1 ≠ getCell g' 5 1 :=
    P4 5 1 (by omega) (by omega) (by decide) 2 1 (by omega) (by omega) (by decide) (by unfold sameUnit; decide)
  have d21 : getCell g' 3 1 ≠ getCell g' 5 1 :=
    P4 5 1 (by omega) (by omega) (by decide) 3 1 (by omega) (by omega) (by decide) (by unfold sameUnit; decide)
  omega

/-- Clearing the clue at (3,1) of `seedBad` does not make it
solvable: the cleared cell is forced back to its old value by its box. -/
theorem seedBad_noSol_h31 (g' : Grid)
    (hmem : g' ∈ solsAux 37 (setCell seedBad 3 1 0)) : False := by
  obtain ⟨P1, P2, P3, P4⟩ := solsAux_mem_props 37 _ (by decide) g' hmem
  have e_0_0 : getCell g' 0 0 = 1 := by
    rw [P1 0 0 (by omega) (by omega) (by decide)]
    decide
  have e_0_1 : getCell g' 0 1 = 2 := by
    rw [P1 0 1 (by omega) (by omega) (by decide)]
    decide
  have e_0_2 : getCell g' 0 2 = 3 := by
    rw [P1 0 2 (by omega) (by omega) (by decide)]
    decide
  have e_1_0 : getCell g' 1 0 = 4 := by
    rw [P1 1 0 (by omega) (by omega) (by decide)]
    decide
  have e_1_1 : getCell g' 1 1 = 5 := by
    rw [P1 1 1 (by omega) (by omega) (by decide)]
    decide
  have e_1_2 : getCell g' 1 2 = 6 := by
    rw [P1 1 2 (by omega) (by omega) (by decide)]
    decide
  have e_2_0 : getCell g' 2 0 = 2 := by
    rw [P1 2 0 (by omega) (by omega) (by decide)]
    decide
  have e_2_1 : getCell g' 2 1 = 3 := by
    rw [P1 2 1 (by omega) (by omega) (by decide)]
    decide
  have e_2_2 : getCell g' 2 2 = 4 := by
    rw [P1 2 2 (by omega) (by omega) (by decide)]
    decide
  have e_3_0 : getCell g' 3 0 = 5 := by
    rw [P1 3 0 (by omega) (by omega) (by decide)]
    decide
  have e_3_2 : getCell g' 3 2 = 6 := by
    rw [P1 3 2 (by omega) (by omega) (by decide)]
    decide
  have hbH : 1 ≤ getCell g' 3 1 ∧ getCell g' 3 1 ≤ 6 :=
    P3 3 1 (by omega) (by omega) (by decide)
  have hH0 : getCell g' 2 0 ≠ getCell g' 3 1 :=
    P4 3 1 (by omega) (by omega) (by decide) 2 0 (by omega) (by omega) (by decide) (by unfold sameUnit; decide)
  have hH1 : getCell g' 2 1 ≠ getCell g' 3 1 :=
    P4 3 1 (by omega) (by omega) (by decide) 2 1 (by omega) (by omega) (by decide) (by unfold sameUnit; decide)
  have hH2 : getCell g' 2 2 ≠ getCell g' 3 1 :=
    P4 3 1 (by omega) (by omega) (by decide) 2 2 (by omega) (by omega) (by decide) (by unfold sameUnit; decide)
  have hH3 : getCell g' 3 0 ≠ getCell g' 3 1 :=
    P4 3 1 (by omega) (by omega) (by decide) 3 0 (by omega) (by omega) (by decide) (by unfold sameUnit; decide)
  have hH4 : getCell g' 3 2 ≠ getCell g' 3 1 :=
    P4 3 1 (by omega) (by omega) (by decide) 3 2 (by omega) (by omega) (by decide) (by unfold sameUnit; decide)
  have e_3_1 : getCell g' 3 1 = 1 := by omega
  have b_4_0 : 1 ≤ getCell g' 4 0 ∧ getCell g' 4 0 ≤ 6 :=
    P3 4 0 (by omega) (by omega) (by decide)
  have b_5_0 : 1 ≤ getCell g' 5 0 ∧ getCell g' 5 0 ≤ 6 :=
    P3 5 0 (by omega) (by omega) (by decide)
  have b_4_1 : 1 ≤ getCell g' 4 1 ∧ getCell g' 4 1 ≤ 6 :=
    P3 4 1 (by omega) (by omega) (by decide)
  have b_5_1 : 1 ≤ getCell g' 5 1 ∧ getCell g' 5 1 ≤ 6 :=
    P3 5 1 (by omega) (by omega) (by decide)
  have d0 : getCell g' 5 0 ≠ getCell g' 4 0 :=
    P4 4 0 (by omega) (by omega) (by decide) 5 0 (by omega) (by omega) (by decide) (by unfold sameUnit; decide)
  have d1 : getCell g' 4 1 ≠ getCell g' 4 0 :=
    P4 4 0 (by omega) (by omega) (by decide) 4 1 (by omega) (by omega) (by decide) (by unfold sameUnit; decide)
  have d2 : getCell g' 5 1 ≠ getCell g' 4 0 :=
    P4 4 0 (by omega) (by omega) (by decide) 5 1 (by omega) (by omega) (by decide) (by unfold sameUnit; decide)
  have d3 : getCell g' 0 0 ≠ getCell g' 4 0 :=
    P4 4 0 (by omega) (by omega) (by decide) 0 0 (by omega) (by omega) (by decide) (by unfold sameUnit; decide)
  have d4 : getCell g' 1 0 ≠ getCell g' 4 0 :=
    P4 4 0 (by omega) (by omega) (by decide) 1 0 (by omega) (by omega) (by decide) (by unfold sameUnit; decide)
  have d5 : getCell g' 2 0 ≠ getCell g' 4 0 :=
    P4 4 0 (by omega) (by omega) (by decide) 2 0 (by omega) (by omega) (by decide) (by unfold sameUnit; decide)
  have d6 : getCell g' 3 0 ≠ getCell g' 4 0 :=
    P4 4 0 (by omega) (by omega) (by decide) 3 0 (by omega) (by omega) (by decide) (by unfold sameUnit; decide)
  have d7 : getCell g' 4 1 ≠ getCell g' 5 0 :=
    P4 5 0 (by omega) (by omega) (by decide) 4 1 (by omega) (by omega) (by decide) (by unfold sameUnit; decide)
  have d8 : getCell g' 5 1 ≠ getCell g' 5 0 :=
    P4 5 0 (by omega) (by omega) (by decide) 5 1 (by omega) (by omega) (by decide) (by unfold sameUnit; decide)
  have d9 : getCell g' 0 0 ≠ getCell g' 5 0 :=
    P4 5 0 (by omega) (by omega) (by decide) 0 0 (by omega) (by omega) (by decide) (by unfold sameUnit; decide)
  have d10 : getCell g' 1 0 ≠ getCell g' 5 0 :=
    P4 5 0 (by omega) (by omega) (by decide) 1 0 (by omega) (by omega) (by decide) (by unfold sameUnit; decide)
  have d11 : getCell g' 2 0 ≠ getCell g' 5 0 :=
    P4 5 0 (by omega) (by omega) (by decide) 2 0 (by omega) (by omega) (by decide) (by unfold sameUnit; decide)
  have d12 : getCell g' 3 0 ≠ getCell g' 5 0 :=
    P4 5 0 (by omega) (by omega) (by decide) 3 0 (by omega) (by omega) (by decide) (by unfold sameUnit; decide)
  have d13 : getCell g' 5 1 ≠ getCell g' 4 1 :=
    P4 4 1 (by omega) (by omega) (by decide) 5 1 (by omega) (by omega) (by decide) (by unfold sameUnit; decide)
  have d14 : getCell g' 0 1 ≠ getCell g' 4 1 :=
    P4 4 1 (by omega) (by omega) (by decide) 0 1 (by omega) (by omega) (by decide) (by unfold sameUnit; decide)
  have d15 : getCell g' 1 1 ≠ getCell g' 4 1 :=
    P4 4 1 (by omega) (by omega) (by decide) 1 1 (by omega) (by omega) (by decide) (by unfold sameUnit; decide)
  have d16 : getCell g' 2 1 ≠ getCell g' 4 1 :=
    P4 4 1 (by omega) (by omega) (by decide) 2 1 (by omega) (by omega) (by decide) (by unfold sameUnit; decide)
  have d17 : getCell g' 3 1 ≠ getCell g' 4 1 :=
    P4 4 1 (by omega) (by omega) (by decide) 3 1 (by omega) (by omega) (by decide) (by unfold sameUnit; decide)
  have d18 : getCell g' 0 1 ≠ getCell g' 5 1 :=
    P4 5 1 (by omega) (by omega) (by decide) 0 1 (by omega) (by omega) (by decide) (by unfold sameUnit; decide)
  have d19 : getCell g' 1 1 ≠ getCell g' 5 1 :=
    P4 5 1 (by omega) (by omega) (by decide) 1 1 (by omega) (by omega) (by decide) (by unfold sameUnit; decide)
  have d20 : getCell g' 2 1 ≠ getCell g' 5 1 :=
    P4 5 1 (by omega) (by omega) (by decide) 2 1 (by omega) (by omega) (by decide) (by unfold sameUnit; decide)
  have d21 : getCell g' 3 1 ≠ getCell g' 5 1 :=
    P4 5 1 (by omega) (by omega) (by decide) 3 1 (by omega) (by omega) (by decide) (by unfold sameUnit; decide)
  omega

/-- Clearing the clue at (3,2) of `seedBad` does not make it
solvable: the cleared cell is forced back to its old value by its box. -/
theorem seedBad_noSol_h32 (g' : Grid)
    (hmem : g' ∈ solsAux 37 (setCell seedBad 3 2 0)) : False := by
  obtain ⟨P1, P2, P3, P4⟩ := solsAux_mem_props 37 _ (by decide) g' hmem
  have e_0_0 : getCell g' 0 0 = 1 := by
    rw [P1 0 0 (by omega) (by omega) (by decide)]
    decide
  have e_0_1 : getCell g' 0 1 = 2 := by
    rw [P1 0 1 (by omega) (by omega) (by decide)]
    decide
  have e_0_2 : getCell g' 0 2 = 3 := by
    rw [P1 0 2 (by omega) (by omega) (by decide)]
    decide
  have e_1_0 : getCell g' 1 0 = 4 := by
    rw [P1 1 0 (by omega) (by omega) (by decide)]
    decide
  have e_1_1 : getCell g' 1 1 = 5 := by
    rw [P1 1 1 (by omega) (by omega) (by decide)]
    decide
  have e_1_2 : getCell g' 1 2 = 6 := by
    rw [P1 1 2 (by omega) (by omega) (by decide)]
    decide
  have e_2_0 : getCell g' 2 0 = 2 := by
    rw [P1 2 0 (by omega) (by omega) (by decide)]
    decide
  have e_2_1 : getCell g' 2 1 = 3 := by
    rw [P1 2 1 (by omega) (by omega) (by decide)]
    decide
  have e_2_2 : getCell g' 2 2 = 4 := by
    rw [P1 2 2 (by omega) (by omega) (by decide)]
    decide
  have e_3_0 : getCell g' 3 0 = 5 := by
    rw [P1 3 0 (by omega) (by omega) (by decide)]
    decide
  have e_3_1 : getCell g' 3 1 = 1 := by
    rw [P1 3 1 (by omega) (by omega) (by decide)]
    decide
  have hbH : 1 ≤ getCell g' 3 2 ∧ getCell g' 3 2 ≤ 6 :=
    P3 3 2 (by omega) (by omega) (by decide)
  have hH0 : getCell g' 2 0 ≠ getCell g' 3 2 :=
    P4 3 2 (by omega) (by omega) (by decide) 2 0 (by omega) (by omega) (by decide) (by unfold sameUnit; decide)
  have hH1 : getCell g' 2 1 ≠ getCell g' 3 2 :=
    P4 3 2 (by omega) (by omega) (by decide) 2 1 (by omega) (by omega) (by decide) (by unfold sameUnit; decide)
  have hH2 : getCell g' 2 2 ≠ getCell g' 3 2 :=
    P4 3 2 (by omega) (by omega) (by decide) 2 2 (by omega) (by omega) (by decide) (by unfold sameUnit; decide)
  have hH3 : getCell g' 3 0 ≠ getCell g' 3 2 :=
    P4 3 2 (by omega) (by omega) (by decide) 3 0 (by omega) (by omega) (by decide) (by unfold sameUnit; decide)
  have hH4 : getCell g' 3 1 ≠ getCell g' 3 2 :=
    P4 3 2 (by omega) (by omega) (by decide) 3 1 (by omega) (by omega) (by decide) (by unfold sameUnit; decide)
  have e_3_2 : getCell g' 3 2 = 6 := by omega
  have b_4_0 : 1 ≤ getCell g' 4 0 ∧ getCell g' 4 0 ≤ 6 :=
    P3 4 0 (by omega) (by omega) (by decide)
  have b_5_0 : 1 ≤ getCell g' 5 0 ∧ getCell g' 5 0 ≤ 6 :=
    P3 5 0 (by omega) (by omega) (by decide)
  have b_4_1 : 1 ≤ getCell g' 4 1 ∧ getCell g' 4 1 ≤ 6 :=
    P3 4 1 (by omega) (by omega) (by decide)
  have b_5_1 : 1 ≤ getCell g' 5 1 ∧ getCell g' 5 1 ≤ 6 :=
    P3 5 1 (by omega) (by omega) (by decide)
  have d0 : getCell g' 5 0 ≠ getCell g' 4 0 :=
    P4 4 0 (by omega) (by omega) (by decide) 5 0 (by omega) (by omega) (by decide) (by unfold sameUnit; decide)
  have d1 : getCell g' 4 1 ≠ getCell g' 4 0 :=
    P4 4 0 (by omega) (by omega) (by decide) 4 1 (by omega) (by omega) (by decide) (by unfold sameUnit; decide)
  have d2 : getCell g' 5 1 ≠ getCell g' 4 0 :=
    P4 4 0 (by omega) (by omega) (by decide) 5 1 (by omega) (by omega) (by decide) (by unfold sameUnit; decide)
  have d3 : getCell g' 0 0 ≠ getCell g' 4 0 :=
    P4 4 0 (by omega) (by omega) (by decide) 0 0 (by omega) (by omega) (by decide) (by unfold sameUnit; decide)
  have d4 : getCell g' 1 0 ≠ getCell g' 4 0 :=
    P4 4 0 (by omega) (by omega) (by decide) 1 0 (by omega) (by omega) (by decide) (by unfold sameUnit; decide)
  have d5 : getCell g' 2 0 ≠ getCell g' 4 0 :=
    P4 4 0 (by omega) (by omega) (by decide) 2 0 (by omega) (by omega) (by decide) (by unfold sameUnit; decide)
  have d6 : getCell g' 3 0 ≠ getCell g' 4 0 :=
    P4 4 0 (by omega) (by omega) (by decide) 3 0 (by omega) (by omega) (by decide) (by unfold sameUnit; decide)
  have d7 : getCell g' 4 1 ≠ getCell g' 5 0 :=
    P4 5 0 (by omega) (by omega) (by decide) 4 1 (by omega) (by omega) (by decide) (by unfold sameUnit; decide)
  have d8 : getCell g' 5 1 ≠ getCell g' 5 0 :=
    P4 5 0 (by omega) (by omega) (by decide) 5 1 (by omega) (by omega) (by decide) (by unfold sameUnit; decide)
  have d9 : getCell g' 0 0 ≠ getCell g' 5 0 :=
    P4 5 0 (by omega) (by omega) (by decide) 0 0 (by omega) (by omega) (by decide) (by unfold sameUnit; decide)
  have d10 : getCell g' 1 0 ≠ getCell g' 5 0 :=
    P4 5 0 (by omega) (by omega) (by decide) 1 0 (by omega) (by omega) (by decide) (by unfold sameUnit; decide)
  have d11 : getCell g' 2 0 ≠ getCell g' 5 0 :=
    P4 5 0 (by omega) (by omega) (by decide) 2 0 (by omega) (by omega) (by decide) (by unfold sameUnit; decide)
  have d12 : getCell g' 3 0 ≠ getCell g' 5 0 :=
    P4 5 0 (by omega) (by omega) (by decide) 3 0 (by omega) (by omega) (by decide) (by unfold sameUnit; decide)
  have d13 : getCell g' 5 1 ≠ getCell g' 4 1 :=
    P4 4 1 (by omega) (by omega) (by decide) 5 1 (by omega) (by omega) (by decide) (by unfold sameUnit; decide)
  have d14 : getCell g' 0 1 ≠ getCell g' 4 1 :=
    P4 4 1 (by omega) (by omega) (by decide) 0 1 (by omega) (by omega) (by decide) (by unfold sameUnit; decide)
  have d15 : getCell g' 1 1 ≠ getCell g' 4 1 :=
    P4 4 1 (by omega) (by omega) (by decide) 1 1 (by omega) (by omega) (by decide) (by unfold sameUnit; decide)
  have d16 : getCell g' 2 1 ≠ getCell g' 4 1 :=
    P4 4 1 (by omega) (by omega) (by decide) 2 1 (by omega) (by omega) (by decide) (by unfold sameUnit; decide)
  have d17 : getCell g' 3 1 ≠ getCell g' 4 1 :=
    P4 4 1 (by omega) (by omega) (by decide) 3 1 (by omega) (by omega) (by decide) (by unfold sameUnit; decide)
  have d18 : getCell g' 0 1 ≠ getCell g' 5 1 :=
    P4 5 1 (by omega) (by omega) (by decide) 0 1 (by omega) (by omega) (by decide) (by unfold sameUnit; decide)
  have d19 : getCell g' 1 1 ≠ getCell g' 5 1 :=
    P4 5 1 (by omega) (by omega) (by decide) 1 1 (by omega) (by omega) (by decide) (by unfold sameUnit; decide)
  have d20 : getCell g' 2 1 ≠ getCell g' 5 1 :=
    P4 5 1 (by omega) (by omega) (by decide) 2 1 (by omega) (by omega) (by decide) (by unfold sameUnit; decide)
  have d21 : getCell g' 3 1 ≠ getCell g' 5 1 :=
    P4 5 1 (by omega) (by omega) (by decide) 3 1 (by omega) (by omega) (by decide) (by unfold sameUnit; decide)
  omega

theorem seedBad_count0 : count_solutions seedBad 2 = 0 :=
  count_solutions_eq_zero_of_no_mem fun g' hmem => seedBad_noSol_seed g' hmem

theorem seedBad_count0_h00 :
    count_solutions (setCell seedBad 0 0 0) 2 = 0 :=
  count_solutions_eq_zero_of_no_mem fun g' hmem => seedBad_noSol_h00 g' hmem

theorem seedBad_count0_h01 :
    count_solutions (setCell seedBad 0 1 0) 2 = 0 :=
  count_solutions_eq_zero_of_no_mem fun g' hmem => seedBad_noSol_h01 g' hmem

theorem seedBad_count0_h02 :
    count_solutions (setCell seedBad 0 2 0) 2 = 0 :=
  count_solutions_eq_zero_of_no_mem fun g' hmem => seedBad_noSol_h02 g' hmem

theorem seedBad_count0_h10 :
    count_solutions (setCell seedBad 1 0 0) 2 = 0 :=
  count_solutions_eq_zero_of_no_mem fun g' hmem => seedBad_noSol_h10 g' hmem

theorem seedBad_count0_h11 :
    count_solutions (setCell seedBad 1 1 0) 2 = 0 :=
  count_solutions_eq_zero_of_no_mem fun g' hmem => seedBad_noSol_h11 g' hmem

theorem seedBad_count0_h12 :
    count_solutions (setCell seedBad 1 2 0) 2 = 0 :=
  count_solutions_eq_zero_of_no_mem fun g' hmem => seedBad_noSol_h12 g' hmem

theorem seedBad_count0_h20 :
    count_solutions (setCell seedBad 2 0 0) 2 = 0 :=
  count_solutions_eq_zero_of_no_mem fun g' hmem => seedBad_noSol_h20 g' hmem

theorem seedBad_count0_h21 :
    count_solutions (setCell seedBad 2 1 0) 2 = 0 :=
  count_solutions_eq_zero_of_no_mem fun g' hmem => seedBad_noSol_h21 g' hmem

theorem seedBad_count0_h22 :
    count_solutions (setCell seedBad 2 2 0) 2 = 0 :=
  count_solutions_eq_zero_of_no_mem fun g' hmem => seedBad_noSol_h22 g' hmem

theorem seedBad_count0_h30 :
    count_solutions (setCell seedBad 3 0 0) 2 = 0 :=
  count_solutions_eq_zero_of_no_mem fun g' hmem => seedBad_noSol_h30 g' hmem

theorem seedBad_count0_h31 :
    count_solutions (setCell seedBad 3 1 0) 2 = 0 :=
  count_solutions_eq_zero_of_no_mem fun g' hmem => seedBad_noSol_h31 g' hmem

theorem seedBad_count0_h32 :
    count_solutions (setCell seedBad 3 2 0) 2 = 0 :=
  count_solutions_eq_zero_of_no_mem fun g' hmem => seedBad_noSol_h32 g' hmem

/-! ## Unfolding equations kept cheap for the kernel -/

theorem generate_complete_grid_eq (g : Grid) (s1 s2 : List Nat) :
    generate_complete_grid g s1 s2 = (solve (fill_diagonal_boxes g s1 s2)).2 := rfl

theorem generate_puzzle_fst (d : String) (s1 s2 : List Nat) (cells : List (Nat × Nat)) :
    (generate_puzzle d s1 s2 cells).1 = generate_complete_grid emptyGrid s1 s2 := rfl

theorem generate_puzzle_snd (d : String) (s1 s2 : List Nat) (cells : List (Nat × Nat)) :
    (generate_puzzle d s1 s2 cells).2 =
      remove_numbers (generate_complete_grid emptyGrid s1 s2) d cells := rfl

theorem remove_numbers_eq (g : Grid) (d : String) (cells : List (Nat × Nat)) :
    remove_numbers g d cells = removeLoop cells 0 (difficultyTarget d) g := rfl

theorem solve_eq (g : Grid) : solve g = solveS 37 g := rfl

theorem count_solutions_eq (g : Grid) (limit : Nat) :
    count_solutions g limit = (backtrackS limit 37 g).1 := rfl

theorem solveS_complete (fuel : Nat) (g : Grid) (hfe : firstEmpty g = none) :
    solveS (fuel + 1) g = (true, g) := by
  unfold solveS
  rw [hfe]

theorem backtrackS_complete (limit fuel : Nat) (g : Grid) (hfe : firstEmpty g = none) :
    backtrackS limit (fuel + 1) g = (1, g) := by
  unfold backtrackS
  rw [hfe]

/-! ## Assembling the bad random stream end to end -/

theorem fill_diagonal_bad : fill_diagonal_boxes emptyGrid idPerm badPerm = seedBad := by
  decide

theorem seedBad_sols_nil : solsAux 37 seedBad = [] :=
  List.eq_nil_iff_forall_not_mem.mpr fun g' hmem => seedBad_noSol_seed g' hmem

theorem solve_seedBad : solve seedBad = (false, seedBad) := by
  obtain ⟨h1, h2⟩ := solve_false_of_nil_sols seedBad_sols_nil
  exact Prod.ext h1 h2

theorem solveFill_bad_eq :
    (solve (fill_diagonal_boxes emptyGrid idPerm badPerm)).2 = seedBad := by
  rw [fill_diagonal_bad]
  exact congrArg Prod.snd solve_seedBad

/-- On the stream (`idPerm`, `badPerm`) the seeded grid is unsolvable, so
`generate_complete_grid` stores the partial seed as the solution. -/
theorem badStream_solution_eq :
    generate_complete_grid emptyGrid idPerm badPerm = seedBad :=
  (generate_complete_grid_eq emptyGrid idPerm badPerm).trans solveFill_bad_eq

theorem seedBad_count0_spelled :
    ∀ p ∈ allCells, count_solutions (setCell seedBad p.1 p.2 0) 2 = 0 := by
  intro p hp
  obtain ⟨a, b⟩ := p
  obtain ⟨ha, hb⟩ := mem_allCells.mp hp
  show count_solutions (setCell seedBad a b 0) 2 = 0
  interval_cases a <;> interval_cases b
  · exact seedBad_count0_h00
  · exact seedBad_count0_h01
  · exact seedBad_count0_h02
  · rw [show setCell seedBad 0 3 0 = seedBad from by decide]; exact seedBad_count0
  · rw [show setCell seedBad 0 4 0 = seedBad from by decide]; exact seedBad_count0
  · rw [show setCell seedBad 0 5 0 = seedBad from by decide]; exact seedBad_count0
  · exact seedBad_count0_h10
  · exact seedBad_count0_h11
  · exact seedBad_count0_h12
  · rw [show setCell seedBad 1 3 0 = seedBad from by decide]; exact seedBad_count0
  · rw [show setCell seedBad 1 4 0 = seedBad from by decide]; exact seedBad_count0
  · rw [show setCell seedBad 1 5 0 = seedBad from by decide]; exact seedBad_count0
  · exact seedBad_count0_h20
  · exact seedBad_count0_h21
  · exact seedBad_count0_h22
  · rw [show setCell seedBad 2 3 0 = seedBad from by decide]; exact seedBad_count0
  · rw [show setCell seedBad 2 4 0 = seedBad from by decide]; exact seedBad_count0
  · rw [show setCell seedBad 2 5 0 = seedBad from by decide]; exact seedBad_count0
  · exact seedBad_count0_h30
  · exact seedBad_count0_h31
  · exact seedBad_count0_h32
  · rw [show setCell seedBad 3 3 0 = seedBad from by decide]; exact seedBad_count0
  · rw [show setCell seedBad 3 4 0 = seedBad from by decide]; exact seedBad_count0
  · rw [show setCell seedBad 3 5 0 = seedBad from by decide]; exact seedBad_count0
  · rw [show setCell seedBad 4 0 0 = seedBad from by decide]; exact seedBad_count0
  · rw [show setCell seedBad 4 1 0 = seedBad from by decide]; exact seedBad_count0
  · rw [show setCell seedBad 4 2 0 = seedBad from by decide]; exact seedBad_count0
  · rw [show setCell seedBad 4 3 0 = seedBad from by decide]; exact seedBad_count0
  · rw [show setCell seedBad 4 4 0 = seedBad from by decide]; exact seedBad_count0
  · rw [show setCell seedBad 4 5 0 = seedBad from by decide]; exact seedBad_count0
  · rw [show setCell seedBad 5 0 0 = seedBad from by decide]; exact seedBad_count0
  · rw [show setCell seedBad 5 1 0 = seedBad from by decide]; exact seedBad_count0
  · rw [show setCell seedBad 5 2 0 = seedBad from by decide]; exact seedBad_count0
  · rw [show setCell seedBad 5 3 0 = seedBad from by decide]; exact seedBad_count0
  · rw [show setCell seedBad 5 4 0 = seedBad from by decide]; exact seedBad_count0
  · rw [show setCell seedBad 5 5 0 = seedBad from by decide]; exact seedBad_count0

/-- Every tentative removal from `seedBad` tests as non-unique (count 0),
so `remove_numbers` removes nothing. -/
theorem seedBad_tests_all_fail :
    ∀ p ∈ allCells, count_solutions (setCell seedBad p.1 p.2 0) 2 ≠ 1 := by
  intro p hp
  rw [seedBad_count0_spelled p hp]
  omega

theorem remove_seedBad : remove_numbers seedBad "easy" allCells = seedBad :=
  (remove_numbers_eq seedBad "easy" allCells).trans
    (removeLoop_no_removal allCells 0 (difficultyTarget "easy") seedBad seedBad_tests_all_fail)

/-- The puzzle grid dealt on the bad stream is the unsolvable 12-clue
seed itself. -/
theorem badStream_initial_eq :
    (generate_puzzle "easy" idPerm badPerm allCells).2 = seedBad := by
  rw [generate_puzzle_snd, badStream_solution_eq]
  exact remove_seedBad

/-! ## The claims -/

/-- C1 (code bug): the claim says generation always stores a complete
valid 6×6 solution grid and never a grid with empty cells.  Both parts
fail.  On the legitimate random stream where both `fill_box` shuffles of
`fill_diagonal_boxes` return `[1,2,3,4,5,6]` and `[2,3,4,5,1,6]`, the two
seeded boxes (origins (0,0) and (2,0)) share columns, the seed is
unsolvable, and the stored solution grid is the seed itself — with cell
(4,0) empty.  On the stream where both shuffles return `[1,2,3,4,5,6]`,
`solve` completes the grid but the stored solution violates the column
constraints, so it is not a valid complete grid. -/
theorem claim_C1_generation_bug :
    (generate_puzzle "easy" idPerm badPerm allCells).1 = seedBad ∧
    getCell seedBad 4 0 = 0 ∧
    isValidComplete (generate_puzzle "easy" idPerm idPerm allCells).1 = false := by
  refine ⟨(generate_puzzle_fst "easy" idPerm badPerm allCells).trans badStream_solution_eq,
    by decide, ?_⟩
  have h : isValidComplete (generate_complete_grid emptyGrid idPerm idPerm) = false := by
    decide
  rw [← generate_puzzle_fst "easy" idPerm idPerm allCells] at h
  exact h

/-- C2 (code bug): the claim says that immediately after `generate_puzzle`
the dealt grid satisfies `count_solutions(initial_grid, 2) == 1` for every
difficulty and random stream.  On the stream (`idPerm`, `badPerm`,
row-major cell order) the seeding bug of `fill_diagonal_boxes` leaves an
unsolvable 12-clue grid as the dealt puzzle, and its solution count is 0,
not 1. -/
theorem claim_C2_uniqueness_bug :
    count_solutions (generate_puzzle "easy" idPerm badPerm allCells).2 2 = 0 := by
  have h := seedBad_count0
  rw [← badStream_initial_eq] at h
  exact h

/-- C3 (confirmed): `make_move` rejects moves on clue cells without
touching the grid; on free cells, value 0 is always accepted and stored,
and a value 1..6 is accepted and stored exactly when `is_valid_move`
passes against the current working grid, the grid being left unchanged on
rejection. -/
theorem claim_C3_make_move (grid ig : Grid) (row col num : Nat) :
    (getCell ig row col ≠ 0 → make_move grid ig row col num = (false, grid)) ∧
    (getCell ig row col = 0 → num = 0 →
      make_move grid ig row col num = (true, setCell grid row col 0)) ∧
    (getCell ig row col = 0 → 1 ≤ num → num ≤ 6 →
      (is_valid_move row col num grid = true →
        make_move grid ig row col num = (true, setCell grid row col num)) ∧
      (is_valid_move row col num grid = false →
        make_move grid ig row col num = (false, grid))) := by
  unfold make_move
  refine ⟨fun h => ?_, fun h hz => ?_, fun h h1 h6 => ⟨fun hv => ?_, fun hv => ?_⟩⟩
  · rw [if_pos h]
  · subst hz
    rw [if_neg (by simp [h]), if_pos (by simp)]
  · rw [if_neg (by simp [h]), if_pos (by simp [hv])]
  · rw [if_neg (by simp [h]), if_neg (by simp [hv]; omega)]

theorem claim_C3_witness :
    make_move seedBad seedBad 0 0 3 = (false, seedBad) ∧
    make_move seedBad seedBad 4 0 0 = (true, setCell seedBad 4 0 0) :=
  ⟨(claim_C3_make_move seedBad seedBad 0 0 3).1 (by decide),
   (claim_C3_make_move seedBad seedBad 4 0 0).2.1 (by decide) rfl⟩

/-- C4 (confirmed): `is_valid_move(row, col, num, grid)` returns true iff
`num` occurs nowhere in row `row`, nowhere in column `col`, and nowhere in
the 2×3 box with origin `((row // 2) * 2, (col // 3) * 3)`; emptiness of
the target cell is not required (no such condition appears on the right-
hand side). -/
theorem claim_C4_is_valid_move (row col num : Nat) (g : Grid)
    (hrow : row < 6) (hcol : col < 6) :
    is_valid_move row col num g = true ↔
      (∀ j, j < 6 → getCell g row j ≠ num) ∧
      (∀ i, i < 6 → getCell g i col ≠ num) ∧
      (∀ di dj, di < 2 → dj < 3 →
        getCell g ((row / 2) * 2 + di) ((col / 3) * 3 + dj) ≠ num) :=
  is_valid_move_iff

theorem claim_C4_witness :
    (4 < 6 ∧ 0 < 6) ∧
    ((∀ j, j < 6 → getCell seedBad 4 j ≠ 3) ∧
     (∀ i, i < 6 → getCell seedBad i 0 ≠ 3) ∧
     (∀ di dj, di < 2 → dj < 3 →
       getCell seedBad ((4 / 2) * 2 + di) ((0 / 3) * 3 + dj) ≠ 3)) :=
  ⟨by decide,
   (claim_C4_is_valid_move 4 0 3 seedBad (by decide) (by decide)).mp (by decide)⟩

/-- C5 (amended): for every well-shaped 6×6 grid with entries 0..6 whose
filled cells are conflict-free, `count_solutions(grid, 2)` returns 0 iff
the grid has no valid completion, 1 iff it has exactly one, and a value
≥ 2 iff it has at least two.  (The original claim quantified over every
grid; it fails on grids whose filled cells already conflict, see the
counterexample.) -/
theorem claim_C5_count_characterization (g : Grid)
    (hs : shapeB g = true) (hb : boundedB g = true) (hc : consistentB g = true) :
    (count_solutions g 2 = 0 ↔ ¬ ∃ g', Completes g g') ∧
    (count_solutions g 2 = 1 ↔ ∃! g', Completes g g') ∧
    (2 ≤ count_solutions g 2 ↔ ∃ g1 g2, Completes g g1 ∧ Completes g g2 ∧ g1 ≠ g2) :=
  count_solutions_characterizes g hs hb hc

theorem claim_C5_witness :
    shapeB emptyGrid = true ∧ boundedB emptyGrid = true ∧ consistentB emptyGrid = true ∧
    (count_solutions emptyGrid 2 = 0 ↔ ¬ ∃ g', Completes emptyGrid g') :=
  ⟨by decide, by decide, by decide,
   (claim_C5_count_characterization emptyGrid (by decide) (by decide) (by decide)).1⟩

/-- C5 (counterexample to the claim as stated): the all-ones grid is
complete, so `count_solutions` returns 1 on it, yet it has no valid
completion at all — so "returns 1 iff exactly one valid completion" and
"returns 0 iff no valid completion" both fail on it. -/
theorem claim_C5_counterexample :
    count_solutions allOnesGrid 2 = 1 ∧ ¬ ∃ g', Completes allOnesGrid g' := by
  constructor
  · have hfe : firstEmpty allOnesGrid = none := by decide
    have hb := backtrackS_complete 2 36 allOnesGrid hfe
    exact (count_solutions_eq allOnesGrid 2).trans (congrArg Prod.fst hb)
  · rintro ⟨g', hs', hagree, hbounds, hvc⟩
    have h00 : getCell g' 0 0 = 1 := by
      rw [hagree 0 0 (by decide) (by decide) (by decide)]
      decide
    have h01 : getCell g' 0 1 = 1 := by
      rw [hagree 0 1 (by decide) (by decide) (by decide)]
      decide
    have hd := validComplete_distinct hvc (show (0:Nat) < 6 by omega)
      (show (0:Nat) < 6 by omega) (show (0:Nat) < 6 by omega) (show (1:Nat) < 6 by omega)
      (by decide) (by unfold sameUnit; decide) (by omega) (by omega)
    exact hd (h01.trans h00.symm)

/-- C6 (confirmed): `count_solutions` searches only a private deep copy of
the caller's grid, so the caller's grid object holds its original value
after the call; moreover even the searched copy is restored cell by cell,
so the backtracking itself ends with the grid it started from. -/
theorem claim_C6_count_solutions_frame (g : Grid) (limit : Nat) :
    count_solutions_grid_after g limit = g ∧ (backtrackS limit 37 g).2 = g :=
  ⟨rfl, backtrackS_grid_eq limit 37 g⟩

/-- C7 (confirmed): `check_conflicts` restores every temporarily zeroed
cell whether or not it is flagged, so the working grid is exactly as
before the call, and calling it twice in a row returns the same conflict
list. -/
theorem claim_C7_check_conflicts (g : Grid) :
    (check_conflicts g).2 = g ∧
    (check_conflicts ((check_conflicts g).2)).1 = (check_conflicts g).1 := by
  have h : (check_conflicts g).2 = g := checkConflictsAux_grid_eq allCells g
  exact ⟨h, by rw [h]⟩

/-- C8 (amended): removal never clears more than the per-difficulty
target, so when `remove_numbers` starts from a complete grid the dealt
puzzle keeps at least 36 − target filled cells (21 easy, 16 medium, 11
hard); the exact counts of the original claim are not guaranteed — the
loop can stop short of its target. -/
theorem claim_C8_filled_bound (g : Grid) (d : String) (cells : List (Nat × Nat))
    (hcomp : is_complete g = true) :
    36 - difficultyTarget d ≤ filledCount (remove_numbers g d cells) := by
  have h36 : filledCount g = 36 := filledCount_complete hcomp
  have hbound := removeLoop_filled_bound cells 0 (difficultyTarget d) g
  rw [remove_numbers_eq]
  omega

theorem claim_C8_witness :
    is_complete fullGrid0 = true ∧
    36 - difficultyTarget "easy" ≤ filledCount (remove_numbers fullGrid0 "easy" allCells) :=
  ⟨by decide, claim_C8_filled_bound fullGrid0 "easy" allCells (by decide)⟩

/-- C8 (counterexample to the claim as stated): on the legitimate random
stream (`idPerm`, `badPerm`, row-major cell order) the "easy" puzzle is
dealt with 12 filled cells, not the claimed 21. -/
theorem claim_C8_counterexample :
    filledCount (generate_puzzle "easy" idPerm badPerm allCells).2 = 12 := by
  have h : filledCount seedBad = 12 := by decide
  rw [← badStream_initial_eq] at h
  exact h

/-- C9 (confirmed): on any grid with no empty cell — `is_complete` — the
row-major scans of `solve` and of the `backtrack` closure find no cell to
fill, so `solve` returns True at once (leaving the grid untouched) and
`count_solutions` returns 1, regardless of whether the filled cells
violate the row, column, or box constraints: cells already filled at call
time are never re-checked. -/
theorem claim_C9_no_recheck (g : Grid) (h : is_complete g = true) :
    (solve g).1 = true ∧ (solve g).2 = g ∧ count_solutions g 2 = 1 := by
  have hfull : ∀ i j, i < 6 → j < 6 → getCell g i j ≠ 0 := by
    intro i j hi hj
    unfold is_complete size at h
    rw [List.all_eq_true] at h
    have := h i (List.mem_range.mpr hi)
    rw [List.all_eq_true] at this
    exact decide_eq_true_iff.mp (this j (List.mem_range.mpr hj))
  have hfe : firstEmpty g = none := firstEmpty_eq_none_iff.mpr hfull
  have hsv : solveS 37 g = (true, g) := solveS_complete 36 g hfe
  have hbt : backtrackS 2 37 g = (1, g) := backtrackS_complete 2 36 g hfe
  refine ⟨?_, ?_, ?_⟩
  · exact (congrArg Prod.fst hsv)
  · exact (congrArg Prod.snd hsv)
  · exact (count_solutions_eq g 2).trans (congrArg Prod.fst hbt)

theorem claim_C9_witness :
    is_complete allOnesGrid = true ∧
    ((solve allOnesGrid).1 = true ∧ (solve allOnesGrid).2 = allOnesGrid ∧
      count_solutions allOnesGrid 2 = 1) :=
  ⟨by decide, claim_C9_no_recheck allOnesGrid (by decide)⟩

/-- C10 (confirmed): when `solve` returns False, every value it placed
during the search has been erased again, so the grid object is exactly as
it was at the call. -/
theorem claim_C10_solve_restores (g : Grid) (h : (solve g).1 = false) :
    (solve g).2 = g :=
  solveS_grid_eq 37 g h

theorem claim_C10_witness :
    (solve stuckGrid).1 = false ∧ (solve stuckGrid).2 = stuckGrid :=
  ⟨by decide, claim_C10_solve_restores stuckGrid (by decide)⟩

end MiniSudoku
